import Mathlib

/-!
# Link management core of the xradio driver (`sta.c`)

A shallow embedding of the station-side link management code of `sta.c`:
the asynchronous firmware-event dispatcher, the bss-loss confirmation works,
the unjoin teardown, the key-slot handling of `xradio_set_key` and the adaptive
block-ack timer.

Conventions of the embedding.

* `struct xradio_common` (one per device) owns the table of interfaces
  `vif_list`; a `struct xradio_vif` is addressed by its slot `if_id`.
* A delayed work is `Option Nat`: `none` when idle, `some d` when queued with a
  delay of `d` jiffies.  A plain work or timer is a `Bool` (pending or not).
* Firmware commands are appended to `fw_log`; the result of a command is read
  from the environment at the position the command takes in the log, so every
  combination of command results is covered by quantifying over the
  environment.
* Calls into mac80211 are appended to `upcalls`.
* A run that hits `SYS_BUG`, a division by zero or an out-of-bounds table read
  has no result (`none`).
* C `int` fields are `Int`, unsigned fields are `Nat`.
-/

namespace Sta

/-! ## Constants declared outside `sta.c` -/

/-- Build-time constants and feature switches that `sta.c` uses but that are
declared in headers (`xradio.h`, `wsm.h`, the kernel configuration). -/
structure Config where
  HZ : Nat
  BITS_PER_LONG : Nat
  XRWL_MAX_VIFS : Nat
  XRWL_GENERIC_IF_ID : Nat
  XRADIO_BLOCK_ACK_CNT : Int
  XRADIO_BLOCK_ACK_THLD : Int
  XRADIO_BLOCK_ACK_HIST : Int
  WSM_KEY_MAX_IDX : Nat
  XRWL_HOST_VIF0_11N_THROTTLE : Nat
  XRWL_HOST_VIF1_11N_THROTTLE : Nat
  XRWL_HOST_VIF0_11BG_THROTTLE : Nat
  XRWL_HOST_VIF1_11BG_THROTTLE : Nat
  WSM_RCPI_RSSI_THRESHOLD_ENABLE : Nat
  WSM_RCPI_RSSI_USE_RSSI : Nat
  WSM_RCPI_RSSI_DONT_USE_UPPER : Nat
  WSM_RCPI_RSSI_DONT_USE_LOWER : Nat
  WSM_PSM_ACTIVE : Nat
  WSM_PSM_PS : Nat
  WSM_PSM_FAST_PS_FLAG : Nat
  WSM_START_MODE_P2P_DEV : Nat
  XRADIO_LINK_LOSS_THOLD_DEF : Int
  XRADIO_BSS_LOSS_THOLD_DEF : Int
  P2P_BASIC_RATE_SET : Nat
  P2P_MULTIVIF : Bool
  ROAM_OFFLOAD : Bool
  TES_P2P_0002_ROC_RESTART : Bool
  AP_HT_COMPAT_FIX : Bool
  CONFIG_XRADIO_WAPI_SUPPORT : Bool
  CONFIG_XRADIO_DEBUGFS : Bool
  IPV6_FILTERING : Bool
  deriving DecidableEq

/-- Values the environment supplies during one call: the result of the
firmware command that takes position `k` of the command log, whether the
buffer allocation tagged `k` succeeds, and whether the TX queues of interface
`if_id` become empty within the wait of `__xradio_flush`. -/
structure Env where
  wsm_ret : Nat → Int
  alloc_ok : Nat → Bool
  queue_drains : Nat → Bool

/-! ## Error numbers and protocol constants -/

/-- The value of an expression of C type `int`: the mathematical result
reduced to 32 bits in two's complement (the kernel is compiled with wrapping
signed arithmetic). -/
def wrap_int (x : Int) : Int := (x + 2 ^ 31) % 2 ^ 32 - 2 ^ 31

/-- Conversion of an `int` value to `unsigned long`, the type of the delay
parameter of `queue_delayed_work`; `unsigned long` has `BITS_PER_LONG`
bits. -/
def int_to_ulong (cfg : Config) (x : Int) : Nat := (x % 2 ^ cfg.BITS_PER_LONG).toNat

def EINVAL : Int := 22
def ETIMEDOUT : Int := 110
def ENOENT : Int := 2
def EOPNOTSUPP : Int := 95
def ENOMEM : Int := 12

def ETH_ALEN : Nat := 6

def WLAN_CIPHER_SUITE_WEP40 : Nat := 0x000FAC01
def WLAN_CIPHER_SUITE_TKIP : Nat := 0x000FAC02
def WLAN_CIPHER_SUITE_CCMP : Nat := 0x000FAC04
def WLAN_CIPHER_SUITE_WEP104 : Nat := 0x000FAC05
def WLAN_CIPHER_SUITE_SMS4 : Nat := 0x00147201

def IEEE80211_KEY_FLAG_PAIRWISE : Nat := 8
def IEEE80211_KEY_FLAG_PUT_IV_SPACE : Nat := 32

def NL80211_IFTYPE_UNSPECIFIED : Nat := 0
def NL80211_IFTYPE_STATION : Nat := 2
def NL80211_IFTYPE_AP : Nat := 3
def NL80211_IFTYPE_P2P_GO : Nat := 9

def NL80211_BAND_2GHZ : Nat := 0
def NL80211_BAND_5GHZ : Nat := 1

def WLAN_CAPABILITY_IBSS : Nat := 2

def IEEE80211_FTYPE_MGMT : Nat := 0x0000
def IEEE80211_STYPE_DEAUTH : Nat := 0x00C0
def IEEE80211_FCTL_TODS : Nat := 0x0100
def WLAN_REASON_DEAUTH_LEAVING : Nat := 3

def WEP_ENCRYPT_HDR_SIZE : Nat := 4
def WEP_ENCRYPT_TAIL_SIZE : Nat := 4
def WPA_ENCRYPT_HDR_SIZE : Nat := 8
def WPA_ENCRYPT_TAIL_SIZE : Nat := 12
def WPA2_ENCRYPT_HDR_SIZE : Nat := 8
def WPA2_ENCRYPT_TAIL_SIZE : Nat := 8
def WAPI_ENCRYPT_HDR_SIZE : Nat := 18
def WAPI_ENCRYPT_TAIL_SIZE : Nat := 16

/-! ## Enumerations -/

/-- Modelled from the spec: `enum xradio_join_status` is declared in
`xradio.h`; the values and their order are those of the spec's Join Status,
`Passive < Monitor < Station < AccessPoint`, with `Passive` the zero value
tested by `if (priv->join_status)`. -/
inductive xradio_join_status where
  | PASSIVE
  | MONITOR
  | STA
  | AP
  deriving DecidableEq, Repr

def xradio_join_status.toNat : xradio_join_status → Nat
  | .PASSIVE => 0
  | .MONITOR => 1
  | .STA => 2
  | .AP => 3

/-- Modelled from the spec: `enum xradio_bss_loss_status` is declared in
`xradio.h`; the values and their order are those of the spec's Bss-Loss
Status, `None < Checking < Confirming < Confirmed`. -/
inductive xradio_bss_loss_status where
  | NONE
  | CHECKING
  | CONFIRMING
  | CONFIRMED
  deriving DecidableEq, Repr

def xradio_bss_loss_status.toNat : xradio_bss_loss_status → Nat
  | .NONE => 0
  | .CHECKING => 1
  | .CONFIRMING => 2
  | .CONFIRMED => 3

/-- The firmware event kinds switched on by `xradio_event_handler`; `OTHER`
stands for every tag the switch has no case for. -/
inductive wsm_event_id where
  | ERROR
  | BSS_LOST
  | BSS_REGAINED
  | RADAR_DETECTED
  | RCPI_RSSI
  | BT_INACTIVE
  | BT_ACTIVE
  | INACTIVITY
  | PS_MODE_ERROR
  | OTHER
  deriving DecidableEq, Repr

/-- The two notification classes of `ieee80211_cqm_rssi_notify`. -/
inductive nl80211_cqm_rssi_threshold_event where
  | LOW
  | HIGH
  deriving DecidableEq, Repr

/-! ## Records -/

/-- The power-save mode record `struct wsm_set_pm` (four byte-wide fields). -/
structure wsm_set_pm where
  pmMode : Nat
  fastPsmIdlePeriod : Nat
  apPsmChangePeriod : Nat
  minAutoPsPollPeriod : Nat
  deriving DecidableEq, Repr

/-- The variant part of a key descriptor (`struct wsm_add_key` is a tagged
union over the cipher kinds). -/
inductive wsm_key_body where
  | blank
  | wepPairwiseKey (peerAddress : List Nat) (keyLength : Nat) (keyData : List Nat)
  | wepGroupKey (keyId : Nat) (keyLength : Nat) (keyData : List Nat)
  | tkipPairwiseKey (peerAddress tkipKeyData txMicKey rxMicKey : List Nat)
  | tkipGroupKey (tkipKeyData rxMicKey : List Nat) (keyId : Nat) (rxSeqCounter : List Nat)
  | aesPairwiseKey (peerAddress aesKeyData : List Nat)
  | aesGroupKey (aesKeyData : List Nat) (keyId : Nat) (rxSeqCounter : List Nat)
  | wapiPairwiseKey (peerAddress wapiKeyData micKeyData : List Nat) (keyId : Nat)
  | wapiGroupKey (wapiKeyData micKeyData : List Nat) (keyId : Nat)
  deriving DecidableEq, Repr

/-- The key types written to `wsm_key->type`. -/
inductive wsm_key_type where
  | UNSET
  | WEP_DEFAULT
  | WEP_PAIRWISE
  | TKIP_GROUP
  | TKIP_PAIRWISE
  | AES_GROUP
  | AES_PAIRWISE
  | WAPI_GROUP
  | WAPI_PAIRWISE
  deriving DecidableEq, Repr

/-- A key descriptor, the content of one occupied key slot. -/
structure wsm_add_key where
  type : wsm_key_type
  entryIndex : Nat
  body : wsm_key_body
  deriving DecidableEq, Repr

/-- The key configuration handed over by mac80211. -/
structure ieee80211_key_conf where
  cipher : Nat
  flags : Nat
  keyidx : Nat
  keylen : Nat
  key : List Nat
  hw_key_idx : Nat
  deriving DecidableEq, Repr

/-- The two requests of `enum set_key_cmd`; `OTHER` is any other value. -/
inductive set_key_cmd where
  | SET_KEY
  | DISABLE_KEY
  | OTHER
  deriving DecidableEq, Repr

/-- One entry of the per-interface link-id table. -/
structure xradio_link_entry where
  mac : List Nat
  deriving DecidableEq, Repr

/-- A queued firmware event. -/
structure xradio_wsm_event where
  if_id : Nat
  eventId : wsm_event_id
  eventData : Nat
  deriving DecidableEq, Repr

/-- The management frame built for an expired peer link. -/
structure ieee80211_mgmt where
  frame_control : Nat
  duration : Nat
  da : List Nat
  sa : List Nat
  bssid : List Nat
  seq_ctrl : Nat
  reason_code : Nat
  deriving DecidableEq, Repr

/-- The two template frames written by `xradio_set_arpreply` and
`xradio_set_na`. -/
inductive template_frame_type where
  | ARP_REPLY
  | NA
  deriving DecidableEq, Repr

/-- Which beacon-filter table or control block `xradio_update_filtering` hands
to the firmware: the interface's own one, the static automatic one, or the
static disabled control block. -/
inductive beacon_filter_choice where
  | OWN
  | AUTO
  | DISABLED
  deriving DecidableEq, Repr

/-- A channel as `sta.c` reads it from `struct ieee80211_channel`. -/
structure ieee80211_channel where
  hw_value : Nat
  band : Nat
  deriving DecidableEq, Repr

/-- What `xradio_join_work` reads from the BSS entry returned by
`cfg80211_get_bss`: capability, beacon interval, the SSID element (its length
byte and its bytes, when present) and the DTIM period of the TIM element (when
present). -/
structure cfg80211_bss where
  capability : Nat
  beacon_interval : Nat
  ssidie : Option (Nat × List Nat)
  dtim_period : Option Nat
  deriving DecidableEq, Repr

/-- The argument of the firmware join command, `struct wsm_join`; the preamble
type (long) and `probeForJoin` (1) are constants of `xradio_join_work`. -/
structure wsm_join where
  ibss : Bool
  dtimPeriod : Nat
  beaconInterval : Nat
  mac_instance_1 : Bool
  p2p_go : Bool
  flag_bit6 : Bool
  channelNumber : Nat
  band_5g : Bool
  basicRateSet : Nat
  bssid : List Nat
  ssidLength : Nat
  ssid : List Nat
  deriving DecidableEq, Repr

/-- The argument of the firmware start command built by
`xradio_enable_listening`, `struct wsm_start`. -/
structure wsm_start where
  mode : Nat
  band_5g : Bool
  channelNumber : Nat
  beaconInterval : Nat
  DTIMPeriod : Nat
  probeDelay : Nat
  basicRateSet : Nat
  deriving DecidableEq, Repr

/-- Modelled from the spec: the TX queues are defined in `queue.c`.  Of them
only the frame named by `pending_frame_id` is kept: it is pending (taken for
the join or off-channel trigger, with the address 1 of its 802.11 header), put
back on its queue, removed from its queue, or absent. -/
inductive frame_state where
  | ABSENT
  | PENDING (addr1 : List Nat)
  | REQUEUED (addr1 : List Nat)
  | REMOVED
  deriving DecidableEq, Repr

/-- Firmware commands issued through the `wsm_*` calls. -/
inductive WsmCmd where
  | keep_alive_period (period : Nat) (if_id : Nat)
  | reset (reset_statistics : Bool) (link_id : Nat) (if_id : Nat)
  | set_operational_mode (quiescent : Bool) (disableMoreFlagUsage : Bool) (if_id : Nat)
  | set_output_power (power_level : Int) (if_id : Nat)
  | set_rcpi_rssi_threshold (rssiRcpiMode : Nat) (rollingAverageCount : Nat) (if_id : Nat)
  | set_block_ack_policy (tx_tid_policy rx_tid_policy : Nat) (if_id : Nat)
  | add_key (key : wsm_add_key) (if_id : Nat)
  | remove_key (entryIndex : Nat) (if_id : Nat)
  | set_pm (pm : wsm_set_pm) (if_id : Nat)
  | write_mib_template_frame (kind : template_frame_type) (frame_len : Nat) (if_id : Nat)
  | map_link (link_id : Int) (unmap : Bool) (if_id : Nat)
  | set_rx_filter (bssid : Bool) (if_id : Nat)
  | set_beacon_filter_table (table : beacon_filter_choice) (if_id : Nat)
  | beacon_filter_control (control : beacon_filter_choice) (bcn_count : Nat) (if_id : Nat)
  | set_bssid_filtering (enabled : Bool) (if_id : Nat)
  | start (arg : wsm_start) (if_id : Nat)
  | join (arg : wsm_join) (if_id : Nat)
  | set_protected_mgmt_policy (protectedMgmtEnable unprotectedMgmtFramesAllowed
      encryptionForAuthFrame : Bool) (if_id : Nat)
  | set_edca_params (if_id : Nat)
  | set_uapsd_info (uapsdFlags : Nat) (if_id : Nat)
  deriving DecidableEq, Repr

/-- Calls from the driver into the management stack. -/
inductive Upcall where
  | connection_loss (if_id : Nat)
  | cqm_rssi_notify (if_id : Nat) (evt : nl80211_cqm_rssi_threshold_event)
  | rx_irqsafe (if_id : Nat) (frame : ieee80211_mgmt)
  | ready_on_channel
  | remain_on_channel_expired
  deriving DecidableEq, Repr

/-- The per-interface context `struct xradio_vif`, with the fields of
`struct ieee80211_vif` that `sta.c` reads (`vif_addr`, `vif_type`, `vif_p2p`,
`vif_qos`). -/
structure xradio_vif where
  if_id : Nat
  vif_addr : List Nat
  vif_type : Nat
  vif_p2p : Bool
  vif_qos : Bool
  mode : Nat
  join_status : xradio_join_status
  join_bssid : List Nat
  join_dtim_period : Nat
  cipherType : Nat
  htcap : Bool
  disable_beacon_filter : Bool
  setbssparams_done : Bool
  association_mode : List Nat
  bss_params : List Nat
  firmware_ps_mode : wsm_set_pm
  powersave_mode : wsm_set_pm
  user_pm_mode : Nat
  uapsdFlags : Nat
  bss_loss_status : xradio_bss_loss_status
  delayed_link_loss : Nat
  bss_loss_work : Option Nat
  connection_loss_work : Option Nat
  join_timeout : Option Nat
  update_filtering_work : Bool
  set_beacon_wakeup_period_work : Bool
  set_tim_work : Bool
  delayed_unjoin : Nat
  cqm_use_rssi : Bool
  cqm_rssi_thold : Int
  cqm_link_loss_count : Int
  cqm_beacon_loss_count : Int
  ht_compat_det : Nat
  ht_compat_cnt : Nat
  link_id_db : List xradio_link_entry
  filter4_enable : Nat
  filter6_enable : Nat
  rx_filter_bssid : Bool
  bf_control_bcn_count : Nat
  enabled : Nat
  bssid : List Nat
  wep_default_key_id : Int
  power_set_true : Nat
  user_power_set_true : Nat
  beacon_int : Nat
  listen_interval : Nat
  ssid_length : Nat
  ssid : List Nat
  link_id_map : Nat
  sta_asleep_mask : Nat
  pspoll_mask : Nat
  enable_beacon : Bool
  tx_multicast : Bool
  aid0_bit_set : Bool
  buffered_multicasts : Bool
  listening : Bool
  link_id_gc_work : Option Nat
  set_cts_work : Option Nat
  pending_offchanneltx_work : Option Nat
  mcast_timeout : Bool
  deriving DecidableEq, Repr

/-- The device context `struct xradio_common`, with the scan collaborator
reduced to its flag `scan_in_progress` and its semaphore count `scan_lock`. -/
structure xradio_common where
  vif_list : List (Option xradio_vif)
  scan_in_progress : Bool
  scan_lock : Nat
  tx_lock : Nat
  ba_cnt : Int
  ba_acc : Int
  ba_cnt_rx : Int
  ba_acc_rx : Int
  ba_hist : Int
  ba_ena : Bool
  ba_timer : Bool
  ba_tid_mask : Nat
  keys : List (Option wsm_add_key)
  connet_time : List Nat
  vif0_throttle : Nat
  vif1_throttle : Nat
  output_power : Int
  event_queue : List xradio_wsm_event
  event_handler : Bool
  ps_disable : Nat
  ps_idleperiod : Nat
  ps_changeperiod : Nat
  roc_if_id : Int
  num_vifs : Int
  if_id_slot : Nat
  addresses : List (List Nat)
  mac_addr : List Nat
  driver_ready : Bool
  channel : Option ieee80211_channel
  channel_changed : Nat
  is_BT_Present : Bool
  is_go_thru_go_neg : Bool
  conf_listen_interval : Nat
  pending_frame : frame_state
  pending_frame_queue : Nat
  bh_error : Bool
  remain_on_channel : Nat
  rem_chan_timeout : Option Nat
  TES_P2P_0002_state_get_pktid : Bool
  fw_log : List WsmCmd
  upcalls : List Upcall
  deriving DecidableEq, Repr

/-! ## Block-ack timer -/

/-- C division of two `int`s: truncation toward zero, no result for a zero
divisor. -/
def c_div (a b : Int) : Option Int :=
  if b = 0 then none else some (Int.tdiv a b)

/-- The value given to the local `ba_ena` of `xradio_ba_timer` from the four
counters, evaluated left to right with the short-circuit rules of `&&` and
`||`. -/
def ba_decision (cfg : Config) (ba_cnt ba_acc ba_cnt_rx ba_acc_rx : Int) : Option Bool :=
  if ba_cnt ≥ cfg.XRADIO_BLOCK_ACK_CNT then
    match c_div ba_acc ba_cnt with
    | none => none
    | some q =>
      if q ≥ cfg.XRADIO_BLOCK_ACK_THLD then some true
      else if ba_cnt_rx ≥ cfg.XRADIO_BLOCK_ACK_CNT then
        match c_div ba_acc_rx ba_cnt_rx with
        | none => none
        | some q_rx => some (decide (q_rx ≥ cfg.XRADIO_BLOCK_ACK_THLD))
      else some false
  else some false

/-- The statement block of `xradio_ba_timer` that zeroes the four counters. -/
def ba_clear (hw : xradio_common) : xradio_common :=
  { hw with ba_cnt := 0, ba_acc := 0, ba_cnt_rx := 0, ba_acc_rx := 0 }

/-- The hysteresis block of `xradio_ba_timer`, from `if (ba_ena != hw_priv->ba_ena)`
to the label `skip_statistic_update`. -/
def ba_commit (cfg : Config) (ba_ena : Bool) (hw : xradio_common) : xradio_common :=
  if ba_ena != hw.ba_ena then
    if ba_ena then
      { hw with ba_ena := ba_ena, ba_hist := 0 }
    else if hw.ba_hist + 1 ≥ cfg.XRADIO_BLOCK_ACK_HIST then
      { hw with ba_ena := ba_ena, ba_hist := 0 }
    else
      { hw with ba_hist := hw.ba_hist + 1 }
  else if hw.ba_hist ≠ 0 then
    { hw with ba_hist := hw.ba_hist - 1 }
  else
    hw

/-- The timer callback `xradio_ba_timer`. -/
def xradio_ba_timer (cfg : Config) (hw : xradio_common) : Option xradio_common :=
  if hw.scan_in_progress then
    some (ba_clear hw)
  else
    match ba_decision cfg hw.ba_cnt hw.ba_acc hw.ba_cnt_rx hw.ba_acc_rx with
    | none => none
    | some ba_ena => some (ba_commit cfg ba_ena (ba_clear hw))

/-- What the rest of the driver leaves for one timer period: the four counters
as accumulated since the previous period and the scan flag at the time the
timer runs. -/
structure ba_sample where
  ba_cnt : Int
  ba_acc : Int
  ba_cnt_rx : Int
  ba_acc_rx : Int
  scan : Bool
  deriving DecidableEq, Repr

/-- One timer period: the sample is what `xradio_ba_timer` finds. -/
def ba_period (cfg : Config) (hw : xradio_common) (p : ba_sample) : Option xradio_common :=
  xradio_ba_timer cfg
    { hw with
      ba_cnt := p.ba_cnt
      ba_acc := p.ba_acc
      ba_cnt_rx := p.ba_cnt_rx
      ba_acc_rx := p.ba_acc_rx
      scan_in_progress := p.scan }

/-- A run of consecutive timer periods. -/
def ba_periods (cfg : Config) (hw : xradio_common) : List ba_sample → Option xradio_common
  | [] => some hw
  | p :: rest =>
    match ba_period cfg hw p with
    | none => none
    | some hw1 => ba_periods cfg hw1 rest

/-- Whether the period of this sample produces a disable decision (no scan in
progress, computed `ba_ena` false). -/
def ba_disables (cfg : Config) (p : ba_sample) : Bool :=
  !p.scan && (ba_decision cfg p.ba_cnt p.ba_acc p.ba_cnt_rx p.ba_acc_rx == some false)

/-- Whether the period of this sample produces an enable decision. -/
def ba_enables (cfg : Config) (p : ba_sample) : Bool :=
  !p.scan && (ba_decision cfg p.ba_cnt p.ba_acc p.ba_cnt_rx p.ba_acc_rx == some true)

/-! ## Interface table, firmware commands, works -/

/-- The lookup `__xrwl_hwpriv_to_vifpriv`: the interface held by slot `if_id`,
if any. -/
def xrwl_hwpriv_to_vifpriv (hw : xradio_common) (if_id : Nat) : Option xradio_vif :=
  match hw.vif_list[if_id]? with
  | some (some priv) => some priv
  | _ => none

/-- Write the interface context of slot `i` back into the device (the C code
updates `*priv` in place). -/
def set_vif (hw : xradio_common) (i : Nat) (priv : xradio_vif) : xradio_common :=
  { hw with vif_list := hw.vif_list.set i (some priv) }

/-- Issue one firmware command: it is appended to the log and its result is
the one the environment gives for that position of the log. -/
def wsm_cmd (env : Env) (hw : xradio_common) (c : WsmCmd) : Int × xradio_common :=
  (env.wsm_ret hw.fw_log.length, { hw with fw_log := hw.fw_log ++ [c] })

/-- Modelled from the spec: `SYS_WARN` is a macro declared outside `sta.c`; a
failure is logged and the truth value of the condition is passed on, as the
kernel's `WARN_ON` does: 1 when the condition is non-zero, else 0. -/
def SYS_WARN (c : Int) : Int := if c ≠ 0 then 1 else 0

/-- The kernel call `queue_delayed_work`: a work that is already queued is left
as it is, an idle one is queued with the given delay. -/
def queue_delayed_work (w : Option Nat) (delay : Nat) : Option Nat :=
  match w with
  | none => some delay
  | some d => some d

/-- The kernel call `cancel_delayed_work_sync`. -/
def cancel_delayed_work_sync (_w : Option Nat) : Option Nat := none

/-- Modelled from the spec: `wsm_lock_tx` is defined in `wsm.c`; the TX gate is
a counter and every lock adds one holder. -/
def wsm_lock_tx (hw : xradio_common) : xradio_common :=
  { hw with tx_lock := hw.tx_lock + 1 }

/-- Modelled from the spec: `wsm_unlock_tx` is defined in `wsm.c`; an unlock
releases one holder, and unlocking a gate that is already unlocked is a
diagnosed misuse that leaves it unlocked. -/
def wsm_unlock_tx (hw : xradio_common) : xradio_common :=
  { hw with tx_lock := hw.tx_lock - 1 }

/-- Modelled from the spec: `wsm_flush_tx` is defined in `wsm.c`; it waits for
the frames in flight and changes none of the fields kept here. -/
def wsm_flush_tx (hw : xradio_common) : xradio_common := hw

/-- The semaphore call `down_trylock` on `scan.lock`: `true` when the
semaphore was taken (the C function returns 0 then). -/
def scan_down_trylock (hw : xradio_common) : Bool × xradio_common :=
  if hw.scan_lock = 0 then (false, hw)
  else (true, { hw with scan_lock := hw.scan_lock - 1 })

/-- The semaphore call `up` on `scan.lock`. -/
def scan_up (hw : xradio_common) : xradio_common :=
  { hw with scan_lock := hw.scan_lock + 1 }

/-- C `memset(p, 0, sizeof ...)` on a byte image. -/
def memset0 (bytes : List Nat) : List Nat := bytes.map (fun _ => 0)

/-- C `memcpy(dst, src + off, n)` read side: `n` bytes of `src` from `off`. -/
def bytes_at (src : List Nat) (off n : Nat) : List Nat := (src.drop off).take n

/-- C `ffs` on a 32-bit value: 0 for 0, else one plus the index of the lowest
set bit. -/
def ffs (x : Nat) : Nat :=
  match (List.range 32).find? (fun i => x.testBit i) with
  | none => 0
  | some i => i + 1

/-! ## Key-slot pool -/

/-- Index of the first free slot of a key table. -/
def first_free_slot : List (Option wsm_add_key) → Option Nat
  | [] => none
  | none :: _ => some 0
  | some _ :: rest => (first_free_slot rest).map (fun i => i + 1)

/-- Modelled from the spec: `xradio_alloc_key` is defined outside `sta.c`.
Allocation scans for the first free slot, marks it occupied by a blank
descriptor carrying its index, and fails (`none`, a negative index in C) when
no slot is free. -/
def xradio_alloc_key (hw : xradio_common) : Option Nat × xradio_common :=
  match first_free_slot hw.keys with
  | none => (none, hw)
  | some idx =>
    let fresh : wsm_add_key :=
      { type := wsm_key_type.UNSET, entryIndex := idx, body := wsm_key_body.blank }
    (some idx, { hw with keys := hw.keys.set idx (some fresh) })

/-- Modelled from the spec: `xradio_free_key` is defined outside `sta.c`.
Release marks the slot free. -/
def xradio_free_key (hw : xradio_common) (idx : Nat) : xradio_common :=
  { hw with keys := hw.keys.set idx none }

/-- Store through the pointer `wsm_key = &hw_priv->keys[idx]`. -/
def write_key (hw : xradio_common) (idx : Nat) (k : wsm_add_key) : xradio_common :=
  { hw with keys := hw.keys.set idx (some k) }

/-! ## Power-save commit -/

/-- The function `xradio_set_pm`; returns the result and the updated interface
and device. -/
def xradio_set_pm (cfg : Config) (env : Env) (hw : xradio_common) (priv : xradio_vif)
    (arg : wsm_set_pm) : Int × xradio_vif × xradio_common :=
  let pm := arg
  let pm := if cfg.CONFIG_XRADIO_DEBUGFS && hw.ps_disable != 0
    then { pm with pmMode := cfg.WSM_PSM_ACTIVE } else pm
  let pm := if cfg.CONFIG_XRADIO_DEBUGFS && hw.ps_idleperiod != 0
    then { pm with fastPsmIdlePeriod := (hw.ps_idleperiod * 2) % 256,
                   apPsmChangePeriod := (hw.ps_changeperiod * 2) % 256 } else pm
  let pm := if priv.uapsdFlags != 0
    then { pm with pmMode := pm.pmMode &&& (255 ^^^ cfg.WSM_PSM_FAST_PS_FLAG) } else pm
  if pm ≠ priv.firmware_ps_mode then
    let priv1 := { priv with firmware_ps_mode := pm }
    let r := wsm_cmd env hw (WsmCmd.set_pm pm priv1.if_id)
    (r.1, priv1, r.2)
  else
    (0, priv, hw)

/-! ## RCPI/RSSI reporting set-up and filtering -/

/-- The function `xradio_setup_mac_pvif`. -/
def xradio_setup_mac_pvif (cfg : Config) (env : Env) (hw : xradio_common) (priv : xradio_vif) :
    Int × xradio_vif × xradio_common :=
  let rssiRcpiMode := cfg.WSM_RCPI_RSSI_THRESHOLD_ENABLE ||| cfg.WSM_RCPI_RSSI_DONT_USE_UPPER
    ||| cfg.WSM_RCPI_RSSI_DONT_USE_LOWER
  let priv1 := if rssiRcpiMode &&& cfg.WSM_RCPI_RSSI_USE_RSSI != 0
    then { priv with cqm_use_rssi := true } else priv
  let target := if cfg.P2P_MULTIVIF then (if priv1.if_id != 0 then 1 else 0) else priv1.if_id
  let r := wsm_cmd env hw (WsmCmd.set_rcpi_rssi_threshold rssiRcpiMode 16 target)
  (r.1, priv1, r.2)

/-- The function `xradio_update_filtering`; it only issues firmware commands. -/
def xradio_update_filtering (env : Env) (hw : xradio_common) (priv : xradio_vif) :
    xradio_common :=
  if priv.join_status = xradio_join_status.PASSIVE then hw
  else
    let bssid_filtering := !priv.rx_filter_bssid
    let bssid_filtering :=
      if priv.join_status = xradio_join_status.MONITOR then false else bssid_filtering
    let ap_mode := priv.vif_type == NL80211_IFTYPE_AP
    let bssid_filtering := if priv.vif_p2p then false else bssid_filtering
    let own := priv.vif_p2p || NL80211_IFTYPE_STATION != priv.vif_type
    let r := wsm_cmd env hw (WsmCmd.set_rx_filter priv.rx_filter_bssid priv.if_id)
    let r := if r.1 = 0 ∧ ap_mode = false then
        wsm_cmd env r.2 (WsmCmd.set_beacon_filter_table
          (if own then beacon_filter_choice.OWN else beacon_filter_choice.AUTO) priv.if_id)
      else r
    let r := if r.1 = 0 ∧ ap_mode = false then
        if priv.disable_beacon_filter then
          wsm_cmd env r.2 (WsmCmd.beacon_filter_control beacon_filter_choice.DISABLED 1 priv.if_id)
        else
          wsm_cmd env r.2 (WsmCmd.beacon_filter_control
            (if own then beacon_filter_choice.OWN else beacon_filter_choice.AUTO)
            priv.bf_control_bcn_count priv.if_id)
      else r
    let r := if r.1 = 0 then
        wsm_cmd env r.2 (WsmCmd.set_bssid_filtering bssid_filtering priv.if_id)
      else r
    r.2

/-! ## Firmware event dispatcher -/

/-- The value `rcpiRssi` computed in the `WSM_EVENT_RCPI_RSSI` case: the low
byte of the payload, read as a signed byte in RSSI mode and converted by
`/ 2 - 110` in RCPI mode. -/
def rcpi_rssi_value (cqm_use_rssi : Bool) (eventData : Nat) : Int :=
  let rcpiRssi : Int := ((eventData % 256 : Nat) : Int)
  if cqm_use_rssi then
    (if rcpiRssi ≥ 128 then rcpiRssi - 256 else rcpiRssi)
  else
    Int.tdiv rcpiRssi 2 - 110

/-- Modelled from the spec: `xrwl_unmap_link` is defined in `ap.c`; it releases
the per-link mapping of `link_id` by a firmware map-link command with the
unmap flag. -/
def xrwl_unmap_link (env : Env) (hw : xradio_common) (priv : xradio_vif) (link_id : Int) :
    xradio_common :=
  (wsm_cmd env hw (WsmCmd.map_link link_id true priv.if_id)).2

/-- Read `priv->link_id_db[idx]` for a C `int` index: no result outside the
table. -/
def link_entry_at (db : List xradio_link_entry) (idx : Int) : Option xradio_link_entry :=
  if idx < 0 then none else db.get? idx.toNat

/-- The body of the `list_for_each_entry` loop of `xradio_event_handler` for
one event; `tag` identifies the event within its batch for the buffer
allocation. -/
def handle_event (cfg : Config) (env : Env) (tag : Nat) (hw : xradio_common)
    (event : xradio_wsm_event) : Option xradio_common :=
  match xrwl_hwpriv_to_vifpriv hw event.if_id with
  | none => some hw
  | some priv =>
    match event.eventId with
    | .ERROR => some hw
    | .BSS_LOST =>
      if priv.bss_loss_status.toNat > xradio_bss_loss_status.NONE.toNat then some hw
      else
        let priv := { priv with bss_loss_status := xradio_bss_loss_status.CHECKING }
        let priv := { priv with bss_loss_work := cancel_delayed_work_sync priv.bss_loss_work }
        let priv := { priv with
          connection_loss_work := cancel_delayed_work_sync priv.connection_loss_work }
        let t := scan_down_trylock hw
        if t.1 then
          let hw := scan_up t.2
          let priv := { priv with delayed_link_loss := 0 }
          let priv := { priv with
            bss_loss_work := queue_delayed_work priv.bss_loss_work (cfg.HZ / 10) }
          some (set_vif hw event.if_id priv)
        else
          let hw := t.2
          let priv := { priv with delayed_link_loss := 1 }
          let priv := { priv with
            bss_loss_work := queue_delayed_work priv.bss_loss_work (10 * cfg.HZ) }
          some (set_vif hw event.if_id priv)
    | .BSS_REGAINED =>
      let priv := { priv with delayed_link_loss := 0 }
      let priv := { priv with bss_loss_status := xradio_bss_loss_status.NONE }
      let priv := { priv with bss_loss_work := cancel_delayed_work_sync priv.bss_loss_work }
      let priv := { priv with
        connection_loss_work := cancel_delayed_work_sync priv.connection_loss_work }
      some (set_vif hw event.if_id priv)
    | .RADAR_DETECTED => some hw
    | .RCPI_RSSI =>
      let rcpiRssi := rcpi_rssi_value priv.cqm_use_rssi event.eventData
      let cqm_evt := if rcpiRssi ≤ priv.cqm_rssi_thold
        then nl80211_cqm_rssi_threshold_event.LOW
        else nl80211_cqm_rssi_threshold_event.HIGH
      some { hw with upcalls := hw.upcalls ++ [Upcall.cqm_rssi_notify priv.if_id cqm_evt] }
    | .BT_INACTIVE => some hw
    | .BT_ACTIVE => some hw
    | .INACTIVITY =>
      let link_id : Int := (ffs (event.eventData % 2 ^ 32) : Int) - 1
      if env.alloc_ok tag = false then some hw
      else
        let hw := xrwl_unmap_link env hw priv link_id
        match link_entry_at priv.link_id_db (link_id - 1) with
        | none => none
        | some entry =>
          let deauth : ieee80211_mgmt :=
            { duration := 0
              da := priv.vif_addr.take ETH_ALEN
              sa := entry.mac.take ETH_ALEN
              bssid := priv.vif_addr.take ETH_ALEN
              frame_control :=
                IEEE80211_FTYPE_MGMT ||| IEEE80211_STYPE_DEAUTH ||| IEEE80211_FCTL_TODS
              reason_code := WLAN_REASON_DEAUTH_LEAVING
              seq_ctrl := 0 }
          let hw := { hw with upcalls := hw.upcalls ++ [Upcall.rx_irqsafe priv.if_id deauth] }
          let priv := { priv with set_tim_work := true }
          some (set_vif hw event.if_id priv)
    | .PS_MODE_ERROR =>
      if priv.uapsdFlags = 0 ∧ priv.user_pm_mode ≠ cfg.WSM_PSM_PS then
        let pm := priv.powersave_mode
        let priv := { priv with
          powersave_mode := { priv.powersave_mode with pmMode := cfg.WSM_PSM_ACTIVE } }
        let r := xradio_set_pm cfg env hw priv priv.powersave_mode
        let priv := if r.1 ≠ 0 then { r.2.1 with powersave_mode := pm } else r.2.1
        some (set_vif r.2.2 event.if_id priv)
      else some hw
    | .OTHER => some hw

/-- The loop of `xradio_event_handler` over the detached batch. -/
def handle_events (cfg : Config) (env : Env) (hw : xradio_common) :
    List xradio_wsm_event → Option xradio_common
  | [] => some hw
  | event :: rest =>
    match handle_event cfg env rest.length hw event with
    | none => none
    | some hw1 => handle_events cfg env hw1 rest

/-- The work `xradio_event_handler`: the whole queue is detached, every event
of the batch is handled in arrival order, and the batch is freed. -/
def xradio_event_handler (cfg : Config) (env : Env) (hw : xradio_common) :
    Option xradio_common :=
  handle_events cfg env { hw with event_queue := [] } hw.event_queue

/-- The function `xradio_free_event_queue`. -/
def xradio_free_event_queue (hw : xradio_common) : xradio_common :=
  { hw with event_queue := [] }

/-! ## Link-loss works -/

/-- The work `xradio_bss_loss_work` of the interface in slot `i`.  The local
`timeout` is an `int`: the difference of the counts and the product
`timeout * HZ` are 32-bit values, and the quotient is converted to the
`unsigned long` delay of `queue_delayed_work`. -/
def xradio_bss_loss_work (cfg : Config) (hw : xradio_common) (i : Nat) :
    Option xradio_common :=
  match xrwl_hwpriv_to_vifpriv hw i with
  | none => none
  | some priv =>
    let timeout : Int := wrap_int (priv.cqm_link_loss_count - priv.cqm_beacon_loss_count)
    let report (priv : xradio_vif) : xradio_common :=
      let timeout : Int :=
        if priv.cqm_beacon_loss_count ≠ 0 then (if timeout ≤ 0 then 0 else timeout) else 0
      let priv := { priv with
        connection_loss_work := cancel_delayed_work_sync priv.connection_loss_work }
      let priv := { priv with
        connection_loss_work := queue_delayed_work priv.connection_loss_work
          (int_to_ulong cfg (Int.tdiv (wrap_int (timeout * (cfg.HZ : Int))) 10)) }
      let priv := { priv with bss_loss_status := xradio_bss_loss_status.NONE }
      set_vif hw i priv
    if priv.vif_p2p then some (report priv)
    else if priv.bss_loss_status = xradio_bss_loss_status.CONFIRMING then
      let priv := { priv with bss_loss_status := xradio_bss_loss_status.CONFIRMED }
      let priv := { priv with
        bss_loss_work := queue_delayed_work priv.bss_loss_work (1 * cfg.HZ) }
      some (set_vif hw i priv)
    else if priv.bss_loss_status = xradio_bss_loss_status.NONE then
      let priv := { priv with
        connection_loss_work := cancel_delayed_work_sync priv.connection_loss_work }
      some (set_vif hw i priv)
    else some (report priv)

/-- The work `xradio_connection_loss_work` of the interface in slot `i`. -/
def xradio_connection_loss_work (hw : xradio_common) (i : Nat) : Option xradio_common :=
  match xrwl_hwpriv_to_vifpriv hw i with
  | none => none
  | some priv =>
    some { hw with upcalls := hw.upcalls ++ [Upcall.connection_loss priv.if_id] }

/-- The workqueue lets the queued `bss_loss_work` of slot `i` fire: the work
leaves the queue (it is idle again while its function runs) and
`xradio_bss_loss_work` runs.  Nothing fires when the work is not queued. -/
def fire_bss_loss_work (cfg : Config) (hw : xradio_common) (i : Nat) : Option xradio_common :=
  match xrwl_hwpriv_to_vifpriv hw i with
  | none => none
  | some priv =>
    match priv.bss_loss_work with
    | none => none
    | some _ => xradio_bss_loss_work cfg (set_vif hw i { priv with bss_loss_work := none }) i

/-- The workqueue lets the queued `connection_loss_work` of slot `i` fire. -/
def fire_connection_loss_work (hw : xradio_common) (i : Nat) : Option xradio_common :=
  match xrwl_hwpriv_to_vifpriv hw i with
  | none => none
  | some priv =>
    match priv.connection_loss_work with
    | none => none
    | some _ =>
      xradio_connection_loss_work (set_vif hw i { priv with connection_loss_work := none }) i

/-! ## Unjoin -/

/-- The loop `xradio_for_each_vif` of `xradio_unjoin_work`: whether a sibling
interface in `Station` status has the high-throughput capability. -/
def sibling_htcap (cfg : Config) (hw : xradio_common) : Bool :=
  (List.range cfg.XRWL_MAX_VIFS).any (fun i =>
    if cfg.P2P_MULTIVIF && i == cfg.XRWL_MAX_VIFS - 1 then false
    else
      match xrwl_hwpriv_to_vifpriv hw i with
      | none => false
      | some tmp_priv => tmp_priv.join_status == xradio_join_status.STA && tmp_priv.htcap)

/-- The lines of `xradio_unjoin_work` under `#ifdef AP_HT_COMPAT_FIX`:
`priv->ht_compat_det &= ~1; priv->ht_compat_cnt = 0;`. -/
def unjoin_prologue_vif (cfg : Config) (priv : xradio_vif) : xradio_vif :=
  if cfg.AP_HT_COMPAT_FIX
    then { priv with ht_compat_det := priv.ht_compat_det - priv.ht_compat_det % 2,
                     ht_compat_cnt := 0 }
    else priv

/-- The work `xradio_unjoin_work` of the interface in slot `i`, entered with the
TX gate locked by the caller. -/
def xradio_unjoin_work (cfg : Config) (env : Env) (hw : xradio_common) (i : Nat) :
    Option xradio_common :=
  match xrwl_hwpriv_to_vifpriv hw i with
  | none => none
  | some priv =>
    let hw := { hw with connet_time := hw.connet_time.set priv.if_id 0 }
    let priv := unjoin_prologue_vif cfg priv
    let hw := { hw with ba_timer := false }
    if hw.scan_in_progress then
      let old := priv.delayed_unjoin
      let priv := { priv with delayed_unjoin := 1 }
      let hw := set_vif hw i priv
      if old ≠ 0 then some (wsm_unlock_tx hw) else some hw
    else if priv.join_status.toNat ≠ 0 ∧
        priv.join_status.toNat > xradio_join_status.STA.toNat then
      none
    else if priv.join_status.toNat ≠ 0 then
      let priv := { priv with update_filtering_work := false }
      let priv := { priv with set_beacon_wakeup_period_work := false }
      let priv := { priv with join_bssid := memset0 priv.join_bssid }
      let priv := { priv with join_status := xradio_join_status.PASSIVE }
      let hw := wsm_flush_tx hw
      let hw := (wsm_cmd env hw (WsmCmd.keep_alive_period 0 priv.if_id)).2
      let hw := (wsm_cmd env hw (WsmCmd.reset true 0 priv.if_id)).2
      let hw := (wsm_cmd env hw (WsmCmd.set_operational_mode true true priv.if_id)).2
      let hw := (wsm_cmd env hw (WsmCmd.set_output_power (hw.output_power * 10) priv.if_id)).2
      let priv := { priv with join_dtim_period := 0 }
      let priv := { priv with cipherType := 0 }
      let r := xradio_setup_mac_pvif cfg env hw priv
      let priv := r.2.1
      let hw := r.2.2
      let hw := xradio_free_event_queue hw
      let hw := { hw with event_handler := false }
      let priv := { priv with
        connection_loss_work := cancel_delayed_work_sync priv.connection_loss_work }
      let hw := (wsm_cmd env hw (WsmCmd.set_block_ack_policy 0 hw.ba_tid_mask priv.if_id)).2
      let priv := { priv with disable_beacon_filter := false }
      let hw := xradio_update_filtering env hw priv
      let priv := { priv with setbssparams_done := false }
      let priv := { priv with association_mode := memset0 priv.association_mode }
      let priv := { priv with bss_params := memset0 priv.bss_params }
      let priv := { priv with firmware_ps_mode :=
        { pmMode := 0, fastPsmIdlePeriod := 0, apPsmChangePeriod := 0, minAutoPsPollPeriod := 0 } }
      let priv := { priv with htcap := false }
      let hw := set_vif hw i priv
      let is_htcapie := sibling_htcap cfg hw
      let hw := if is_htcapie
        then { hw with vif0_throttle := cfg.XRWL_HOST_VIF0_11N_THROTTLE,
                       vif1_throttle := cfg.XRWL_HOST_VIF1_11N_THROTTLE }
        else { hw with vif0_throttle := cfg.XRWL_HOST_VIF0_11BG_THROTTLE,
                       vif1_throttle := cfg.XRWL_HOST_VIF1_11BG_THROTTLE }
      some (wsm_unlock_tx hw)
    else
      some (wsm_unlock_tx (set_vif hw i priv))

/-! ## Key installation and removal -/

/-- Sizes of the encryption header and tail chosen by the `switch` on
`priv->cipherType` in `xradio_set_arpreply` and `xradio_set_na`. -/
def encrypt_sizes (cipherType : Nat) : Nat × Nat :=
  if cipherType = WLAN_CIPHER_SUITE_WEP40 ∨ cipherType = WLAN_CIPHER_SUITE_WEP104 then
    (WEP_ENCRYPT_HDR_SIZE, WEP_ENCRYPT_TAIL_SIZE)
  else if cipherType = WLAN_CIPHER_SUITE_TKIP then
    (WPA_ENCRYPT_HDR_SIZE, WPA_ENCRYPT_TAIL_SIZE)
  else if cipherType = WLAN_CIPHER_SUITE_CCMP then
    (WPA2_ENCRYPT_HDR_SIZE, WPA2_ENCRYPT_TAIL_SIZE)
  else if cipherType = WLAN_CIPHER_SUITE_SMS4 then
    (WAPI_ENCRYPT_HDR_SIZE, WAPI_ENCRYPT_TAIL_SIZE)
  else (0, 0)

/-- The common shape of `xradio_set_arpreply` and `xradio_set_na`: a template
frame of the computed length is written to the firmware; `payload` is the size
of the protocol headers and payload that follow the SNAP header. -/
def set_template_frame (env : Env) (hw : xradio_common) (priv : xradio_vif)
    (kind : template_frame_type) (payload : Nat) : Int × xradio_vif × xradio_common :=
  let tag := 2 * hw.fw_log.length + (if kind = template_frame_type.NA then 1 else 0)
  if env.alloc_ok tag = false then (-ENOMEM, priv, hw)
  else
    let priv := if priv.vif_type = NL80211_IFTYPE_AP ∧ priv.vif_p2p = true
      then { priv with cipherType := WLAN_CIPHER_SUITE_CCMP } else priv
    let sizes := encrypt_sizes priv.cipherType
    let framehdrlen := 24 + sizes.1 + (if priv.vif_qos then 2 else 0)
    let framebdylen := 6 + 2 + payload + sizes.2
    let r := wsm_cmd env hw
      (WsmCmd.write_mib_template_frame kind (framehdrlen + framebdylen + 4) priv.if_id)
    (SYS_WARN r.1, priv, r.2)

/-- The function `xradio_set_arpreply` (ARP header of 8 bytes and 20 bytes of
ARP payload). -/
def xradio_set_arpreply (env : Env) (hw : xradio_common) (priv : xradio_vif) :
    Int × xradio_vif × xradio_common :=
  set_template_frame env hw priv template_frame_type.ARP_REPLY (8 + 20)

/-- The function `xradio_set_na` (IPv6 header of 40 bytes and 32 bytes of
neighbour-advertisement payload). -/
def xradio_set_na (env : Env) (hw : xradio_common) (priv : xradio_vif) :
    Int × xradio_vif × xradio_common :=
  set_template_frame env hw priv template_frame_type.NA (40 + 32)

/-- The descriptor written into the allocated slot by the `switch` on
`key->cipher` of `xradio_set_key`; `none` for the cases that leave through
`goto finally` (a WEP key longer than 16 bytes, an unknown cipher suite). -/
def fill_key (cfg : Config) (priv : xradio_vif) (pairwise : Bool) (peer_addr : List Nat)
    (key : ieee80211_key_conf) (idx : Nat) : Except Int wsm_add_key :=
  if key.cipher = WLAN_CIPHER_SUITE_WEP40 ∨ key.cipher = WLAN_CIPHER_SUITE_WEP104 then
    if key.keylen > 16 then Except.error (-EINVAL)
    else if pairwise then
      Except.ok { type := wsm_key_type.WEP_PAIRWISE, entryIndex := idx,
                  body := wsm_key_body.wepPairwiseKey (bytes_at peer_addr 0 ETH_ALEN)
                    key.keylen (bytes_at key.key 0 key.keylen) }
    else
      Except.ok { type := wsm_key_type.WEP_DEFAULT, entryIndex := idx,
                  body := wsm_key_body.wepGroupKey key.keyidx key.keylen
                    (bytes_at key.key 0 key.keylen) }
  else if key.cipher = WLAN_CIPHER_SUITE_TKIP then
    if pairwise then
      Except.ok { type := wsm_key_type.TKIP_PAIRWISE, entryIndex := idx,
                  body := wsm_key_body.tkipPairwiseKey (bytes_at peer_addr 0 ETH_ALEN)
                    (bytes_at key.key 0 16) (bytes_at key.key 16 8) (bytes_at key.key 24 8) }
    else
      let mic_offset := if priv.mode = NL80211_IFTYPE_AP then 16 else 24
      Except.ok { type := wsm_key_type.TKIP_GROUP, entryIndex := idx,
                  body := wsm_key_body.tkipGroupKey (bytes_at key.key 0 16)
                    (bytes_at key.key mic_offset 8) key.keyidx (List.replicate 8 0) }
  else if key.cipher = WLAN_CIPHER_SUITE_CCMP then
    if pairwise then
      Except.ok { type := wsm_key_type.AES_PAIRWISE, entryIndex := idx,
                  body := wsm_key_body.aesPairwiseKey (bytes_at peer_addr 0 ETH_ALEN)
                    (bytes_at key.key 0 16) }
    else
      Except.ok { type := wsm_key_type.AES_GROUP, entryIndex := idx,
                  body := wsm_key_body.aesGroupKey (bytes_at key.key 0 16) key.keyidx
                    (List.replicate 8 0) }
  else if cfg.CONFIG_XRADIO_WAPI_SUPPORT = true ∧ key.cipher = WLAN_CIPHER_SUITE_SMS4 then
    if pairwise then
      Except.ok { type := wsm_key_type.WAPI_PAIRWISE, entryIndex := idx,
                  body := wsm_key_body.wapiPairwiseKey (bytes_at peer_addr 0 ETH_ALEN)
                    (bytes_at key.key 0 16) (bytes_at key.key 16 16) key.keyidx }
    else
      Except.ok { type := wsm_key_type.WAPI_GROUP, entryIndex := idx,
                  body := wsm_key_body.wapiGroupKey (bytes_at key.key 0 16)
                    (bytes_at key.key 16 16) key.keyidx }
  else Except.error (-EOPNOTSUPP)

/-- The callback `xradio_set_key` for the interface in slot `i`; `sta` is the
peer address when a station is given.  The result is the return value, the key
configuration as left for mac80211 and the device. -/
def xradio_set_key (cfg : Config) (env : Env) (hw : xradio_common) (i : Nat)
    (cmd : set_key_cmd) (sta : Option (List Nat)) (key : ieee80211_key_conf) :
    Option (Int × ieee80211_key_conf × xradio_common) :=
  match xrwl_hwpriv_to_vifpriv hw i with
  | none => none
  | some priv =>
    match cmd with
    | .SET_KEY =>
      let pairwise := key.flags &&& IEEE80211_KEY_FLAG_PAIRWISE != 0
      let a := xradio_alloc_key hw
      match a.1 with
      | none => some (-EINVAL, key, a.2)
      | some idx =>
        let hw := a.2
        if pairwise = true ∧ sta = none then none
        else
          let peer_addr := sta.getD []
          let key := { key with flags := key.flags ||| IEEE80211_KEY_FLAG_PUT_IV_SPACE }
          let priv := { priv with cipherType := key.cipher }
          match fill_key cfg priv pairwise peer_addr key idx with
          | Except.error e =>
            let hw := xradio_free_key hw idx
            some (e, key, set_vif hw i priv)
          | Except.ok wsm_key =>
            let hw := write_key hw idx wsm_key
            let r := wsm_cmd env hw (WsmCmd.add_key wsm_key priv.if_id)
            let ret := SYS_WARN r.1
            let hw := r.2
            let key := if ret = 0 then { key with hw_key_idx := idx } else key
            let hw := if ret = 0 then hw else xradio_free_key hw idx
            let wanted := pairwise || wsm_key.type == wsm_key_type.WEP_DEFAULT
            let r4 := if ret = 0 ∧ wanted = true ∧ priv.filter4_enable &&& 2 ≠ 0
              then (xradio_set_arpreply env hw priv).2 else (priv, hw)
            let r6 := if cfg.IPV6_FILTERING = true ∧ ret = 0 ∧ wanted = true ∧
                r4.1.filter6_enable &&& 2 ≠ 0
              then (xradio_set_na env r4.2 r4.1).2 else r4
            some (ret, key, set_vif r6.2 i r6.1)
    | .DISABLE_KEY =>
      let entryIndex := key.hw_key_idx
      if entryIndex > cfg.WSM_KEY_MAX_IDX then some (-EINVAL, key, hw)
      else
        let hw := xradio_free_key hw entryIndex
        let r := wsm_cmd env hw (WsmCmd.remove_key entryIndex priv.if_id)
        some (r.1, key, r.2)
    | .OTHER => some (-EOPNOTSUPP, key, hw)

/-! ## Listening (off-channel presence) -/

/-- The function `xradio_enable_listening` on the channel `chan`. -/
def xradio_enable_listening (cfg : Config) (env : Env) (hw : xradio_common)
    (priv : xradio_vif) (chan : ieee80211_channel) : Int × xradio_vif × xradio_common :=
  let start : wsm_start :=
    { mode :=
        if cfg.P2P_MULTIVIF
          then cfg.WSM_START_MODE_P2P_DEV ||| (if priv.if_id != 0 then 16 else 0)
          else cfg.WSM_START_MODE_P2P_DEV ||| (priv.if_id * 16)
      band_5g := chan.band == NL80211_BAND_5GHZ
      channelNumber := chan.hw_value
      beaconInterval := 100
      DTIMPeriod := 1
      probeDelay := 0
      basicRateSet := 15 }
  if priv.if_id ≠ 2 then (0, priv, hw)
  else if priv.join_status = xradio_join_status.MONITOR then (0, priv, hw)
  else
    let priv := if priv.join_status = xradio_join_status.PASSIVE
      then { priv with join_status := xradio_join_status.MONITOR } else priv
    let r := wsm_cmd env hw (WsmCmd.start start cfg.XRWL_GENERIC_IF_ID)
    (r.1, priv, r.2)

/-- The function `xradio_disable_listening`. -/
def xradio_disable_listening (cfg : Config) (env : Env) (hw : xradio_common)
    (priv : xradio_vif) : Int × xradio_vif × xradio_common :=
  if priv.if_id ≠ 2 then (0, priv, hw)
  else
    let priv := { priv with join_status := xradio_join_status.PASSIVE }
    if hw.roc_if_id = -1 then (0, priv, hw)
    else
      let r := wsm_cmd env hw (WsmCmd.reset true 0 cfg.XRWL_GENERIC_IF_ID)
      (r.1, priv, r.2)

/-! ## Join -/

/-- Modelled from the spec: `xradio_queue_get_skb` is defined in `queue.c`; it
finds the pending frame or fails. -/
def xradio_queue_get_skb (hw : xradio_common) : Option (List Nat) :=
  match hw.pending_frame with
  | frame_state.PENDING addr1 => some addr1
  | _ => none

/-- Modelled from the spec: `xradio_queue_remove` is defined in `queue.c`; it
releases the pending frame (removes it from its queue) and fails when there is
no pending frame. -/
def xradio_queue_remove (hw : xradio_common) : Int × xradio_common :=
  match hw.pending_frame with
  | frame_state.PENDING _ => (0, { hw with pending_frame := frame_state.REMOVED })
  | _ => (-ENOENT, hw)

/-- Modelled from the spec: `xradio_queue_requeue` is defined in `queue.c`; it
puts the pending frame back on its queue for transmission. -/
def xradio_queue_requeue (hw : xradio_common) : Int × xradio_common :=
  match hw.pending_frame with
  | frame_state.PENDING addr1 => (0, { hw with pending_frame := frame_state.REQUEUED addr1 })
  | _ => (-ENOENT, hw)

/-- The exit taken by `xradio_join_work` (the C function returns nothing): no
pending frame, no BSS entry, firmware join command failed, or joined. -/
inductive join_outcome where
  | NO_FRAME
  | NO_BSS
  | JOIN_FAILED
  | JOINED
  deriving DecidableEq, Repr

/-- The listen interval computed under `is_BT_Present` in `xradio_join_work`;
no result when the beacon interval is 0 (division by zero). -/
def bt_listen_interval (conf_listen_interval beacon_interval : Nat) : Option Nat :=
  if beacon_interval = 0 then none
  else if (conf_listen_interval * 100) % beacon_interval = 0
    then some ((conf_listen_interval * 100) / beacon_interval)
    else some ((conf_listen_interval * 100) / beacon_interval + 1)

/-- The first part of the block of `xradio_join_work` under `conf_mutex`, from
the construction of the join argument to `wsm_set_protected_mgmt_policy`, for
the interface context `priv`, the address `bssid` of the pending frame, the
BSS entry `bss`, the channel `chan` and the listen interval to store.  The
result is the join argument, the context and the device. -/
def join_prepare (cfg : Config) (env : Env) (hw : xradio_common) (priv : xradio_vif)
    (bssid : List Nat) (bss : cfg80211_bss) (chan : ieee80211_channel)
    (listen_interval : Nat) : wsm_join × xradio_vif × xradio_common :=
  let priv := { priv with listen_interval := listen_interval }
  let tim_set : Bool :=
    match bss.dtim_period with
    | some d => decide (d > 1)
    | none => false
  let dtim := bss.dtim_period.getD 1
  let priv := if tim_set then { priv with join_dtim_period := dtim } else priv
  let priv := { priv with beacon_int := bss.beacon_interval }
  let hw := { hw with is_go_thru_go_neg := false }
  let priv := { priv with join_bssid := bytes_at bssid 0 ETH_ALEN }
  let ssidLength : Nat :=
    match bss.ssidie with
    | some (len, _) => if len > 32 then 32 else len
    | none => 0
  let ssid : List Nat :=
    match bss.ssidie with
    | some (_, data) => bytes_at data 0 ssidLength
    | none => []
  let priv :=
    if cfg.ROAM_OFFLOAD = true ∧ bss.ssidie.isSome = true ∧
        priv.vif_type = NL80211_IFTYPE_STATION
      then { priv with ssid_length := ssidLength, ssid := ssid } else priv
  let join : wsm_join :=
    { ibss := bss.capability &&& WLAN_CAPABILITY_IBSS != 0
      dtimPeriod := if tim_set then dtim else 1
      beaconInterval := bss.beacon_interval
      mac_instance_1 := priv.if_id != 0
      p2p_go := priv.vif_p2p
      flag_bit6 := priv.vif_p2p && cfg.P2P_MULTIVIF
      channelNumber := chan.hw_value
      band_5g := chan.band == NL80211_BAND_5GHZ
      basicRateSet :=
        if priv.vif_p2p then cfg.P2P_BASIC_RATE_SET
        else if chan.band = NL80211_BAND_5GHZ then 64 else 7
      bssid := bytes_at bssid 0 ETH_ALEN
      ssidLength := ssidLength
      ssid := ssid }
  let hw := wsm_flush_tx hw
  let priv := { priv with join_timeout := queue_delayed_work priv.join_timeout (3 * cfg.HZ) }
  let d := xradio_disable_listening cfg env hw priv
  let priv := d.2.1
  let hw := d.2.2
  let hw := (wsm_cmd env hw (WsmCmd.set_operational_mode true true priv.if_id)).2
  let hw := (wsm_cmd env hw (WsmCmd.set_block_ack_policy 0 hw.ba_tid_mask priv.if_id)).2
  let hw := { hw with
    ba_ena := false
    ba_cnt := 0
    ba_acc := 0
    ba_hist := 0
    ba_cnt_rx := 0
    ba_acc_rx := 0 }
  let hw := (wsm_cmd env hw (WsmCmd.set_protected_mgmt_policy false true true priv.if_id)).2
  (join, priv, hw)

/-- The block of `xradio_join_work` under `conf_mutex` for the interface context
`priv` of slot `i`: `join_prepare`, then the join command, its two branches
and `xradio_update_filtering`.  There is no result when the listen interval
divides by a beacon interval of 0. -/
def join_locked (cfg : Config) (env : Env) (hw : xradio_common) (i : Nat)
    (priv : xradio_vif) (bssid : List Nat) (bss : cfg80211_bss) (chan : ieee80211_channel) :
    Option (join_outcome × xradio_common) :=
  let listen : Option Nat :=
    if hw.is_BT_Present then bt_listen_interval hw.conf_listen_interval bss.beacon_interval
    else some priv.listen_interval
  match listen with
  | none => none
  | some listen_interval =>
    let p := join_prepare cfg env hw priv bssid bss chan listen_interval
    let join := p.1
    let priv := p.2.1
    let hw := p.2.2
    let j := wsm_cmd env hw (WsmCmd.join join priv.if_id)
    let hw := j.2
    if j.1 ≠ 0 then
      let priv := { priv with join_bssid := memset0 priv.join_bssid }
      let hw := (xradio_queue_remove hw).2
      let priv := { priv with join_timeout := cancel_delayed_work_sync priv.join_timeout }
      let hw := xradio_update_filtering env hw priv
      some (join_outcome.JOIN_FAILED, set_vif hw i priv)
    else
      let hw := (xradio_queue_requeue hw).2
      let priv := { priv with join_status := xradio_join_status.STA }
      let priv := { priv with disable_beacon_filter := true }
      let hw := xradio_update_filtering env hw priv
      some (join_outcome.JOINED, set_vif hw i priv)

/-- The work `xradio_join_work` of the interface in slot `i`, entered with the
TX gate locked by the caller; `bss` is what `cfg80211_get_bss` finds for the
address of the pending frame. -/
def xradio_join_work (cfg : Config) (env : Env) (hw : xradio_common) (i : Nat)
    (bss : Option cfg80211_bss) : Option (join_outcome × xradio_common) :=
  match xrwl_hwpriv_to_vifpriv hw i with
  | none => none
  | some priv =>
    if hw.pending_frame_queue ≥ 4 then none
    else
      match xradio_queue_get_skb hw with
      | none => some (join_outcome.NO_FRAME, wsm_unlock_tx hw)
      | some bssid =>
        match hw.channel with
        | none => none
        | some chan =>
          let pre : Option xradio_common :=
            if priv.join_status.toNat ≠ 0
              then xradio_unjoin_work cfg env (wsm_lock_tx hw) i
              else some hw
          match pre with
          | none => none
          | some hw =>
            match xrwl_hwpriv_to_vifpriv hw i with
            | none => none
            | some priv =>
              let priv := { priv with
                join_timeout := cancel_delayed_work_sync priv.join_timeout }
              match bss with
              | none =>
                let hw := (xradio_queue_remove hw).2
                some (join_outcome.NO_BSS, wsm_unlock_tx (set_vif hw i priv))
              | some bss =>
                match join_locked cfg env hw i priv bssid bss chan with
                | none => none
                | some r => some (r.1, wsm_unlock_tx r.2)

/-! ## Interface set-up -/

/-- The function `xradio_set_uapsd_param`; `uapsdEnable` holds the four
`uapsdEnable` bits of the EDCA parameters, queue 0 first. -/
def xradio_set_uapsd_param (env : Env) (hw : xradio_common) (priv : xradio_vif)
    (uapsdEnable : List Bool) : Int × xradio_vif × xradio_common :=
  let uapsdFlags : Nat :=
    (if uapsdEnable.getD 0 false then 8 else 0) |||
    (if uapsdEnable.getD 1 false then 4 else 0) |||
    (if uapsdEnable.getD 2 false then 2 else 0) |||
    (if uapsdEnable.getD 3 false then 1 else 0)
  let priv := { priv with uapsdFlags := uapsdFlags }
  let r := wsm_cmd env hw (WsmCmd.set_uapsd_info uapsdFlags priv.if_id)
  (r.1, priv, r.2)

/-- The function `xradio_vif_setup`; the works and timers it initialises are
idle afterwards.  The EDCA values, the broadcast filter and the beacon filter
table it writes are not kept in the model. -/
def xradio_vif_setup (cfg : Config) (env : Env) (hw : xradio_common) (priv : xradio_vif) :
    Int × xradio_vif × xradio_common :=
  let hw := { hw with channel_changed := 0 }
  let priv := { priv with
    join_timeout := none
    bss_loss_work := none
    connection_loss_work := none
    update_filtering_work := false
    set_beacon_wakeup_period_work := false
    set_tim_work := false
    bss_loss_status := xradio_bss_loss_status.NONE
    setbssparams_done := false
    power_set_true := 0
    user_power_set_true := 0
    user_pm_mode := 0
    htcap := false
    link_id_gc_work := none
    set_cts_work := none
    pending_offchanneltx_work := none
    mcast_timeout := false }
  let priv := if cfg.AP_HT_COMPAT_FIX
    then { priv with ht_compat_det := 0, ht_compat_cnt := 0 } else priv
  let priv := { priv with enabled := 1 }
  if cfg.P2P_MULTIVIF = false ∨ priv.if_id < 2 then
    let r := wsm_cmd env hw (WsmCmd.set_edca_params priv.if_id)
    if SYS_WARN r.1 ≠ 0 then (r.1, priv, r.2)
    else
      let u := xradio_set_uapsd_param env r.2 priv [false, false, false, false]
      if SYS_WARN u.1 ≠ 0 then u
      else
        let priv := u.2.1
        let priv := { priv with
          bssid := List.replicate ETH_ALEN 255
          wep_default_key_id := -1
          cipherType := 0
          cqm_link_loss_count := cfg.XRADIO_LINK_LOSS_THOLD_DEF
          cqm_beacon_loss_count := cfg.XRADIO_BSS_LOSS_THOLD_DEF }
        (u.1, priv, u.2.2)
  else (0, priv, hw)

/-- The slot search of `xradio_add_interface` without `P2P_MULTIVIF`: the first
index below `XRWL_MAX_VIFS` whose configured address equals the requested
one. -/
def match_address (cfg : Config) (hw : xradio_common) (addr : List Nat) : Option Nat :=
  (List.range cfg.XRWL_MAX_VIFS).find?
    (fun i => bytes_at addr 0 ETH_ALEN == bytes_at (hw.addresses.getD i []) 0 ETH_ALEN)

/-- The slot choice of `xradio_add_interface` under `P2P_MULTIVIF`: address 0
gives slot 0, address 1 slot 2, address 2 slot 1, and with no match the
`if_id` found in the context is kept. -/
def match_address_multivif (hw : xradio_common) (priv : xradio_vif) : Nat :=
  let same (k : Nat) : Bool :=
    bytes_at priv.vif_addr 0 ETH_ALEN == bytes_at (hw.addresses.getD k []) 0 ETH_ALEN
  if same 0 then 0 else if same 1 then 2 else if same 2 then 1 else priv.if_id

/-- The callback `xradio_add_interface`; `priv` is the driver context found in
the `drv_priv` area of the interface handed over by mac80211, with the
address, type and P2P flag of that interface.  The result is the return
value, the context and the device. -/
def xradio_add_interface (cfg : Config) (env : Env) (hw : xradio_common)
    (priv : xradio_vif) : Int × xradio_vif × xradio_common :=
  if cfg.P2P_MULTIVIF = false ∧ hw.num_vifs ≥ (cfg.XRWL_MAX_VIFS : Int) then
    (-EOPNOTSUPP, priv, hw)
  else if hw.driver_ready = false then (-ETIMEDOUT, priv, hw)
  else
    let priv := { priv with enabled := 0 }
    let priv := { priv with mode := priv.vif_type }
    if hw.num_vifs < (cfg.XRWL_MAX_VIFS : Int) then
      let slot : Option Nat :=
        if cfg.P2P_MULTIVIF then some (match_address_multivif hw priv)
        else match_address cfg hw priv.vif_addr
      match slot with
      | none => (-EINVAL, priv, hw)
      | some if_id =>
        let priv := { priv with if_id := if_id }
        let hw := { hw with if_id_slot := hw.if_id_slot ||| 2 ^ priv.if_id }
        let hw := set_vif hw priv.if_id priv
        let hw := { hw with num_vifs := hw.num_vifs + 1 }
        let hw := { hw with mac_addr := bytes_at priv.vif_addr 0 ETH_ALEN }
        let v := xradio_vif_setup cfg env hw priv
        let m := xradio_setup_mac_pvif cfg env v.2.2 v.2.1
        (SYS_WARN m.1, m.2.1, set_vif m.2.2 m.2.1.if_id m.2.1)
    else (-EOPNOTSUPP, priv, hw)

/-! ## Information elements -/

/-- The `while` loop of `xradio_get_ie` from offset `pos` of the buffer `buf`
of `len` bytes; `fuel` bounds the number of iterations.  The outer result is
`none` when a byte outside the buffer is read or the fuel is used up; the
inner result is the offset returned, `none` for `NULL`. -/
def get_ie_loop (buf : List Nat) (len ie : Nat) : Nat → Nat → Option (Option Nat)
  | 0, _ => none
  | fuel + 1, pos =>
    if pos + 1 < len then
      match buf[pos + 1]? with
      | none => none
      | some l =>
        if pos + 2 + l > len then some none
        else
          match buf[pos]? with
          | none => none
          | some t =>
            if t = ie then some (some pos)
            else get_ie_loop buf len ie fuel (pos + 2 + l)
    else some none

/-- The function `xradio_get_ie`; `start` is `none` for a `NULL` buffer.  Every
iteration advances by at least two bytes, so `len + 1` iterations are
enough. -/
def xradio_get_ie (start : Option (List Nat)) (len ie : Nat) : Option (Option Nat) :=
  match start with
  | none => some none
  | some buf => get_ie_loop buf len ie (len + 1) 0

/-! ## Remain on channel -/

/-- The semaphore call `down` on `scan.lock`: there is no result when the count
is 0 (the caller sleeps until another thread releases the semaphore). -/
def scan_down (hw : xradio_common) : Option xradio_common :=
  if hw.scan_lock = 0 then none else some { hw with scan_lock := hw.scan_lock - 1 }

/-- The function `__xradio_flush` called with `drop = false`: -1 after a
bottom-half error, `-ETIMEDOUT` when the TX queues of the interface do not
become empty within the wait, else 0 after the TX gate was taken and released
once.  The queues themselves are defined in `queue.c`; the environment says
whether they drain. -/
def __xradio_flush (env : Env) (hw : xradio_common) (if_id : Nat) : Int × xradio_common :=
  if hw.bh_error then (-1, hw)
  else if env.queue_drains if_id = false then (-ETIMEDOUT, hw)
  else (0, wsm_unlock_tx (wsm_lock_tx hw))

/-- The body of the loop `xradio_for_each_vif` of `xradio_remain_on_channel`
for slot `i`; the state carried through the loop is the local `ret` and the
device. -/
def remain_on_channel_vif (cfg : Config) (env : Env) (chan : ieee80211_channel)
    (duration : Int) (st : Int × xradio_common) (i : Nat) : Int × xradio_common :=
  match xrwl_hwpriv_to_vifpriv st.2 i with
  | none => st
  | some priv =>
    if priv.if_id = 0 ∨ priv.if_id = 1 then st
    else
      let hw := { st.2 with roc_if_id := (priv.if_id : Int) }
      let f := __xradio_flush env hw priv.if_id
      let ret := SYS_WARN f.1
      let e := xradio_enable_listening cfg env f.2 priv chan
      let priv := e.2.1
      let hw := e.2.2
      if ret = 0 then
        let hw := { hw with remain_on_channel := 1 }
        let hw := { hw with
          rem_chan_timeout := queue_delayed_work hw.rem_chan_timeout
            (int_to_ulong cfg (Int.tdiv (wrap_int (duration * (cfg.HZ : Int))) 1000)) }
        let priv := { priv with join_status := xradio_join_status.MONITOR }
        let hw := { hw with upcalls := hw.upcalls ++ [Upcall.ready_on_channel] }
        (ret, set_vif hw i priv)
      else
        let hw := { hw with roc_if_id := -1 }
        let hw := scan_up hw
        (ret, set_vif hw i priv)

/-- The callback `xradio_remain_on_channel` for the channel `chan` and a
duration in milliseconds (an `int`, so `duration * HZ` is a 32-bit value);
the result is the return value and the device.  The
time stamps kept under `TES_P2P_0002_ROC_RESTART` are not modelled. -/
def xradio_remain_on_channel (cfg : Config) (env : Env) (hw : xradio_common)
    (chan : ieee80211_channel) (duration : Int) : Option (Int × xradio_common) :=
  match scan_down hw with
  | none => none
  | some hw =>
    let st := (List.range cfg.XRWL_MAX_VIFS).foldl
      (remain_on_channel_vif cfg env chan duration) (0, hw)
    let hw := st.2
    let hw := if hw.channel.isNone then { hw with channel := some chan } else hw
    some (st.1, hw)

/-- The work `xradio_rem_chan_timeout`.  There is no result when the flush
succeeds and no interface is found for `roc_if_id` (`xradio_disable_listening`
is then called with a null pointer). -/
def xradio_rem_chan_timeout (cfg : Config) (env : Env) (hw : xradio_common) :
    Option xradio_common :=
  if cfg.TES_P2P_0002_ROC_RESTART = true ∧ hw.TES_P2P_0002_state_get_pktid = true then some hw
  else if hw.remain_on_channel = 0 then some hw
  else
    let hw := { hw with upcalls := hw.upcalls ++ [Upcall.remain_on_channel_expired] }
    let if_id := hw.roc_if_id
    let priv := if if_id < 0 then none else xrwl_hwpriv_to_vifpriv hw if_id.toNat
    let f := __xradio_flush env hw if_id.toNat
    let ret := SYS_WARN f.1
    let hw := f.2
    let d : Option xradio_common :=
      if ret = 0 then
        match priv with
        | none => none
        | some priv =>
          let r := xradio_disable_listening cfg env hw priv
          some (set_vif r.2.2 if_id.toNat r.2.1)
      else some hw
    match d with
    | none => none
    | some hw =>
      let hw := { hw with remain_on_channel := 0 }
      let hw := { hw with roc_if_id := -1 }
      some (scan_up hw)

/-- The workqueue lets the queued `rem_chan_timeout` fire. -/
def fire_rem_chan_timeout (cfg : Config) (env : Env) (hw : xradio_common) :
    Option xradio_common :=
  match hw.rem_chan_timeout with
  | none => none
  | some _ => xradio_rem_chan_timeout cfg env { hw with rem_chan_timeout := none }

/-! ## Interface removal -/

/-- Modelled from the spec: `xradio_free_keys` is defined outside `sta.c`; it
releases all key slots. -/
def xradio_free_keys (hw : xradio_common) : xradio_common :=
  { hw with keys := hw.keys.map (fun _ => none) }

/-- The loop over `link_id_map` in the `AP` case of `xradio_remove_interface`:
the mapping of every link whose bit is set is released, lowest bit first. -/
def unmap_links (env : Env) (hw : xradio_common) (priv : xradio_vif) : xradio_common :=
  ((List.range 32).filter (fun i => (priv.link_id_map % 2 ^ 32).testBit i)).foldl
    (fun h i => xrwl_unmap_link env h priv (i : Int)) hw

/-- C `memset(priv, 0, sizeof(struct xradio_vif))`: every field of the driver
context is zero and every work item idle.  The address, type and flags of
`struct ieee80211_vif` kept in the same record belong to mac80211 and are not
part of the zeroed memory. -/
def vif_memset0 (priv : xradio_vif) : xradio_vif :=
  { if_id := 0
    vif_addr := priv.vif_addr
    vif_type := priv.vif_type
    vif_p2p := priv.vif_p2p
    vif_qos := priv.vif_qos
    mode := 0
    join_status := xradio_join_status.PASSIVE
    join_bssid := memset0 priv.join_bssid
    join_dtim_period := 0
    cipherType := 0
    htcap := false
    disable_beacon_filter := false
    setbssparams_done := false
    association_mode := memset0 priv.association_mode
    bss_params := memset0 priv.bss_params
    firmware_ps_mode :=
      { pmMode := 0, fastPsmIdlePeriod := 0, apPsmChangePeriod := 0, minAutoPsPollPeriod := 0 }
    powersave_mode :=
      { pmMode := 0, fastPsmIdlePeriod := 0, apPsmChangePeriod := 0, minAutoPsPollPeriod := 0 }
    user_pm_mode := 0
    uapsdFlags := 0
    bss_loss_status := xradio_bss_loss_status.NONE
    delayed_link_loss := 0
    bss_loss_work := none
    connection_loss_work := none
    join_timeout := none
    update_filtering_work := false
    set_beacon_wakeup_period_work := false
    set_tim_work := false
    delayed_unjoin := 0
    cqm_use_rssi := false
    cqm_rssi_thold := 0
    cqm_link_loss_count := 0
    cqm_beacon_loss_count := 0
    ht_compat_det := 0
    ht_compat_cnt := 0
    link_id_db := priv.link_id_db.map (fun e => { mac := memset0 e.mac })
    filter4_enable := 0
    filter6_enable := 0
    rx_filter_bssid := false
    bf_control_bcn_count := 0
    enabled := 0
    bssid := memset0 priv.bssid
    wep_default_key_id := 0
    power_set_true := 0
    user_power_set_true := 0
    beacon_int := 0
    listen_interval := 0
    ssid_length := 0
    ssid := memset0 priv.ssid
    link_id_map := 0
    sta_asleep_mask := 0
    pspoll_mask := 0
    enable_beacon := false
    tx_multicast := false
    aid0_bit_set := false
    buffered_multicasts := false
    listening := false
    link_id_gc_work := none
    set_cts_work := none
    pending_offchanneltx_work := none
    mcast_timeout := false }

/-- The `switch (priv->join_status)` of `xradio_remove_interface`. -/
def remove_teardown (cfg : Config) (env : Env) (hw : xradio_common) (priv : xradio_vif) :
    xradio_vif × xradio_common :=
  if priv.join_status = xradio_join_status.AP then
    let hw := unmap_links env hw priv
    let priv := { priv with
      link_id_map := 0
      link_id_db := priv.link_id_db.map (fun e => { mac := memset0 e.mac })
      sta_asleep_mask := 0
      enable_beacon := false
      tx_multicast := false
      aid0_bit_set := false
      buffered_multicasts := false
      pspoll_mask := 0 }
    let hw := (wsm_cmd env hw (WsmCmd.reset true 0 priv.if_id)).2
    let hw := (wsm_cmd env hw (WsmCmd.set_operational_mode true true priv.if_id)).2
    let is_htcapie := sibling_htcap cfg hw
    let hw := if is_htcapie
      then { hw with vif0_throttle := cfg.XRWL_HOST_VIF0_11N_THROTTLE,
                     vif1_throttle := cfg.XRWL_HOST_VIF1_11N_THROTTLE }
      else { hw with vif0_throttle := cfg.XRWL_HOST_VIF0_11BG_THROTTLE,
                     vif1_throttle := cfg.XRWL_HOST_VIF1_11BG_THROTTLE }
    (priv, hw)
  else if priv.join_status = xradio_join_status.MONITOR then
    let d := xradio_disable_listening cfg env hw priv
    (d.2.1, d.2.2)
  else (priv, hw)

/-- The statement of `xradio_remove_interface` that clears `is_go_thru_go_neg`
when the group-owner interface of slot 1 goes away. -/
def remove_go_neg (hw : xradio_common) (priv : xradio_vif) : xradio_common :=
  if priv.if_id = 1 ∧ (priv.mode = NL80211_IFTYPE_AP ∨ priv.mode = NL80211_IFTYPE_P2P_GO)
    then { hw with is_go_thru_go_neg := false } else hw

/-- The statements `vif_list[if_id] = NULL`, `if_id_slot &= ~BIT(if_id)` and
`atomic_dec(&num_vifs)` of `xradio_remove_interface`. -/
def remove_unregister (hw : xradio_common) (if_id : Nat) : xradio_common :=
  { hw with
    vif_list := hw.vif_list.set if_id none
    if_id_slot := hw.if_id_slot ^^^ (hw.if_id_slot &&& 2 ^ if_id)
    num_vifs := hw.num_vifs - 1 }

/-- The statement of `xradio_remove_interface` run when the counter has
reached 0: the key slots are released and the hardware address is zeroed. -/
def remove_release (hw : xradio_common) : xradio_common :=
  if hw.num_vifs = 0
    then { (xradio_free_keys hw) with mac_addr := memset0 hw.mac_addr } else hw

/-- The part of `xradio_remove_interface` from the call of `__xradio_flush` to
the end, for the context `priv` registered in slot `i`: the works are
cancelled, the context is unlinked from the table (entry `priv->if_id`), its
bit is cleared, the counter is decremented, the key slots and the hardware
address are released when the counter reaches 0, the context is zeroed and
the scan gate released.  `flush_workqueue` only waits for works that run as
steps of their own in this model. -/
def remove_unlink (env : Env) (hw : xradio_common) (i : Nat) (priv : xradio_vif) :
    xradio_vif × xradio_common :=
  let hw := (__xradio_flush env hw priv.if_id).2
  let priv := { priv with
    bss_loss_work := cancel_delayed_work_sync priv.bss_loss_work
    connection_loss_work := cancel_delayed_work_sync priv.connection_loss_work
    link_id_gc_work := cancel_delayed_work_sync priv.link_id_gc_work
    join_timeout := cancel_delayed_work_sync priv.join_timeout
    set_cts_work := cancel_delayed_work_sync priv.set_cts_work
    pending_offchanneltx_work := cancel_delayed_work_sync priv.pending_offchanneltx_work
    mcast_timeout := false }
  let priv := { priv with delayed_link_loss := 0 }
  let priv := { priv with join_status := xradio_join_status.PASSIVE }
  let hw := wsm_unlock_tx hw
  let hw := remove_go_neg hw priv
  let hw := set_vif hw i priv
  let hw := remove_unregister hw priv.if_id
  let hw := remove_release hw
  let priv := { priv with listening := false }
  let hw := if priv.if_id = i then hw else set_vif hw i (vif_memset0 priv)
  (vif_memset0 priv, scan_up hw)

/-- The callback `xradio_remove_interface` for the interface registered in
slot `i`; the result is the zeroed context and the device.  There is no
result while the scan gate cannot be taken. -/
def xradio_remove_interface (cfg : Config) (env : Env) (hw : xradio_common) (i : Nat) :
    Option (xradio_vif × xradio_common) :=
  match xrwl_hwpriv_to_vifpriv hw i with
  | none => none
  | some priv =>
    let priv := { priv with enabled := 0 }
    match scan_down hw with
    | none => none
    | some hw =>
      let hw := set_vif hw i priv
      let pre : Option xradio_common :=
        if priv.join_status = xradio_join_status.STA then
          let hw := if priv.delayed_unjoin ≠ 0 then wsm_unlock_tx hw else hw
          let hw := set_vif hw i { priv with delayed_unjoin := 0 }
          xradio_unjoin_work cfg env (wsm_lock_tx hw) i
        else some hw
      match pre with
      | none => none
      | some hw =>
        match xrwl_hwpriv_to_vifpriv hw i with
        | none => none
        | some priv =>
          let hw := wsm_lock_tx hw
          let r := remove_teardown cfg env hw priv
          some (remove_unlink env (set_vif r.2 i r.1) i r.1)

/-! ## Concrete configuration and states used by the examples -/

/-- A configuration with the usual values of the constants. -/
def cfgX : Config :=
  { HZ := 100, BITS_PER_LONG := 64, XRWL_MAX_VIFS := 3, XRWL_GENERIC_IF_ID := 2,
    XRADIO_BLOCK_ACK_CNT := 30, XRADIO_BLOCK_ACK_THLD := 800, XRADIO_BLOCK_ACK_HIST := 3,
    WSM_KEY_MAX_IDX := 10,
    XRWL_HOST_VIF0_11N_THROTTLE := 63, XRWL_HOST_VIF1_11N_THROTTLE := 63,
    XRWL_HOST_VIF0_11BG_THROTTLE := 15, XRWL_HOST_VIF1_11BG_THROTTLE := 15,
    WSM_RCPI_RSSI_THRESHOLD_ENABLE := 1, WSM_RCPI_RSSI_USE_RSSI := 2,
    WSM_RCPI_RSSI_DONT_USE_UPPER := 4, WSM_RCPI_RSSI_DONT_USE_LOWER := 8,
    WSM_PSM_ACTIVE := 0, WSM_PSM_PS := 1, WSM_PSM_FAST_PS_FLAG := 128,
    WSM_START_MODE_P2P_DEV := 2, XRADIO_LINK_LOSS_THOLD_DEF := 40,
    XRADIO_BSS_LOSS_THOLD_DEF := 20, P2P_BASIC_RATE_SET := 4080, ROAM_OFFLOAD := false,
    TES_P2P_0002_ROC_RESTART := false,
    P2P_MULTIVIF := false, AP_HT_COMPAT_FIX := false, CONFIG_XRADIO_WAPI_SUPPORT := false,
    CONFIG_XRADIO_DEBUGFS := false, IPV6_FILTERING := false }

/-- An environment in which every firmware command and allocation succeeds. -/
def envOk : Env :=
  { wsm_ret := fun _ => 0, alloc_ok := fun _ => true, queue_drains := fun _ => true }

/-- An environment in which every firmware command fails. -/
def envFail : Env :=
  { wsm_ret := fun _ => -1, alloc_ok := fun _ => true, queue_drains := fun _ => true }

/-- The all-zero power-save record. -/
def pm0 : wsm_set_pm :=
  { pmMode := 0, fastPsmIdlePeriod := 0, apPsmChangePeriod := 0, minAutoPsPollPeriod := 0 }

/-- A station interface in slot 0, passive, link healthy, nothing queued. -/
def vifX : xradio_vif :=
  { if_id := 0, vif_addr := [2, 0, 0, 0, 0, 1], vif_type := NL80211_IFTYPE_STATION,
    vif_p2p := false, vif_qos := false, mode := NL80211_IFTYPE_STATION,
    join_status := xradio_join_status.PASSIVE, join_bssid := [0, 0, 0, 0, 0, 0],
    join_dtim_period := 0, cipherType := 0, htcap := false, disable_beacon_filter := false,
    setbssparams_done := false, association_mode := [0, 0, 0, 0], bss_params := [0, 0, 0, 0],
    firmware_ps_mode := pm0, powersave_mode := pm0, user_pm_mode := 0, uapsdFlags := 0,
    bss_loss_status := xradio_bss_loss_status.NONE, delayed_link_loss := 0,
    bss_loss_work := none, connection_loss_work := none, join_timeout := none,
    update_filtering_work := false, set_beacon_wakeup_period_work := false,
    set_tim_work := false, delayed_unjoin := 0, cqm_use_rssi := false, cqm_rssi_thold := -70,
    cqm_link_loss_count := 40, cqm_beacon_loss_count := 20, ht_compat_det := 0,
    ht_compat_cnt := 0, link_id_db := [], filter4_enable := 0, filter6_enable := 0,
    rx_filter_bssid := false, bf_control_bcn_count := 1, enabled := 1,
    bssid := [255, 255, 255, 255, 255, 255], wep_default_key_id := -1, power_set_true := 0,
    user_power_set_true := 0, beacon_int := 0, listen_interval := 0, ssid_length := 0,
    ssid := [], link_id_map := 0, sta_asleep_mask := 0, pspoll_mask := 0,
    enable_beacon := false, tx_multicast := false, aid0_bit_set := false,
    buffered_multicasts := false, listening := false, link_id_gc_work := none,
    set_cts_work := none, pending_offchanneltx_work := none, mcast_timeout := false }

/-- A device holding `vifX` in slot 0, no scan, TX gate held once, two free
key slots, block-ack disabled as `xradio_join_work` leaves it. -/
def hwX : xradio_common :=
  { vif_list := [some vifX, none, none], scan_in_progress := false, scan_lock := 1,
    tx_lock := 1, ba_cnt := 0, ba_acc := 0, ba_cnt_rx := 0, ba_acc_rx := 0, ba_hist := 0,
    ba_ena := false, ba_timer := false, ba_tid_mask := 255, keys := [none, none],
    connet_time := [0, 0, 0], vif0_throttle := 15, vif1_throttle := 15, output_power := 20,
    event_queue := [], event_handler := false, ps_disable := 0, ps_idleperiod := 0,
    ps_changeperiod := 0, roc_if_id := -1, num_vifs := 1, if_id_slot := 1,
    addresses := [[2, 0, 0, 0, 0, 1], [2, 0, 0, 0, 0, 2], [2, 0, 0, 0, 0, 3]],
    mac_addr := [2, 0, 0, 0, 0, 1], driver_ready := true, channel := none,
    channel_changed := 0, is_BT_Present := false, is_go_thru_go_neg := false,
    conf_listen_interval := 0, pending_frame := frame_state.ABSENT, pending_frame_queue := 0,
    bh_error := false, remain_on_channel := 0, rem_chan_timeout := none,
    TES_P2P_0002_state_get_pktid := false, fw_log := [], upcalls := [] }

/-- A sample above both thresholds (30 frames, ratio 1000). -/
def sampleHigh : ba_sample :=
  { ba_cnt := 30, ba_acc := 30000, ba_cnt_rx := 0, ba_acc_rx := 0, scan := false }

/-- A sample below the count threshold. -/
def sampleLow : ba_sample :=
  { ba_cnt := 0, ba_acc := 0, ba_cnt_rx := 0, ba_acc_rx := 0, scan := false }

/-! ## States and closed forms used by the statements -/

/-- A run of six periods on the example device: enable, two disable
decisions, one enable decision, two disable decisions. -/
def runX : List ba_sample :=
  [sampleHigh, sampleLow, sampleLow, sampleHigh, sampleLow, sampleLow]

/-- A `BSS_LOST` event for the interface in slot `i`. -/
def bss_lost_event (i data : Nat) : xradio_wsm_event :=
  { if_id := i, eventId := wsm_event_id.BSS_LOST, eventData := data }

/-- A `BSS_REGAINED` event for the interface in slot `i`. -/
def bss_regained_event (i data : Nat) : xradio_wsm_event :=
  { if_id := i, eventId := wsm_event_id.BSS_REGAINED, eventData := data }

/-- A `RCPI_RSSI` event for the interface in slot `i`. -/
def rcpi_rssi_event (i data : Nat) : xradio_wsm_event :=
  { if_id := i, eventId := wsm_event_id.RCPI_RSSI, eventData := data }

/-- The interface `vifX` with a confirmation cycle open: status `CONFIRMING`
and `bss_loss_work` queued. -/
def vifConfirming : xradio_vif :=
  { vifX with bss_loss_status := xradio_bss_loss_status.CONFIRMING, bss_loss_work := some 100 }

/-- A group CCMP key of 16 bytes. -/
def keyCCMP : ieee80211_key_conf :=
  { cipher := WLAN_CIPHER_SUITE_CCMP, flags := 0, keyidx := 1, keylen := 16,
    key := List.replicate 16 7, hw_key_idx := 0 }

/-- A WEP key announced with 17 bytes. -/
def keyWEPlong : ieee80211_key_conf :=
  { cipher := WLAN_CIPHER_SUITE_WEP104, flags := 0, keyidx := 0, keylen := 17,
    key := List.replicate 17 7, hw_key_idx := 0 }

/-- The example device with both key slots occupied. -/
def hwFullKeys : xradio_common :=
  { hwX with keys :=
      [some { type := wsm_key_type.AES_GROUP, entryIndex := 0, body := wsm_key_body.blank },
       some { type := wsm_key_type.AES_GROUP, entryIndex := 1, body := wsm_key_body.blank }] }

/-- The interface context after the teardown branch of `xradio_unjoin_work`. -/
def unjoin_teardown_vif (cfg : Config) (priv : xradio_vif) : xradio_vif :=
  let p := unjoin_prologue_vif cfg priv
  { p with
    update_filtering_work := false
    set_beacon_wakeup_period_work := false
    join_bssid := memset0 p.join_bssid
    join_status := xradio_join_status.PASSIVE
    join_dtim_period := 0
    cipherType := 0
    cqm_use_rssi :=
      if (cfg.WSM_RCPI_RSSI_THRESHOLD_ENABLE ||| cfg.WSM_RCPI_RSSI_DONT_USE_UPPER |||
          cfg.WSM_RCPI_RSSI_DONT_USE_LOWER) &&& cfg.WSM_RCPI_RSSI_USE_RSSI != 0
      then true else p.cqm_use_rssi
    connection_loss_work := none
    disable_beacon_filter := false
    setbssparams_done := false
    association_mode := memset0 p.association_mode
    bss_params := memset0 p.bss_params
    firmware_ps_mode :=
      { pmMode := 0, fastPsmIdlePeriod := 0, apPsmChangePeriod := 0, minAutoPsPollPeriod := 0 }
    htcap := false }

/-- The device fields written by the teardown branch of `xradio_unjoin_work`
before the interface context is stored back: the six firmware commands in
order, the emptied event queue and the cancelled works. -/
def unjoin_teardown_hw (cfg : Config) (hw : xradio_common) (priv : xradio_vif) :
    xradio_common :=
  { hw with
    connet_time := hw.connet_time.set priv.if_id 0
    ba_timer := false
    event_queue := []
    event_handler := false
    fw_log := hw.fw_log ++ [WsmCmd.keep_alive_period 0 priv.if_id,
      WsmCmd.reset true 0 priv.if_id,
      WsmCmd.set_operational_mode true true priv.if_id,
      WsmCmd.set_output_power (hw.output_power * 10) priv.if_id,
      WsmCmd.set_rcpi_rssi_threshold (cfg.WSM_RCPI_RSSI_THRESHOLD_ENABLE |||
        cfg.WSM_RCPI_RSSI_DONT_USE_UPPER ||| cfg.WSM_RCPI_RSSI_DONT_USE_LOWER) 16
        (if cfg.P2P_MULTIVIF then (if priv.if_id != 0 then 1 else 0) else priv.if_id),
      WsmCmd.set_block_ack_policy 0 hw.ba_tid_mask priv.if_id] }

/-- The throttle values chosen at the end of the teardown branch. -/
def unjoin_throttle (cfg : Config) (hw : xradio_common) : xradio_common :=
  if sibling_htcap cfg hw
    then { hw with vif0_throttle := cfg.XRWL_HOST_VIF0_11N_THROTTLE,
                   vif1_throttle := cfg.XRWL_HOST_VIF1_11N_THROTTLE }
    else { hw with vif0_throttle := cfg.XRWL_HOST_VIF0_11BG_THROTTLE,
                   vif1_throttle := cfg.XRWL_HOST_VIF1_11BG_THROTTLE }

/-- The example interface associated as a station. -/
def vifSta : xradio_vif :=
  { vifX with join_status := xradio_join_status.STA, join_bssid := [1, 2, 3, 4, 5, 6],
              join_dtim_period := 2, cipherType := WLAN_CIPHER_SUITE_CCMP, htcap := true,
              setbssparams_done := true }

/-- The example device with slot 0 associated and the block-ack timer armed. -/
def hwSta : xradio_common :=
  { hwX with vif_list := [some vifSta, none, none], ba_timer := true, connet_time := [5, 0, 0] }

/-- The window invariant of the hysteresis block: while block-ack is enabled
the history counter is non-negative and some trailing window of the periods
seen so far has at least that many more disable than enable decisions. -/
def ba_window_inv (cfg : Config) (hw : xradio_common) (seen : List ba_sample) : Prop :=
  hw.ba_ena = true →
    0 ≤ hw.ba_hist ∧
    ∃ w : List ba_sample, w <:+ seen ∧
      hw.ba_hist + ((w.countP (ba_enables cfg) : Nat) : Int) ≤
        ((w.countP (ba_disables cfg) : Nat) : Int)

/-- The interface `vifX` with a confirmation cycle just opened: status
`CHECKING` and `bss_loss_work` queued. -/
def vifChecking : xradio_vif :=
  { vifX with bss_loss_status := xradio_bss_loss_status.CHECKING, bss_loss_work := some 10 }

/-- The interface `vifChecking` with link-loss count 40 and beacon-loss count
0. -/
def vifCheckingNoBeacon : xradio_vif :=
  { vifChecking with cqm_link_loss_count := 40, cqm_beacon_loss_count := 0 }

/-- The example device holding `vifCheckingNoBeacon` in slot 0. -/
def hwCheckingNoBeacon : xradio_common :=
  { hwX with vif_list := [some vifCheckingNoBeacon, none, none] }

/-- The interface `vifChecking` with link-loss count 30000000 and beacon-loss
count 1. -/
def vifCheckingWide : xradio_vif :=
  { vifChecking with cqm_link_loss_count := 30000000, cqm_beacon_loss_count := 1 }

/-- The example device holding `vifCheckingWide` in slot 0. -/
def hwCheckingWide : xradio_common :=
  { hwX with vif_list := [some vifCheckingWide, none, none] }

/-- The mode `xradio_set_pm` works with when no debug override applies: the
request with the fast-power-save flag cleared when the UAPSD flags of the
interface are not zero, the request itself otherwise. -/
def pm_requested (cfg : Config) (priv : xradio_vif) (arg : wsm_set_pm) : wsm_set_pm :=
  if priv.uapsdFlags ≠ 0
    then { arg with pmMode := arg.pmMode &&& (255 ^^^ cfg.WSM_PSM_FAST_PS_FLAG) }
    else arg

/-- The example configuration built with `CONFIG_XRADIO_DEBUGFS`. -/
def cfgDebug : Config := { cfgX with CONFIG_XRADIO_DEBUGFS := true }

/-- The example device with the debug switch `ps_disable` set. -/
def hwPsDisable : xradio_common := { hwX with ps_disable := 1 }

/-- A request for plain power save. -/
def pmPs : wsm_set_pm :=
  { pmMode := 1, fastPsmIdlePeriod := 0, apPsmChangePeriod := 0, minAutoPsPollPeriod := 0 }

/-- A request for fast power save with idle period 100. -/
def pmFast : wsm_set_pm :=
  { pmMode := 129, fastPsmIdlePeriod := 100, apPsmChangePeriod := 0, minAutoPsPollPeriod := 0 }

/-- The state after `n` further unjoin requests on slot `i`, each made the way
`xradio_join_timeout` makes it: `wsm_lock_tx`, then `xradio_unjoin_work`. -/
def unjoin_requests (cfg : Config) (env : Env) (i : Nat) :
    Nat → xradio_common → Option xradio_common
  | 0, hw => some hw
  | n + 1, hw =>
    match xradio_unjoin_work cfg env (wsm_lock_tx hw) i with
    | none => none
    | some hw1 => unjoin_requests cfg env i n hw1

/-- The example device with slot 0 associated and a scan in progress. -/
def hwStaScan : xradio_common :=
  { hwSta with scan_in_progress := true, scan_lock := 0 }

/-- An interface in slot 2, the slot of the off-channel role, passive. -/
def vifRoc : xradio_vif :=
  { vifX with if_id := 2, vif_addr := [2, 0, 0, 0, 0, 3] }

/-- A device holding `vifX` in slot 0 and `vifRoc` in slot 2, with a
remain-on-channel period attributed to slot 2. -/
def hwRoc : xradio_common :=
  { hwX with vif_list := [some vifX, none, some vifRoc], num_vifs := 2, if_id_slot := 5,
             roc_if_id := 2 }

/-- Channel 6 of the 2.4 GHz band. -/
def chanX : ieee80211_channel := { hw_value := 6, band := NL80211_BAND_2GHZ }

/-- The example configuration built with `P2P_MULTIVIF`. -/
def cfgMulti : Config := { cfgX with P2P_MULTIVIF := true }

/-- A new interface as mac80211 hands it over: station type, a hardware
address that is not in the address table of `hwX`, and a zeroed driver
context. -/
def vifNew : xradio_vif :=
  { vifX with vif_addr := [2, 0, 0, 0, 0, 9], enabled := 0, bssid := [0, 0, 0, 0, 0, 0],
              wep_default_key_id := 0, cqm_rssi_thold := 0, cqm_link_loss_count := 0,
              cqm_beacon_loss_count := 0, bf_control_bcn_count := 0, mode := 0 }

/-- A new interface with the third configured address of `hwX`. -/
def vifThird : xradio_vif := { vifNew with vif_addr := [2, 0, 0, 0, 0, 3] }

/-- A BSS entry: infrastructure network, beacon interval 100, SSID of four
bytes, DTIM period 2. -/
def bssX : cfg80211_bss :=
  { capability := 1, beacon_interval := 100, ssidie := some (4, [116, 101, 115, 116]),
    dtim_period := some 2 }

/-- The example device ready for a join: channel set and an authentication
frame for the address `[1, 2, 3, 4, 5, 6]` pending. -/
def hwJoin : xradio_common :=
  { hwX with channel := some chanX, pending_frame := frame_state.PENDING [1, 2, 3, 4, 5, 6] }

/-- The example device with slot 0 associated, a scan in progress, the channel
set and an authentication frame for a new address pending. -/
def hwJoinSta : xradio_common :=
  { hwStaScan with channel := some chanX,
                   pending_frame := frame_state.PENDING [9, 9, 9, 9, 9, 9] }

/-- An `INACTIVITY` event for the interface in slot `i`. -/
def inactivity_event (i data : Nat) : xradio_wsm_event :=
  { if_id := i, eventId := wsm_event_id.INACTIVITY, eventData := data }

/-- The example interface serving as access point with two peer links
recorded: link 1 and link 2. -/
def vifAp : xradio_vif :=
  { vifX with vif_type := NL80211_IFTYPE_AP, mode := NL80211_IFTYPE_AP,
              join_status := xradio_join_status.AP, link_id_map := 6,
              link_id_db := [{ mac := [10, 0, 0, 0, 0, 1] }, { mac := [10, 0, 0, 0, 0, 2] }] }

/-- The example device with `vifAp` in slot 0. -/
def hwAp : xradio_common := { hwX with vif_list := [some vifAp, none, none] }

/-- The mode `xradio_set_pm` compares with the last committed mode: the request
after the debug overrides of `CONFIG_XRADIO_DEBUGFS` and after the
fast-power-save flag is cleared for an interface with UAPSD flags. -/
def pm_computed (cfg : Config) (hw : xradio_common) (priv : xradio_vif) (arg : wsm_set_pm) :
    wsm_set_pm :=
  let pm := arg
  let pm := if cfg.CONFIG_XRADIO_DEBUGFS && hw.ps_disable != 0
    then { pm with pmMode := cfg.WSM_PSM_ACTIVE } else pm
  let pm := if cfg.CONFIG_XRADIO_DEBUGFS && hw.ps_idleperiod != 0
    then { pm with fastPsmIdlePeriod := (hw.ps_idleperiod * 2) % 256,
                   apPsmChangePeriod := (hw.ps_changeperiod * 2) % 256 } else pm
  if priv.uapsdFlags != 0
    then { pm with pmMode := pm.pmMode &&& (255 ^^^ cfg.WSM_PSM_FAST_PS_FLAG) } else pm

/-- The offsets of the elements met when the buffer is walked from `pos` as a
sequence of (id, length, payload) elements, the walk stopping at the first
element that does not fit in `len` bytes; `fuel` bounds the number of
elements. -/
def ie_elements (buf : List Nat) (len : Nat) : Nat → Nat → List Nat
  | 0, _ => []
  | fuel + 1, pos =>
    if pos + 1 < len ∧ pos + 2 + buf.getD (pos + 1) 0 ≤ len
      then pos :: ie_elements buf len fuel (pos + 2 + buf.getD (pos + 1) 0)
      else []

/-- A buffer of three elements: id 0 with 2 payload bytes, id 5 with 1 payload
byte, id 5 with no payload, then one stray byte. -/
def ieBuf : List Nat := [0, 2, 97, 98, 5, 1, 7, 5, 0, 9]

/-- Two device states agree on the interface registry outside slot `i`: the
counter, the slot bitmap, the key table, the hardware address, the scan gate,
the size of the interface table, the table of configured addresses and every
entry but entry `i`. -/
def registry_frame (i : Nat) (hw hw1 : xradio_common) : Prop :=
  hw1.num_vifs = hw.num_vifs ∧
  hw1.if_id_slot = hw.if_id_slot ∧
  hw1.keys = hw.keys ∧
  hw1.mac_addr = hw.mac_addr ∧
  hw1.scan_lock = hw.scan_lock ∧
  hw1.vif_list.length = hw.vif_list.length ∧
  hw1.addresses = hw.addresses ∧
  ∀ j, j ≠ i → hw1.vif_list[j]? = hw.vif_list[j]?

/-- One call made by mac80211 on the interface registry of the device:
`xradio_add_interface` for the interface whose driver context is `priv`, or
`xradio_remove_interface` for the interface registered in slot `i`. -/
inductive vif_op where
  | add (priv : xradio_vif)
  | remove (i : Nat)

/-- The slot in which `xradio_add_interface` registers the interface `priv`;
`none` when the call registers nothing (driver not ready, counter at
`XRWL_MAX_VIFS`, or no configured address matches). -/
def add_slot (cfg : Config) (hw : xradio_common) (priv : xradio_vif) : Option Nat :=
  if hw.driver_ready = false then none
  else if hw.num_vifs < (cfg.XRWL_MAX_VIFS : Int) then
    (if cfg.P2P_MULTIVIF then some (match_address_multivif hw
        { priv with enabled := 0, mode := priv.vif_type })
      else match_address cfg hw priv.vif_addr)
  else none

/-- A sequence of `xradio_add_interface` and `xradio_remove_interface` calls
run on the device.  There is no result when a removal names an empty slot or
sleeps on the scan gate. -/
def run_ops (cfg : Config) (env : Env) : List vif_op → xradio_common → Option xradio_common
  | [], hw => some hw
  | vif_op.add priv :: rest, hw =>
    run_ops cfg env rest (xradio_add_interface cfg env hw priv).2.2
  | vif_op.remove i :: rest, hw =>
    match xradio_remove_interface cfg env hw i with
    | none => none
    | some r => run_ops cfg env rest r.2

/-- Whether an interface registered in the table carries the hardware
address `addr` (the six bytes the driver compares). -/
def address_in_use (hw : xradio_common) (addr : List Nat) : Bool :=
  hw.vif_list.any (fun e =>
    match e with
    | some p => bytes_at p.vif_addr 0 ETH_ALEN == bytes_at addr 0 ETH_ALEN
    | none => false)

/-- Whether `addr` is one of the three configured addresses that
`xradio_add_interface` compares under `P2P_MULTIVIF`. -/
def address_configured (hw : xradio_common) (addr : List Nat) : Bool :=
  (List.range 3).any (fun k =>
    bytes_at addr 0 ETH_ALEN == bytes_at (hw.addresses.getD k []) 0 ETH_ALEN)

/-- The calls of a sequence are made as mac80211 makes them: every
`xradio_add_interface` call is for an interface whose hardware address differs
from the address of every interface registered at that time (and, in a
`P2P_MULTIVIF` build, is one of the three configured addresses), and every
`xradio_remove_interface` call names a slot that holds an interface. -/
def ops_distinct (cfg : Config) (env : Env) : List vif_op → xradio_common → Bool
  | [], _ => true
  | vif_op.add priv :: rest, hw =>
    !(address_in_use hw priv.vif_addr) &&
    (!cfg.P2P_MULTIVIF || address_configured hw priv.vif_addr) &&
    ops_distinct cfg env rest (xradio_add_interface cfg env hw priv).2.2
  | vif_op.remove i :: rest, hw =>
    (xrwl_hwpriv_to_vifpriv hw i).isSome &&
    (match xradio_remove_interface cfg env hw i with
     | none => true
     | some r => ops_distinct cfg env rest r.2)

/-- Number of bits set in the slot bitmap `if_id_slot` among the bits below
`XRWL_MAX_VIFS`. -/
def slot_bits (cfg : Config) (hw : xradio_common) : Nat :=
  (List.range cfg.XRWL_MAX_VIFS).countP (fun k => hw.if_id_slot.testBit k)

/-- Number of non-empty entries of the interface table. -/
def table_entries (cfg : Config) (hw : xradio_common) : Nat :=
  (List.range cfg.XRWL_MAX_VIFS).countP (fun k => (xrwl_hwpriv_to_vifpriv hw k).isSome)

/-- The registry of the device is consistent: the table has `XRWL_MAX_VIFS`
entries, the interface of entry `k` records slot `k`, bit `k` of the slot
bitmap is set exactly when entry `k` is not empty, the counter is the number
of non-empty entries, and the scan gate is free. -/
def registry_ok (cfg : Config) (hw : xradio_common) : Prop :=
  hw.vif_list.length = cfg.XRWL_MAX_VIFS ∧
  (∀ k p, xrwl_hwpriv_to_vifpriv hw k = some p → p.if_id = k) ∧
  (∀ k, hw.if_id_slot.testBit k = (xrwl_hwpriv_to_vifpriv hw k).isSome) ∧
  hw.num_vifs = ((table_entries cfg hw : Nat) : Int) ∧
  hw.scan_lock ≠ 0

/-- Every registered interface sits in the slot that the address search of
`xradio_add_interface` gives for its hardware address. -/
def registry_addresses_ok (cfg : Config) (hw : xradio_common) : Prop :=
  ∀ k p, xrwl_hwpriv_to_vifpriv hw k = some p →
    (cfg.P2P_MULTIVIF = false → match_address cfg hw p.vif_addr = some k) ∧
    (cfg.P2P_MULTIVIF = true →
      address_configured hw p.vif_addr = true ∧ match_address_multivif hw p = k)

/-- The example device with no interface: empty table, counter 0, slot
bitmap 0. -/
def hwEmpty : xradio_common :=
  { hwX with vif_list := [none, none, none], num_vifs := 0, if_id_slot := 0 }

/-- A new station interface with the first configured address of `hwX`. -/
def vifFirst : xradio_vif := { vifNew with vif_addr := [2, 0, 0, 0, 0, 1] }

/-- A new P2P device interface (type 10) that was given the first configured
address as well. -/
def vifSameAddr : xradio_vif := { vifNew with vif_addr := [2, 0, 0, 0, 0, 1], vif_type := 10 }

/-! # Theorems -/

/-! ## Block-ack controller: decision rule and hysteresis -/

theorem ba_decision_eq (cfg : Config) (ba_cnt ba_acc ba_cnt_rx ba_acc_rx : Int)
    (hcnt : 1 ≤ cfg.XRADIO_BLOCK_ACK_CNT) :
    ba_decision cfg ba_cnt ba_acc ba_cnt_rx ba_acc_rx =
      some (decide (ba_cnt ≥ cfg.XRADIO_BLOCK_ACK_CNT ∧
        (Int.tdiv ba_acc ba_cnt ≥ cfg.XRADIO_BLOCK_ACK_THLD ∨
          (ba_cnt_rx ≥ cfg.XRADIO_BLOCK_ACK_CNT ∧
            Int.tdiv ba_acc_rx ba_cnt_rx ≥ cfg.XRADIO_BLOCK_ACK_THLD)))) := by
  unfold ba_decision c_div
  by_cases h1 : ba_cnt ≥ cfg.XRADIO_BLOCK_ACK_CNT
  · have hne : ba_cnt ≠ 0 := by omega
    by_cases h2 : Int.tdiv ba_acc ba_cnt ≥ cfg.XRADIO_BLOCK_ACK_THLD
    · simp [h1, h2, hne]
    · by_cases h3 : ba_cnt_rx ≥ cfg.XRADIO_BLOCK_ACK_CNT
      · have hne3 : ba_cnt_rx ≠ 0 := by omega
        simp [h1, h2, h3, hne, hne3]
      · simp [h1, h2, h3, hne]
  · simp [h1]

/-- The four counters are zero after every completed timer call. -/
theorem ba_clear_counters (hw : xradio_common) :
    (ba_clear hw).ba_cnt = 0 ∧ (ba_clear hw).ba_acc = 0 ∧
      (ba_clear hw).ba_cnt_rx = 0 ∧ (ba_clear hw).ba_acc_rx = 0 := by
  simp [ba_clear]

/-- The hysteresis block leaves the four counters alone. -/
theorem ba_commit_counters (cfg : Config) (b : Bool) (hw : xradio_common) :
    (ba_commit cfg b hw).ba_cnt = hw.ba_cnt ∧ (ba_commit cfg b hw).ba_acc = hw.ba_acc ∧
      (ba_commit cfg b hw).ba_cnt_rx = hw.ba_cnt_rx ∧
      (ba_commit cfg b hw).ba_acc_rx = hw.ba_acc_rx := by
  unfold ba_commit
  split_ifs <;> simp

/-- C9: with no scan in progress (and the count threshold at least 1, so that
both divisions are defined), the decision computed by `xradio_ba_timer` is
"enable" exactly when `ba_cnt >= CNT` and (`ba_acc / ba_cnt >= THLD` or
(`ba_cnt_rx >= CNT` and `ba_acc_rx / ba_cnt_rx >= THLD`)), the timer commits
that decision through the hysteresis block, and all four counters are zero
after the call whatever the decision. -/
theorem ba_timer_decision_rule (cfg : Config) (hw : xradio_common)
    (hcnt : 1 ≤ cfg.XRADIO_BLOCK_ACK_CNT) (hscan : hw.scan_in_progress = false) :
    ∃ ba_ena hw1,
      ba_decision cfg hw.ba_cnt hw.ba_acc hw.ba_cnt_rx hw.ba_acc_rx = some ba_ena ∧
      (ba_ena = true ↔
        (hw.ba_cnt ≥ cfg.XRADIO_BLOCK_ACK_CNT ∧
          (Int.tdiv hw.ba_acc hw.ba_cnt ≥ cfg.XRADIO_BLOCK_ACK_THLD ∨
            (hw.ba_cnt_rx ≥ cfg.XRADIO_BLOCK_ACK_CNT ∧
              Int.tdiv hw.ba_acc_rx hw.ba_cnt_rx ≥ cfg.XRADIO_BLOCK_ACK_THLD)))) ∧
      xradio_ba_timer cfg hw = some hw1 ∧
      hw1 = ba_commit cfg ba_ena (ba_clear hw) ∧
      hw1.ba_cnt = 0 ∧ hw1.ba_acc = 0 ∧ hw1.ba_cnt_rx = 0 ∧ hw1.ba_acc_rx = 0 := by
  have hd := ba_decision_eq cfg hw.ba_cnt hw.ba_acc hw.ba_cnt_rx hw.ba_acc_rx hcnt
  refine ⟨_, _, hd, by simp, ?_, rfl, ?_⟩
  · unfold xradio_ba_timer
    rw [hd]
    simp [hscan]
  · obtain ⟨a1, a2, a3, a4⟩ := ba_commit_counters cfg
      (decide (hw.ba_cnt ≥ cfg.XRADIO_BLOCK_ACK_CNT ∧
          (Int.tdiv hw.ba_acc hw.ba_cnt ≥ cfg.XRADIO_BLOCK_ACK_THLD ∨
            (hw.ba_cnt_rx ≥ cfg.XRADIO_BLOCK_ACK_CNT ∧
              Int.tdiv hw.ba_acc_rx hw.ba_cnt_rx ≥ cfg.XRADIO_BLOCK_ACK_THLD)))) (ba_clear hw)
    obtain ⟨b1, b2, b3, b4⟩ := ba_clear_counters hw
    exact ⟨a1.trans b1, a2.trans b2, a3.trans b3, a4.trans b4⟩

/-- Witness of C9 on the example device with a sample above the thresholds
loaded. -/
theorem ba_timer_decision_rule_witness :
    ∃ ba_ena hw1,
      ba_decision cfgX 30 30000 0 0 = some ba_ena ∧
      (ba_ena = true ↔
        ((30 : Int) ≥ cfgX.XRADIO_BLOCK_ACK_CNT ∧
          (Int.tdiv 30000 30 ≥ cfgX.XRADIO_BLOCK_ACK_THLD ∨
            ((0 : Int) ≥ cfgX.XRADIO_BLOCK_ACK_CNT ∧
              Int.tdiv 0 0 ≥ cfgX.XRADIO_BLOCK_ACK_THLD)))) ∧
      xradio_ba_timer cfgX { hwX with ba_cnt := 30, ba_acc := 30000 } = some hw1 ∧
      hw1 = ba_commit cfgX ba_ena (ba_clear { hwX with ba_cnt := 30, ba_acc := 30000 }) ∧
      hw1.ba_cnt = 0 ∧ hw1.ba_acc = 0 ∧ hw1.ba_cnt_rx = 0 ∧ hw1.ba_acc_rx = 0 :=
  ba_timer_decision_rule cfgX { hwX with ba_cnt := 30, ba_acc := 30000 } (by decide) rfl

/-- C10: with block-ack disabled and no scan in progress, one timer period
whose decision is "enable" leaves the enable flag set and the history counter
at 0, whatever the history counter was before. -/
theorem ba_enable_commits_at_once (cfg : Config) (hw : xradio_common)
    (hscan : hw.scan_in_progress = false) (hoff : hw.ba_ena = false)
    (hdec : ba_decision cfg hw.ba_cnt hw.ba_acc hw.ba_cnt_rx hw.ba_acc_rx = some true) :
    ∃ hw1, xradio_ba_timer cfg hw = some hw1 ∧ hw1.ba_ena = true ∧ hw1.ba_hist = 0 := by
  refine ⟨ba_commit cfg true (ba_clear hw), ?_, ?_⟩
  · unfold xradio_ba_timer
    simp [hscan, hdec]
  · simp [ba_commit, ba_clear, hoff]

/-- Witness of C10: block-ack disabled with the history counter at 2, a sample
above the thresholds. -/
theorem ba_enable_commits_at_once_witness :
    ∃ hw1, xradio_ba_timer cfgX { hwX with ba_cnt := 30, ba_acc := 30000, ba_hist := 2 }
        = some hw1 ∧ hw1.ba_ena = true ∧ hw1.ba_hist = 0 :=
  ba_enable_commits_at_once cfgX { hwX with ba_cnt := 30, ba_acc := 30000, ba_hist := 2 }
    rfl rfl (by decide)

/-- A period does not produce both decisions. -/
theorem ba_not_both (cfg : Config) (p : ba_sample) :
    ¬ (ba_disables cfg p = true ∧ ba_enables cfg p = true) := by
  unfold ba_disables ba_enables
  cases p.scan <;> cases ba_decision cfg p.ba_cnt p.ba_acc p.ba_cnt_rx p.ba_acc_rx <;> simp

/-- One timer period preserves the window invariant. -/
theorem ba_period_window (cfg : Config) (hw hw1 : xradio_common) (p : ba_sample)
    (seen : List ba_sample) (hinv : ba_window_inv cfg hw seen)
    (hstep : ba_period cfg hw p = some hw1) :
    ba_window_inv cfg hw1 (seen ++ [p]) := by
  unfold ba_period xradio_ba_timer at hstep
  intro hon1
  cases hs : p.scan
  · simp only [hs, Bool.false_eq_true, if_false] at hstep
    cases hd : ba_decision cfg p.ba_cnt p.ba_acc p.ba_cnt_rx p.ba_acc_rx with
    | none => simp [hd] at hstep
    | some d =>
      simp only [hd, Option.some.injEq] at hstep
      subst hstep
      have hdis : ba_disables cfg p = !d := by
        unfold ba_disables; cases d <;> simp [hs, hd]
      have hen : ba_enables cfg p = d := by
        unfold ba_enables; cases d <;> simp [hs, hd]
      cases he : hw.ba_ena
      · -- disabled before: only an enable decision leaves it enabled, history 0
        cases d
        · simp [ba_commit, ba_clear, he] at hon1
          split_ifs at hon1
        · refine ⟨by simp [ba_commit, ba_clear, he], [], List.nil_suffix, ?_⟩
          simp [ba_commit, ba_clear, he]
      · obtain ⟨h0, w, ⟨t, ht⟩, hw'⟩ := hinv he
        cases d
        · -- disable decision while enabled and still enabled: history grows by one
          simp only [ba_commit, ba_clear, he] at hon1 ⊢
          by_cases hc : hw.ba_hist + 1 ≥ cfg.XRADIO_BLOCK_ACK_HIST
          · simp [hc] at hon1
          · refine ⟨by simp [hc]; omega, w ++ [p], ⟨t, by rw [← List.append_assoc, ht]⟩, ?_⟩
            simp [hc, List.countP_append, List.countP_cons, hdis, hen]
            omega
        · -- enable decision while enabled: history falls by one, not below zero
          simp only [ba_commit, ba_clear, he] at hon1 ⊢
          by_cases hz : hw.ba_hist = 0
          · refine ⟨by simp [hz], [], List.nil_suffix, ?_⟩
            simp [hz]
          · refine ⟨by simp [hz]; omega, w ++ [p], ⟨t, by rw [← List.append_assoc, ht]⟩, ?_⟩
            simp [hz, List.countP_append, List.countP_cons, hdis, hen]
            omega
  · simp only [hs, if_true, Option.some.injEq] at hstep
    subst hstep
    have he : hw.ba_ena = true := by simpa [ba_clear] using hon1
    obtain ⟨h0, w, ⟨t, ht⟩, hw'⟩ := hinv he
    have hdis : ba_disables cfg p = false := by unfold ba_disables; simp [hs]
    have hen : ba_enables cfg p = false := by unfold ba_enables; simp [hs]
    refine ⟨by simpa [ba_clear] using h0, w ++ [p], ⟨t, by rw [← List.append_assoc, ht]⟩, ?_⟩
    simp [ba_clear, List.countP_append, List.countP_cons, hdis, hen]
    exact hw'

/-- A run of timer periods preserves the window invariant. -/
theorem ba_periods_window (cfg : Config) (samples : List ba_sample) :
    ∀ (hw hw1 : xradio_common) (seen : List ba_sample),
      ba_window_inv cfg hw seen → ba_periods cfg hw samples = some hw1 →
      ba_window_inv cfg hw1 (seen ++ samples) := by
  induction samples with
  | nil =>
    intro hw hw1 seen hinv hrun
    simp only [ba_periods, Option.some.injEq] at hrun
    subst hrun
    simpa using hinv
  | cons p rest ih =>
    intro hw hw1 seen hinv hrun
    simp only [ba_periods] at hrun
    cases hp : ba_period cfg hw p with
    | none => simp [hp] at hrun
    | some hw2 =>
      simp only [hp] at hrun
      have h2 := ba_period_window cfg hw hw2 p seen hinv hp
      have h3 := ih hw2 hw1 (seen ++ [p]) h2 hrun
      simpa using h3

/-- The period in which the flag goes from enabled to disabled produced a
disable decision and found the history counter one short of the depth. -/
theorem ba_period_flip (cfg : Config) (hw hw1 : xradio_common) (p : ba_sample)
    (hon : hw.ba_ena = true) (hstep : ba_period cfg hw p = some hw1)
    (hoff : hw1.ba_ena = false) :
    ba_disables cfg p = true ∧ cfg.XRADIO_BLOCK_ACK_HIST ≤ hw.ba_hist + 1 := by
  unfold ba_period xradio_ba_timer at hstep
  unfold ba_disables
  cases hs : p.scan
  · simp only [hs, Bool.false_eq_true, if_false] at hstep
    cases hd : ba_decision cfg p.ba_cnt p.ba_acc p.ba_cnt_rx p.ba_acc_rx with
    | none => simp [hd] at hstep
    | some d =>
      simp only [hd, Option.some.injEq] at hstep
      subst hstep
      cases d
      · simp only [ba_commit, ba_clear, hon] at hoff
        split_ifs at hoff with h1 h2 h3 <;> simp_all
      · simp [ba_commit, ba_clear, hon] at hoff
        split_ifs at hoff
  · simp only [hs, if_true, Option.some.injEq] at hstep
    subst hstep
    simp [ba_clear, hon] at hoff

/-- C4 (as stated, refuted): with history depth 3 the run `runX` from the state
left by a join has block-ack enabled after five periods and disabled after the
sixth, although the period two before the sixth (the fourth of the run)
produced an enable decision, so the last 3 periods did not all produce a
disable decision. -/
theorem ba_disable_without_consecutive_periods :
    cfgX.XRADIO_BLOCK_ACK_HIST = 3 ∧
      (ba_periods cfgX hwX (runX.take 5)).map (fun h => h.ba_ena) = some true ∧
      (ba_periods cfgX hwX runX).map (fun h => h.ba_ena) = some false ∧
      (runX.get? 3).map (ba_disables cfgX) = some false ∧
      (runX.get? 3).map (ba_enables cfgX) = some true := by
  decide

/-- C4 (amended): in every run of timer periods started with the history
counter at 0 (as a join and every committed decision leave it), whenever the
enable flag goes from enabled to disabled at the end of a period, that period
produced a disable decision and the run has a trailing window, ending with
that period, in which the periods that produced a disable decision outnumber
those that produced an enable decision by at least `XRADIO_BLOCK_ACK_HIST`
(periods skipped for a scan count for neither). -/
theorem ba_disable_needs_hist_periods (cfg : Config) (hw hw1 hw2 : xradio_common)
    (before : List ba_sample) (last : ba_sample)
    (hhist : hw.ba_hist = 0)
    (hrun : ba_periods cfg hw before = some hw1) (hon : hw1.ba_ena = true)
    (hlast : ba_period cfg hw1 last = some hw2) (hoff : hw2.ba_ena = false) :
    ba_disables cfg last = true ∧
      ∃ w : List ba_sample, w <:+ before ∧
        cfg.XRADIO_BLOCK_ACK_HIST + (((w ++ [last]).countP (ba_enables cfg) : Nat) : Int) ≤
          (((w ++ [last]).countP (ba_disables cfg) : Nat) : Int) := by
  have hstart : ba_window_inv cfg hw [] := by
    intro _
    exact ⟨by omega, [], List.nil_suffix, by simp [hhist]⟩
  have h1 := ba_periods_window cfg before hw hw1 [] hstart hrun
  simp only [List.nil_append] at h1
  obtain ⟨-, w, hsuf, hwin⟩ := h1 hon
  obtain ⟨h2, h3⟩ := ba_period_flip cfg hw1 hw2 last hon hlast hoff
  have h4 : ba_enables cfg last = false := by
    cases h : ba_enables cfg last
    · rfl
    · exact absurd ⟨h2, h⟩ (ba_not_both cfg last)
  refine ⟨h2, w, hsuf, ?_⟩
  simp only [List.countP_append, List.countP_cons, List.countP_nil, h2, h4, if_true,
    Bool.false_eq_true, if_false]
  push_cast
  omega

/-- Witness of the amended C4: from the state left by a join, the run enable,
disable, disable, enable, disable keeps block-ack enabled and one more disable
period switches it off. -/
theorem ba_disable_needs_hist_periods_witness :
    ba_disables cfgX sampleLow = true ∧
      ∃ w : List ba_sample, w <:+ runX.take 5 ∧
        cfgX.XRADIO_BLOCK_ACK_HIST + (((w ++ [sampleLow]).countP (ba_enables cfgX) : Nat) : Int) ≤
          (((w ++ [sampleLow]).countP (ba_disables cfgX) : Nat) : Int) :=
  ba_disable_needs_hist_periods cfgX hwX { hwX with ba_ena := true, ba_hist := 2 } hwX
    (runX.take 5) sampleLow rfl (by decide) rfl (by decide) rfl

/-! ## Interface table lemmas -/

theorem lookup_lt (hw : xradio_common) (i : Nat) (q : xradio_vif)
    (h : xrwl_hwpriv_to_vifpriv hw i = some q) : i < hw.vif_list.length := by
  unfold xrwl_hwpriv_to_vifpriv at h
  by_contra hlt
  have : hw.vif_list[i]? = none := by
    rw [List.getElem?_eq_none_iff]; omega
  simp [this] at h

theorem lookup_set_vif (hw : xradio_common) (i : Nat) (p q : xradio_vif)
    (h : xrwl_hwpriv_to_vifpriv hw i = some q) :
    xrwl_hwpriv_to_vifpriv (set_vif hw i p) i = some p := by
  have hlt := lookup_lt hw i q h
  unfold xrwl_hwpriv_to_vifpriv set_vif
  simp [hlt]

theorem lookup_get (hw : xradio_common) (i : Nat) (q : xradio_vif)
    (h : xrwl_hwpriv_to_vifpriv hw i = some q) : hw.vif_list[i]? = some (some q) := by
  unfold xrwl_hwpriv_to_vifpriv at h
  split at h
  · rename_i p hp
    simp at h
    rw [hp, h]
  · simp at h

theorem set_vif_same (hw : xradio_common) (i : Nat) (q : xradio_vif)
    (h : xrwl_hwpriv_to_vifpriv hw i = some q) : set_vif hw i q = hw := by
  have hg := lookup_get hw i q h
  unfold set_vif
  have : hw.vif_list.set i (some q) = hw.vif_list := by
    apply List.ext_getElem?
    intro j
    by_cases hj : i = j
    · subst hj
      simp [List.getElem?_set, hg, lookup_lt hw i q h]
    · simp [List.getElem?_set, hj]
  rw [this]

theorem set_vif_set_vif (hw : xradio_common) (i : Nat) (p q : xradio_vif) :
    set_vif (set_vif hw i p) i q = set_vif hw i q := by
  simp [set_vif]

/-! ## Link-loss detection -/

/-- One `BSS_LOST` event on an interface whose status is above `NONE` is
ignored. -/
theorem handle_bss_lost_ignored (cfg : Config) (env : Env) (tag : Nat) (hw : xradio_common)
    (i data : Nat) (priv : xradio_vif)
    (hpriv : xrwl_hwpriv_to_vifpriv hw i = some priv)
    (habove : priv.bss_loss_status.toNat > xradio_bss_loss_status.NONE.toNat) :
    handle_event cfg env tag hw (bss_lost_event i data) = some hw := by
  simp [handle_event, bss_lost_event, hpriv, habove]

/-- One `BSS_LOST` event on an interface whose status is `NONE` opens the
confirmation cycle. -/
theorem handle_bss_lost_none (cfg : Config) (env : Env) (tag : Nat) (hw : xradio_common)
    (i data : Nat) (priv : xradio_vif)
    (hpriv : xrwl_hwpriv_to_vifpriv hw i = some priv)
    (hnone : priv.bss_loss_status = xradio_bss_loss_status.NONE) :
    handle_event cfg env tag hw (bss_lost_event i data) =
      some (set_vif hw i
        { priv with
          bss_loss_status := xradio_bss_loss_status.CHECKING
          connection_loss_work := none
          delayed_link_loss := if hw.scan_lock = 0 then 1 else 0
          bss_loss_work := some (if hw.scan_lock = 0 then 10 * cfg.HZ else cfg.HZ / 10) }) := by
  by_cases hl : hw.scan_lock = 0
  · simp [handle_event, bss_lost_event, hpriv, hnone, xradio_bss_loss_status.toNat,
      scan_down_trylock, hl, cancel_delayed_work_sync, queue_delayed_work]
  · have hpos : hw.scan_lock - 1 + 1 = hw.scan_lock := by omega
    simp [handle_event, bss_lost_event, hpriv, hnone, xradio_bss_loss_status.toNat,
      scan_down_trylock, scan_up, hl, cancel_delayed_work_sync, queue_delayed_work, set_vif,
      hpos]

/-- C2: for an interface whose bss-loss status is above `NONE`, handling a
`BSS_LOST` event leaves the whole device as it was (status and both timers
included; only the event queue is drained); from status `NONE`, a batch with
two `BSS_LOST` events ends in exactly the state a batch with one ends in:
status `CHECKING`, one queued `bss_loss_work`, no `connection_loss_work`. -/
theorem bss_lost_at_most_one_cycle (cfg : Config) (env : Env) (hw : xradio_common)
    (i data : Nat) (priv : xradio_vif)
    (hpriv : xrwl_hwpriv_to_vifpriv hw i = some priv) :
    (priv.bss_loss_status.toNat > xradio_bss_loss_status.NONE.toNat →
      xradio_event_handler cfg env { hw with event_queue := [bss_lost_event i data] } =
        some { hw with event_queue := [] }) ∧
    (priv.bss_loss_status = xradio_bss_loss_status.NONE →
      ∃ hw1 priv1,
        xradio_event_handler cfg env { hw with event_queue := [bss_lost_event i data] } =
          some hw1 ∧
        xradio_event_handler cfg env
          { hw with event_queue := [bss_lost_event i data, bss_lost_event i data] } = some hw1 ∧
        xrwl_hwpriv_to_vifpriv hw1 i = some priv1 ∧
        priv1.bss_loss_status = xradio_bss_loss_status.CHECKING ∧
        priv1.bss_loss_work = some (if hw.scan_lock = 0 then 10 * cfg.HZ else cfg.HZ / 10) ∧
        priv1.connection_loss_work = none) := by
  have hpriv0 : xrwl_hwpriv_to_vifpriv { hw with event_queue := [] } i = some priv := hpriv
  constructor
  · intro habove
    have h := handle_bss_lost_ignored cfg env 0 { hw with event_queue := [] } i data priv
      hpriv0 habove
    simp [xradio_event_handler, handle_events, h]
  · intro hnone
    have h1 := fun tag => handle_bss_lost_none cfg env tag { hw with event_queue := [] } i data
      priv hpriv0 hnone
    have hl := lookup_set_vif { hw with event_queue := [] } i
      { priv with
        bss_loss_status := xradio_bss_loss_status.CHECKING
        connection_loss_work := none
        delayed_link_loss := if hw.scan_lock = 0 then 1 else 0
        bss_loss_work := some (if hw.scan_lock = 0 then 10 * cfg.HZ else cfg.HZ / 10) }
      priv hpriv0
    have h2 := fun tag => handle_bss_lost_ignored cfg env tag _ i data _ hl
      (by simp [xradio_bss_loss_status.toNat])
    refine ⟨_, _, ?_, ?_, hl, rfl, rfl, rfl⟩
    · simp only [xradio_event_handler, handle_events]
      rw [h1]
    · simp only [xradio_event_handler, handle_events]
      rw [h1]
      simp only []
      rw [h2]

/-- Witness of C2: a second `BSS_LOST` while `CONFIRMING` changes nothing, and
on the healthy example device two events give what one event gives. -/
theorem bss_lost_at_most_one_cycle_witness :
    xradio_event_handler cfgX envOk
        { ({ hwX with vif_list := [some vifConfirming, none, none] } : xradio_common) with
          event_queue := [bss_lost_event 0 0] } =
      some { ({ hwX with vif_list := [some vifConfirming, none, none] } : xradio_common) with
        event_queue := [] } ∧
    ∃ hw1 priv1,
      xradio_event_handler cfgX envOk { hwX with event_queue := [bss_lost_event 0 0] } =
        some hw1 ∧
      xradio_event_handler cfgX envOk
        { hwX with event_queue := [bss_lost_event 0 0, bss_lost_event 0 0] } = some hw1 ∧
      xrwl_hwpriv_to_vifpriv hw1 0 = some priv1 ∧
      priv1.bss_loss_status = xradio_bss_loss_status.CHECKING ∧
      priv1.bss_loss_work = some (if hwX.scan_lock = 0 then 10 * cfgX.HZ else cfgX.HZ / 10) ∧
      priv1.connection_loss_work = none :=
  ⟨(bss_lost_at_most_one_cycle cfgX envOk
      { hwX with vif_list := [some vifConfirming, none, none] } 0 0 vifConfirming rfl).1
      (by decide),
   (bss_lost_at_most_one_cycle cfgX envOk hwX 0 0 vifX rfl).2 rfl⟩

/-- C3: whatever the bss-loss status and the state of the two timers, handling
a `BSS_REGAINED` event for an existing interface leaves the status `NONE`, the
delayed-link-loss flag cleared, and neither `bss_loss_work` nor
`connection_loss_work` queued. -/
theorem bss_regained_resets (cfg : Config) (env : Env) (hw : xradio_common)
    (i data : Nat) (priv : xradio_vif)
    (hpriv : xrwl_hwpriv_to_vifpriv hw i = some priv) :
    ∃ hw1 priv1,
      xradio_event_handler cfg env { hw with event_queue := [bss_regained_event i data] } =
        some hw1 ∧
      xrwl_hwpriv_to_vifpriv hw1 i = some priv1 ∧
      priv1.bss_loss_status = xradio_bss_loss_status.NONE ∧
      priv1.delayed_link_loss = 0 ∧
      priv1.bss_loss_work = none ∧
      priv1.connection_loss_work = none := by
  have hpriv0 : xrwl_hwpriv_to_vifpriv { hw with event_queue := [] } i = some priv := hpriv
  have hl := lookup_set_vif { hw with event_queue := [] } i
    { priv with
      delayed_link_loss := 0
      bss_loss_status := xradio_bss_loss_status.NONE
      bss_loss_work := none
      connection_loss_work := none }
    priv hpriv0
  refine ⟨_, _, ?_, hl, rfl, rfl, rfl, rfl⟩
  simp [xradio_event_handler, handle_events, handle_event, bss_regained_event, hpriv0,
    cancel_delayed_work_sync]

/-- Witness of C3 on an interface that is `CONFIRMING` with `bss_loss_work`
queued. -/
theorem bss_regained_resets_witness :
    ∃ hw1 priv1,
      xradio_event_handler cfgX envOk
        { ({ hwX with vif_list := [some vifConfirming, none, none] } : xradio_common) with
          event_queue := [bss_regained_event 0 0] } = some hw1 ∧
      xrwl_hwpriv_to_vifpriv hw1 0 = some priv1 ∧
      priv1.bss_loss_status = xradio_bss_loss_status.NONE ∧
      priv1.delayed_link_loss = 0 ∧
      priv1.bss_loss_work = none ∧
      priv1.connection_loss_work = none :=
  bss_regained_resets cfgX envOk { hwX with vif_list := [some vifConfirming, none, none] } 0 0
    vifConfirming rfl

/-- C7: for a `RCPI_RSSI` event on an existing interface, with `V` the low byte
of the payload, the value computed is `V / 2 - 110` in RCPI mode (0 for
`V = 220`) and `V` read as a signed byte in RSSI mode, and exactly one
notification goes upward: `LOW` when the value is at most `cqm_rssi_thold`,
`HIGH` otherwise. -/
theorem rcpi_rssi_notification (cfg : Config) (env : Env) (hw : xradio_common)
    (i data : Nat) (priv : xradio_vif)
    (hpriv : xrwl_hwpriv_to_vifpriv hw i = some priv) :
    (priv.cqm_use_rssi = false →
      rcpi_rssi_value priv.cqm_use_rssi data = ((data % 256 / 2 : Nat) : Int) - 110) ∧
    (priv.cqm_use_rssi = true →
      rcpi_rssi_value priv.cqm_use_rssi data =
        if data % 256 < 128 then ((data % 256 : Nat) : Int)
        else ((data % 256 : Nat) : Int) - 256) ∧
    rcpi_rssi_value false 220 = 0 ∧
    xradio_event_handler cfg env { hw with event_queue := [rcpi_rssi_event i data] } =
      some { hw with
        event_queue := []
        upcalls := hw.upcalls ++ [Upcall.cqm_rssi_notify priv.if_id
          (if rcpi_rssi_value priv.cqm_use_rssi data ≤ priv.cqm_rssi_thold
            then nl80211_cqm_rssi_threshold_event.LOW
            else nl80211_cqm_rssi_threshold_event.HIGH)] } := by
  have hpriv0 : xrwl_hwpriv_to_vifpriv { hw with event_queue := [] } i = some priv := hpriv
  refine ⟨?_, ?_, by decide, ?_⟩
  · intro h
    simp only [rcpi_rssi_value, h, Bool.false_eq_true, if_false]
    have : Int.tdiv ((data % 256 : Nat) : Int) 2 = ((data % 256 / 2 : Nat) : Int) := by
      rw [Int.tdiv_eq_ediv (by omega) (by omega)]
      norm_cast
    rw [this]
  · intro h
    simp only [rcpi_rssi_value, h, if_true]
    split_ifs <;> omega
  · simp [xradio_event_handler, handle_events, handle_event, rcpi_rssi_event, hpriv0]

/-- Witness of C7 on the example device: RCPI 220 against the threshold -70
gives the value 0 and the notification `HIGH`. -/
theorem rcpi_rssi_notification_witness :
    (vifX.cqm_use_rssi = false →
      rcpi_rssi_value vifX.cqm_use_rssi 220 = ((220 % 256 / 2 : Nat) : Int) - 110) ∧
    (vifX.cqm_use_rssi = true →
      rcpi_rssi_value vifX.cqm_use_rssi 220 =
        if 220 % 256 < 128 then ((220 % 256 : Nat) : Int)
        else ((220 % 256 : Nat) : Int) - 256) ∧
    rcpi_rssi_value false 220 = 0 ∧
    xradio_event_handler cfgX envOk { hwX with event_queue := [rcpi_rssi_event 0 220] } =
      some { hwX with
        event_queue := []
        upcalls := hwX.upcalls ++ [Upcall.cqm_rssi_notify vifX.if_id
          (if rcpi_rssi_value vifX.cqm_use_rssi 220 ≤ vifX.cqm_rssi_thold
            then nl80211_cqm_rssi_threshold_event.LOW
            else nl80211_cqm_rssi_threshold_event.HIGH)] } :=
  rcpi_rssi_notification cfgX envOk hwX 0 220 vifX rfl

theorem set_vif_length (hw : xradio_common) (i : Nat) (p : xradio_vif) :
    (set_vif hw i p).vif_list.length = hw.vif_list.length := by
  simp [set_vif]

theorem lookup_set_vif_lt (hw : xradio_common) (i : Nat) (p : xradio_vif)
    (hlt : i < hw.vif_list.length) :
    xrwl_hwpriv_to_vifpriv (set_vif hw i p) i = some p := by
  unfold xrwl_hwpriv_to_vifpriv set_vif
  simp [hlt]

/-- C8: for a non-P2P interface with bss-loss status `NONE` and the scan gate
free, one `BSS_LOST` event, then `bss_loss_work` firing, then
`connection_loss_work` firing emit the connection-loss notification exactly
once (nothing is emitted before the last step) and end with status `NONE` and
neither link-loss work queued. -/
theorem link_loss_reported_once (cfg : Config) (env : Env) (hw : xradio_common)
    (i data : Nat) (priv : xradio_vif)
    (hpriv : xrwl_hwpriv_to_vifpriv hw i = some priv)
    (hp2p : priv.vif_p2p = false)
    (hnone : priv.bss_loss_status = xradio_bss_loss_status.NONE)
    (hgate : 0 < hw.scan_lock) :
    ∃ hw1 hw2 hw3 priv3,
      xradio_event_handler cfg env { hw with event_queue := [bss_lost_event i data] } =
        some hw1 ∧
      fire_bss_loss_work cfg hw1 i = some hw2 ∧
      fire_connection_loss_work hw2 i = some hw3 ∧
      hw1.upcalls = hw.upcalls ∧
      hw2.upcalls = hw.upcalls ∧
      hw3.upcalls = hw.upcalls ++ [Upcall.connection_loss priv.if_id] ∧
      xrwl_hwpriv_to_vifpriv hw3 i = some priv3 ∧
      priv3.bss_loss_status = xradio_bss_loss_status.NONE ∧
      priv3.bss_loss_work = none ∧
      priv3.connection_loss_work = none := by
  have hlt : i < hw.vif_list.length := lookup_lt hw i priv hpriv
  have hpriv0 : xrwl_hwpriv_to_vifpriv { hw with event_queue := [] } i = some priv := hpriv
  have hl0 : ¬ hw.scan_lock = 0 := by omega
  have h1 := fun tag =>
    handle_bss_lost_none cfg env tag { hw with event_queue := [] } i data priv hpriv0 hnone
  simp only [hl0, if_false] at h1
  have e1 : xradio_event_handler cfg env { hw with event_queue := [bss_lost_event i data] } =
      some (set_vif { hw with event_queue := [] } i
        { priv with
          bss_loss_status := xradio_bss_loss_status.CHECKING
          connection_loss_work := none
          delayed_link_loss := 0
          bss_loss_work := some (cfg.HZ / 10) }) := by
    simp only [xradio_event_handler, handle_events]
    rw [h1]
  have e2 : ∃ d, fire_bss_loss_work cfg (set_vif { hw with event_queue := [] } i
        { priv with
          bss_loss_status := xradio_bss_loss_status.CHECKING
          connection_loss_work := none
          delayed_link_loss := 0
          bss_loss_work := some (cfg.HZ / 10) }) i =
      some (set_vif { hw with event_queue := [] } i
        { priv with
          bss_loss_status := xradio_bss_loss_status.NONE
          connection_loss_work := some d
          delayed_link_loss := 0
          bss_loss_work := none }) := by
    refine ⟨int_to_ulong cfg (Int.tdiv (wrap_int ((if priv.cqm_beacon_loss_count ≠ 0 then
        (if wrap_int (priv.cqm_link_loss_count - priv.cqm_beacon_loss_count) ≤ 0 then 0
          else wrap_int (priv.cqm_link_loss_count - priv.cqm_beacon_loss_count)) else 0) *
        (cfg.HZ : Int))) 10), ?_⟩
    simp only [fire_bss_loss_work]
    rw [lookup_set_vif_lt { hw with event_queue := [] } i _ hlt]
    simp only [set_vif_set_vif, xradio_bss_loss_work]
    rw [lookup_set_vif_lt { hw with event_queue := [] } i _ hlt]
    simp only [hp2p, Bool.false_eq_true, if_false, reduceCtorEq, set_vif_set_vif,
      cancel_delayed_work_sync, queue_delayed_work]
  obtain ⟨d, e2⟩ := e2
  have e3 : fire_connection_loss_work (set_vif { hw with event_queue := [] } i
        { priv with
          bss_loss_status := xradio_bss_loss_status.NONE
          connection_loss_work := some d
          delayed_link_loss := 0
          bss_loss_work := none }) i =
      some { (set_vif { hw with event_queue := [] } i
        { priv with
          bss_loss_status := xradio_bss_loss_status.NONE
          connection_loss_work := none
          delayed_link_loss := 0
          bss_loss_work := none }) with
        upcalls := hw.upcalls ++ [Upcall.connection_loss priv.if_id] } := by
    simp only [fire_connection_loss_work]
    rw [lookup_set_vif_lt { hw with event_queue := [] } i _ hlt]
    simp only [set_vif_set_vif, xradio_connection_loss_work]
    rw [lookup_set_vif_lt { hw with event_queue := [] } i _ hlt]
    rfl
  have e4 : xrwl_hwpriv_to_vifpriv { (set_vif { hw with event_queue := [] } i
        { priv with
          bss_loss_status := xradio_bss_loss_status.NONE
          connection_loss_work := none
          delayed_link_loss := 0
          bss_loss_work := none }) with
        upcalls := hw.upcalls ++ [Upcall.connection_loss priv.if_id] } i =
      some { priv with
          bss_loss_status := xradio_bss_loss_status.NONE
          connection_loss_work := none
          delayed_link_loss := 0
          bss_loss_work := none } :=
    lookup_set_vif_lt { hw with event_queue := [] } i _ hlt
  exact ⟨_, _, _, _, e1, e2, e3, rfl, rfl, rfl, e4, rfl, rfl, rfl⟩

/-- Witness of C8 on the example device. -/
theorem link_loss_reported_once_witness :
    ∃ hw1 hw2 hw3 priv3,
      xradio_event_handler cfgX envOk { hwX with event_queue := [bss_lost_event 0 0] } =
        some hw1 ∧
      fire_bss_loss_work cfgX hw1 0 = some hw2 ∧
      fire_connection_loss_work hw2 0 = some hw3 ∧
      hw1.upcalls = hwX.upcalls ∧
      hw2.upcalls = hwX.upcalls ∧
      hw3.upcalls = hwX.upcalls ++ [Upcall.connection_loss vifX.if_id] ∧
      xrwl_hwpriv_to_vifpriv hw3 0 = some priv3 ∧
      priv3.bss_loss_status = xradio_bss_loss_status.NONE ∧
      priv3.bss_loss_work = none ∧
      priv3.connection_loss_work = none :=
  link_loss_reported_once cfgX envOk hwX 0 0 vifX rfl rfl rfl (by decide)

/-! ## Key slots -/

/-- The first free slot found by the scan is free. -/
theorem first_free_slot_spec (keys : List (Option wsm_add_key)) :
    ∀ idx, first_free_slot keys = some idx → keys[idx]? = some none := by
  induction keys with
  | nil => intro idx h; simp [first_free_slot] at h
  | cons k rest ih =>
    intro idx h
    cases k with
    | none =>
      simp [first_free_slot] at h
      subst h
      simp
    | some d =>
      simp [first_free_slot] at h
      obtain ⟨j, hj, rfl⟩ := h
      simpa using ih j hj

/-- Releasing the slot that the scan found free gives the table back, whatever
was stored there in between. -/
theorem set_none_of_free (keys : List (Option wsm_add_key)) (idx : Nat) (d : Option wsm_add_key)
    (h : first_free_slot keys = some idx) : (keys.set idx d).set idx none = keys := by
  have hg := first_free_slot_spec keys idx h
  rw [List.set_set]
  apply List.ext_getElem?
  intro j
  by_cases hj : idx = j
  · subst hj
    have hlt : idx < keys.length := by
      by_contra hc
      have : keys[idx]? = none := by rw [List.getElem?_eq_none_iff]; omega
      simp [this] at hg
    simp [List.getElem?_set, hlt, hg]
  · simp [List.getElem?_set, hj]

/-- A firmware command leaves the key table alone. -/
theorem wsm_cmd_keys (env : Env) (hw : xradio_common) (c : WsmCmd) :
    (wsm_cmd env hw c).2.keys = hw.keys := rfl

/-- C5: a `SET_KEY` request with no free key slot returns `-EINVAL` and leaves
the whole device unchanged (no firmware command); every `SET_KEY` request that
returns a non-zero value (no free slot, WEP key longer than 16 bytes, unknown
cipher suite, firmware add-key failure) leaves the key-slot table equal to the
table before the call. -/
theorem set_key_error_keeps_pool (cfg : Config) (env : Env) (hw : xradio_common) (i : Nat)
    (sta : Option (List Nat)) (key : ieee80211_key_conf) (priv : xradio_vif)
    (hpriv : xrwl_hwpriv_to_vifpriv hw i = some priv) :
    (first_free_slot hw.keys = none →
      xradio_set_key cfg env hw i set_key_cmd.SET_KEY sta key = some (-EINVAL, key, hw)) ∧
    (∀ ret key1 hw1,
      xradio_set_key cfg env hw i set_key_cmd.SET_KEY sta key = some (ret, key1, hw1) →
      ret ≠ 0 → hw1.keys = hw.keys) := by
  constructor
  · intro hfull
    simp [xradio_set_key, hpriv, xradio_alloc_key, hfull]
  · intro ret key1 hw1 hcall herr
    simp only [xradio_set_key, hpriv, xradio_alloc_key] at hcall
    cases hfree : first_free_slot hw.keys with
    | none =>
      simp [hfree] at hcall
      rw [← hcall.2.2]
    | some idx =>
      simp only [hfree] at hcall
      split at hcall
      · simp at hcall
      · split at hcall
        · rename_i e hfill
          simp only [Option.some.injEq, Prod.mk.injEq] at hcall
          rw [← hcall.2.2]
          simp only [set_vif, xradio_free_key]
          exact set_none_of_free hw.keys idx _ hfree
        · rename_i wsm_key hfill
          simp only [wsm_cmd, write_key, Option.some.injEq, Prod.mk.injEq] at hcall
          obtain ⟨hret, -, hhw⟩ := hcall
          have hne : ¬ SYS_WARN (env.wsm_ret hw.fw_log.length) = 0 := by
            rw [hret]; exact herr
          rw [← hhw]
          simp only [hne, false_and, and_false, if_false, set_vif, xradio_free_key]
          rw [List.set_set]
          exact set_none_of_free hw.keys idx _ hfree



/-- Witness of C5: a full table, a firmware failure and an over-long WEP key
on the example device. -/
theorem set_key_error_keeps_pool_witness :
    xradio_set_key cfgX envOk hwFullKeys 0 set_key_cmd.SET_KEY none keyCCMP =
      some (-EINVAL, keyCCMP, hwFullKeys) ∧
    (∃ ret key1 hw1,
      xradio_set_key cfgX envFail hwX 0 set_key_cmd.SET_KEY none keyCCMP = some (ret, key1, hw1) ∧
      ret ≠ 0 ∧ hw1.keys = hwX.keys) ∧
    (∃ ret key1 hw1,
      xradio_set_key cfgX envOk hwX 0 set_key_cmd.SET_KEY none keyWEPlong =
        some (ret, key1, hw1) ∧
      ret ≠ 0 ∧ hw1.keys = hwX.keys) :=
  ⟨(set_key_error_keeps_pool cfgX envOk hwFullKeys 0 none keyCCMP vifX rfl).1 rfl,
   ⟨_, _, _, rfl, by decide,
     (set_key_error_keeps_pool cfgX envFail hwX 0 none keyCCMP vifX rfl).2 _ _ _ rfl (by decide)⟩,
   ⟨_, _, _, rfl, by decide,
     (set_key_error_keeps_pool cfgX envOk hwX 0 none keyWEPlong vifX rfl).2 _ _ _ rfl
       (by decide)⟩⟩

/-- C6: a `DISABLE_KEY` request whose hardware key index is above
`WSM_KEY_MAX_IDX` returns `-EINVAL` and leaves the whole device unchanged (no
slot freed, no firmware command); for an index within range the slot of that
index is freed, every other slot is kept, and the remove-key command for that
index is the one command issued, its result being returned. -/
theorem disable_key_index_guard (cfg : Config) (env : Env) (hw : xradio_common) (i : Nat)
    (sta : Option (List Nat)) (key : ieee80211_key_conf) (priv : xradio_vif)
    (hpriv : xrwl_hwpriv_to_vifpriv hw i = some priv) :
    (key.hw_key_idx > cfg.WSM_KEY_MAX_IDX →
      xradio_set_key cfg env hw i set_key_cmd.DISABLE_KEY sta key = some (-EINVAL, key, hw)) ∧
    (key.hw_key_idx ≤ cfg.WSM_KEY_MAX_IDX →
      xradio_set_key cfg env hw i set_key_cmd.DISABLE_KEY sta key =
        some (env.wsm_ret hw.fw_log.length, key,
          { hw with
            keys := hw.keys.set key.hw_key_idx none
            fw_log := hw.fw_log ++ [WsmCmd.remove_key key.hw_key_idx priv.if_id] })) := by
  constructor
  · intro h
    simp [xradio_set_key, hpriv, h]
  · intro h
    have h2 : ¬ key.hw_key_idx > cfg.WSM_KEY_MAX_IDX := by omega
    simp [xradio_set_key, hpriv, h2, xradio_free_key, wsm_cmd]

/-- Witness of C6: index 11 is rejected, index 1 is freed and removed. -/
theorem disable_key_index_guard_witness :
    xradio_set_key cfgX envOk hwFullKeys 0 set_key_cmd.DISABLE_KEY none
        { keyCCMP with hw_key_idx := 11 } =
      some (-EINVAL, { keyCCMP with hw_key_idx := 11 }, hwFullKeys) ∧
    xradio_set_key cfgX envOk hwFullKeys 0 set_key_cmd.DISABLE_KEY none
        { keyCCMP with hw_key_idx := 1 } =
      some (envOk.wsm_ret hwFullKeys.fw_log.length, { keyCCMP with hw_key_idx := 1 },
        { hwFullKeys with
          keys := hwFullKeys.keys.set 1 none
          fw_log := hwFullKeys.fw_log ++ [WsmCmd.remove_key 1 vifX.if_id] }) :=
  ⟨(disable_key_index_guard cfgX envOk hwFullKeys 0 none { keyCCMP with hw_key_idx := 11 } vifX
      rfl).1 (by decide),
   (disable_key_index_guard cfgX envOk hwFullKeys 0 none { keyCCMP with hw_key_idx := 1 } vifX
      rfl).2 (by decide)⟩

/-! ## Unjoin: closed forms and idempotence -/

/-- The prologue keeps the join status. -/
theorem unjoin_prologue_vif_join_status (cfg : Config) (priv : xradio_vif) :
    (unjoin_prologue_vif cfg priv).join_status = priv.join_status := by
  unfold unjoin_prologue_vif; split_ifs <;> rfl

/-- The prologue keeps the slot. -/
theorem unjoin_prologue_vif_if_id (cfg : Config) (priv : xradio_vif) :
    (unjoin_prologue_vif cfg priv).if_id = priv.if_id := by
  unfold unjoin_prologue_vif; split_ifs <;> rfl

/-- Clearing the compatibility fields twice is clearing them once. -/
theorem unjoin_prologue_vif_twice (cfg : Config) (priv : xradio_vif) :
    unjoin_prologue_vif cfg (unjoin_prologue_vif cfg priv) = unjoin_prologue_vif cfg priv := by
  unfold unjoin_prologue_vif
  cases hc : cfg.AP_HT_COMPAT_FIX
  · simp
  · simp only [if_true]
    congr 1
    omega

/-- Closed form of `xradio_unjoin_work` on a passive interface, no scan. -/
theorem unjoin_passive (cfg : Config) (env : Env) (hw : xradio_common) (i : Nat)
    (priv : xradio_vif)
    (hpriv : xrwl_hwpriv_to_vifpriv hw i = some priv)
    (hpassive : priv.join_status = xradio_join_status.PASSIVE)
    (hscan : hw.scan_in_progress = false) :
    xradio_unjoin_work cfg env hw i =
      some (wsm_unlock_tx (set_vif
        { hw with connet_time := hw.connet_time.set priv.if_id 0, ba_timer := false } i
        (unjoin_prologue_vif cfg priv))) := by
  unfold xradio_unjoin_work
  simp [hpriv, hscan, hpassive, xradio_join_status.toNat, unjoin_prologue_vif_join_status]

/-- Closed form of `xradio_unjoin_work` on a monitoring or associated interface,
no scan: the final state does not depend on the firmware results. -/
theorem unjoin_active (cfg : Config) (env : Env) (hw : xradio_common) (i : Nat)
    (priv : xradio_vif)
    (hpriv : xrwl_hwpriv_to_vifpriv hw i = some priv)
    (hstatus : priv.join_status = xradio_join_status.MONITOR ∨
      priv.join_status = xradio_join_status.STA)
    (hscan : hw.scan_in_progress = false) :
    xradio_unjoin_work cfg env hw i =
      some (wsm_unlock_tx (unjoin_throttle cfg
        (set_vif (unjoin_teardown_hw cfg hw priv) i (unjoin_teardown_vif cfg priv)))) := by
  have hn : ¬ (priv.join_status.toNat ≠ 0 ∧
      priv.join_status.toNat > xradio_join_status.STA.toNat) := by
    rcases hstatus with h | h <;> simp [h, xradio_join_status.toNat]
  have hn0 : priv.join_status.toNat ≠ 0 := by
    rcases hstatus with h | h <;> simp [h, xradio_join_status.toNat]
  have hle : priv.join_status.toNat ≤ xradio_join_status.STA.toNat := by
    rcases hstatus with h | h <;> simp [h, xradio_join_status.toNat]
  unfold xradio_unjoin_work
  simp only [hpriv, hscan, unjoin_prologue_vif_join_status, hn, hn0, Bool.false_eq_true,
    if_false, ne_eq, not_false_eq_true, if_true]
  by_cases hr : (cfg.WSM_RCPI_RSSI_THRESHOLD_ENABLE ||| cfg.WSM_RCPI_RSSI_DONT_USE_UPPER |||
        cfg.WSM_RCPI_RSSI_DONT_USE_LOWER) &&& cfg.WSM_RCPI_RSSI_USE_RSSI = 0
  · simp [hr, hle, hscan, xradio_setup_mac_pvif, xradio_update_filtering, wsm_cmd, wsm_flush_tx,
      xradio_free_event_queue, cancel_delayed_work_sync, unjoin_teardown_vif,
      unjoin_teardown_hw, unjoin_throttle, set_vif, unjoin_prologue_vif_if_id]
  · simp [hr, hle, hscan, xradio_setup_mac_pvif, xradio_update_filtering, wsm_cmd, wsm_flush_tx,
      xradio_free_event_queue, cancel_delayed_work_sync, unjoin_teardown_vif,
      unjoin_teardown_hw, unjoin_throttle, set_vif, unjoin_prologue_vif_if_id]



/-- The throttle choice leaves the interface table alone. -/
theorem unjoin_throttle_vif_list (cfg : Config) (hw : xradio_common) :
    (unjoin_throttle cfg hw).vif_list = hw.vif_list := by
  unfold unjoin_throttle; split_ifs <;> rfl

/-- The throttle choice leaves the command log alone. -/
theorem unjoin_throttle_fw_log (cfg : Config) (hw : xradio_common) :
    (unjoin_throttle cfg hw).fw_log = hw.fw_log := by
  unfold unjoin_throttle; split_ifs <;> rfl

/-- An `int` value inside the 32-bit range is not changed by `wrap_int`. -/
theorem wrap_int_of_fits (x : Int) (h1 : -2 ^ 31 ≤ x) (h2 : x < 2 ^ 31) : wrap_int x = x := by
  unfold wrap_int
  have h : (x + 2 ^ 31) % 2 ^ 32 = x + 2 ^ 31 := Int.emod_eq_of_lt (by omega) (by omega)
  rw [h]
  omega

/-- A natural number below `2 ^ 31` is not changed by the conversion to
`unsigned long` of at least 32 bits. -/
theorem int_to_ulong_of_small (cfg : Config) (n : Nat) (hlong : 32 ≤ cfg.BITS_PER_LONG)
    (hn : n < 2 ^ 31) : int_to_ulong cfg (n : Int) = n := by
  unfold int_to_ulong
  have hpow : 2 ^ 31 ≤ 2 ^ cfg.BITS_PER_LONG := Nat.pow_le_pow_right (by decide) (by omega)
  have hlt : n < 2 ^ cfg.BITS_PER_LONG := by omega
  have h : ((n : Int) % 2 ^ cfg.BITS_PER_LONG) = (n : Int) := by
    have h2 : ((2 : Int) ^ cfg.BITS_PER_LONG) = ((2 ^ cfg.BITS_PER_LONG : Nat) : Int) := by
      push_cast
      rfl
    rw [h2]
    exact Int.emod_eq_of_lt (by omega) (by exact_mod_cast hlt)
  rw [h, Int.toNat_ofNat]

/-- The delay computed at `report` in `xradio_bss_loss_work`, in ticks: 0
when the beacon-loss count is 0; otherwise, when neither the difference of
the counts nor the product `timeout * HZ` leaves the 32-bit range,
`max (link - beacon) 0 * HZ / 10`. -/
theorem report_delay (cfg : Config) (link beacon : Int)
    (hlong : 32 ≤ cfg.BITS_PER_LONG)
    (hfit : beacon ≠ 0 → -2 ^ 31 ≤ link - beacon ∧ link - beacon < 2 ^ 31 ∧
      max (link - beacon) 0 * (cfg.HZ : Int) < 2 ^ 31) :
    int_to_ulong cfg (Int.tdiv (wrap_int
        ((if beacon ≠ 0 then
          (if wrap_int (link - beacon) ≤ 0 then 0 else wrap_int (link - beacon)) else 0) *
        (cfg.HZ : Int))) 10) =
      if beacon = 0 then 0 else (max (link - beacon) 0).toNat * cfg.HZ / 10 := by
  have hzero : int_to_ulong cfg (Int.tdiv (wrap_int (0 * (cfg.HZ : Int))) 10) = 0 := by
    have h0 := int_to_ulong_of_small cfg 0 hlong (by decide)
    simp only [zero_mul]
    have hw : wrap_int 0 = 0 := by decide
    rw [hw]
    simpa using h0
  by_cases hb : beacon = 0
  · simp only [hb, ne_eq, not_true_eq_false, if_false, if_true]
    exact hzero
  · obtain ⟨h1, h2, h3⟩ := hfit hb
    rw [wrap_int_of_fits _ h1 h2]
    by_cases hd : link - beacon ≤ 0
    · simp only [hb, hd, ne_eq, not_false_eq_true, if_true, if_false]
      rw [hzero]
      have hm : max (link - beacon) 0 = 0 := max_eq_right hd
      rw [hm]
      simp
    · have hpos : 0 ≤ link - beacon := by omega
      obtain ⟨n, hn⟩ := Int.eq_ofNat_of_zero_le hpos
      have hd2 : ¬ ((n : Int) ≤ 0) := by omega
      simp only [hb, ne_eq, not_false_eq_true, if_true, if_false, hn, hd2]
      have hmax : max (n : Int) 0 = (n : Int) := max_eq_left (by omega)
      rw [hn, hmax] at h3
      rw [hmax, Int.toNat_ofNat]
      have hcast : ((n : Int) * (cfg.HZ : Int)) = ((n * cfg.HZ : Nat) : Int) := by
        push_cast
        rfl
      rw [hcast] at h3 ⊢
      have hlt : n * cfg.HZ < 2 ^ 31 := by exact_mod_cast h3
      rw [wrap_int_of_fits _ (by omega) (by exact_mod_cast hlt)]
      have hdiv : Int.tdiv ((n * cfg.HZ : Nat) : Int) 10 = ((n * cfg.HZ / 10 : Nat) : Int) := by
        rw [Int.tdiv_eq_ediv (by omega) (by omega)]
        generalize n * cfg.HZ = m
        omega
      rw [hdiv]
      exact int_to_ulong_of_small cfg _ hlong (by omega)

/-- C11 as stated fails in two ways.  With the beacon-loss count 0: on a
non-P2P interface in status `CHECKING` with link-loss count 40 and
beacon-loss count 0, the fired `bss_loss_work` arms `connection_loss_work`
after 0 ticks, while `max (40 - 0) 0` tenths of a second are 400 ticks at
`HZ = 100`.  With counts whose product with `HZ` leaves the 32-bit `int`:
with link-loss count 30000000 and beacon-loss count 1 the product
`29999999 * 100` wraps to a negative value and the work is armed after
18446744073580054877 ticks (64-bit `unsigned long`), while
`max (30000000 - 1) 0` tenths of a second are 299999990 ticks. -/
theorem bss_loss_checking_delay_differs :
    (xrwl_hwpriv_to_vifpriv hwCheckingNoBeacon 0 = some vifCheckingNoBeacon ∧
     vifCheckingNoBeacon.vif_p2p = false ∧
     vifCheckingNoBeacon.bss_loss_status = xradio_bss_loss_status.CHECKING ∧
     vifCheckingNoBeacon.cqm_link_loss_count = 40 ∧
     vifCheckingNoBeacon.cqm_beacon_loss_count = 0 ∧
     (max (vifCheckingNoBeacon.cqm_link_loss_count -
         vifCheckingNoBeacon.cqm_beacon_loss_count) 0).toNat * cfgX.HZ / 10 = 400 ∧
     ∃ hw1 priv1, fire_bss_loss_work cfgX hwCheckingNoBeacon 0 = some hw1 ∧
       xrwl_hwpriv_to_vifpriv hw1 0 = some priv1 ∧
       priv1.connection_loss_work = some 0 ∧
       priv1.bss_loss_status = xradio_bss_loss_status.NONE) ∧
    (xrwl_hwpriv_to_vifpriv hwCheckingWide 0 = some vifCheckingWide ∧
     vifCheckingWide.vif_p2p = false ∧
     vifCheckingWide.bss_loss_status = xradio_bss_loss_status.CHECKING ∧
     vifCheckingWide.cqm_link_loss_count = 30000000 ∧
     vifCheckingWide.cqm_beacon_loss_count = 1 ∧
     cfgX.HZ = 100 ∧ cfgX.BITS_PER_LONG = 64 ∧
     wrap_int (29999999 * 100) = -1294967396 ∧
     (max (vifCheckingWide.cqm_link_loss_count -
         vifCheckingWide.cqm_beacon_loss_count) 0).toNat * cfgX.HZ / 10 = 299999990 ∧
     ∃ hw1 priv1, fire_bss_loss_work cfgX hwCheckingWide 0 = some hw1 ∧
       xrwl_hwpriv_to_vifpriv hw1 0 = some priv1 ∧
       priv1.connection_loss_work = some 18446744073580054877 ∧
       priv1.bss_loss_status = xradio_bss_loss_status.NONE) :=
  ⟨⟨rfl, rfl, rfl, rfl, rfl, by decide, _, _, rfl, rfl, rfl, rfl⟩,
   ⟨rfl, rfl, rfl, rfl, rfl, rfl, rfl, by decide, by decide, _, _, rfl, rfl, rfl, rfl⟩⟩

/-- C11 (amended): for a non-P2P interface whose queued `bss_loss_work` fires
with status `CHECKING`, `connection_loss_work` is armed after 0 ticks when
`cqm_beacon_loss_count` is 0, and after
`max (cqm_link_loss_count - cqm_beacon_loss_count) 0 * HZ / 10` ticks when it
is not 0 and neither the difference of the counts nor the product
`timeout * HZ` leaves the range of the 32-bit `int` in which the code
computes them (`unsigned long` having at least 32 bits); the status is left
`NONE`, `bss_loss_work` is idle and nothing else changes. -/
theorem bss_loss_checking_timeout (cfg : Config) (hw : xradio_common) (i d : Nat)
    (priv : xradio_vif)
    (hpriv : xrwl_hwpriv_to_vifpriv hw i = some priv)
    (hp2p : priv.vif_p2p = false)
    (hst : priv.bss_loss_status = xradio_bss_loss_status.CHECKING)
    (hq : priv.bss_loss_work = some d)
    (hlong : 32 ≤ cfg.BITS_PER_LONG)
    (hfit : priv.cqm_beacon_loss_count ≠ 0 →
      -2 ^ 31 ≤ priv.cqm_link_loss_count - priv.cqm_beacon_loss_count ∧
      priv.cqm_link_loss_count - priv.cqm_beacon_loss_count < 2 ^ 31 ∧
      max (priv.cqm_link_loss_count - priv.cqm_beacon_loss_count) 0 * (cfg.HZ : Int) <
        2 ^ 31) :
    fire_bss_loss_work cfg hw i = some (set_vif hw i
      { priv with
        bss_loss_work := none
        bss_loss_status := xradio_bss_loss_status.NONE
        connection_loss_work := some
          (if priv.cqm_beacon_loss_count = 0 then 0
           else (max (priv.cqm_link_loss_count - priv.cqm_beacon_loss_count) 0).toNat *
             cfg.HZ / 10) }) := by
  have hl := lookup_set_vif hw i { priv with bss_loss_work := none } priv hpriv
  have hd := report_delay cfg priv.cqm_link_loss_count priv.cqm_beacon_loss_count hlong hfit
  simp only [fire_bss_loss_work, hpriv, hq, xradio_bss_loss_work, hl]
  simp only [hp2p, hst, set_vif_set_vif, cancel_delayed_work_sync, queue_delayed_work,
    Bool.false_eq_true, if_false, reduceCtorEq]
  rw [hd]

/-- Witness of the amended C11: counts 40 and 20 at `HZ = 100` give 200
ticks. -/
theorem bss_loss_checking_timeout_witness :
    fire_bss_loss_work cfgX { hwX with vif_list := [some vifChecking, none, none] } 0 =
      some (set_vif { hwX with vif_list := [some vifChecking, none, none] } 0
        { vifChecking with
          bss_loss_work := none
          bss_loss_status := xradio_bss_loss_status.NONE
          connection_loss_work := some 200 }) :=
  bss_loss_checking_timeout cfgX { hwX with vif_list := [some vifChecking, none, none] } 0 10
    vifChecking rfl rfl rfl rfl (by decide) (fun _ => by decide)

/-- C12: for a non-P2P interface whose queued `bss_loss_work` fires, with
status `CONFIRMING` the status becomes `CONFIRMED`, `bss_loss_work` is queued
again after `1 * HZ` ticks and `connection_loss_work` is left as it was (not
armed if it was idle); with status `NONE` the status stays `NONE`,
`connection_loss_work` is cancelled and no work is queued. -/
theorem bss_loss_confirming_or_none (cfg : Config) (hw : xradio_common) (i d : Nat)
    (priv : xradio_vif)
    (hpriv : xrwl_hwpriv_to_vifpriv hw i = some priv)
    (hp2p : priv.vif_p2p = false)
    (hq : priv.bss_loss_work = some d) :
    (priv.bss_loss_status = xradio_bss_loss_status.CONFIRMING →
      ∃ hw1 priv1, fire_bss_loss_work cfg hw i = some hw1 ∧
        xrwl_hwpriv_to_vifpriv hw1 i = some priv1 ∧
        priv1 = { priv with
          bss_loss_status := xradio_bss_loss_status.CONFIRMED
          bss_loss_work := some (1 * cfg.HZ) } ∧
        priv1.bss_loss_status = xradio_bss_loss_status.CONFIRMED ∧
        priv1.bss_loss_work = some (1 * cfg.HZ) ∧
        priv1.connection_loss_work = priv.connection_loss_work) ∧
    (priv.bss_loss_status = xradio_bss_loss_status.NONE →
      ∃ hw1 priv1, fire_bss_loss_work cfg hw i = some hw1 ∧
        xrwl_hwpriv_to_vifpriv hw1 i = some priv1 ∧
        priv1 = { priv with bss_loss_work := none, connection_loss_work := none } ∧
        priv1.bss_loss_status = xradio_bss_loss_status.NONE ∧
        priv1.bss_loss_work = none ∧
        priv1.connection_loss_work = none) := by
  have hl := lookup_set_vif hw i { priv with bss_loss_work := none } priv hpriv
  constructor
  · intro hst
    refine ⟨_, _, ?_, lookup_set_vif hw i _ priv hpriv, rfl, rfl, rfl, rfl⟩
    simp only [fire_bss_loss_work, hpriv, hq, xradio_bss_loss_work, hl]
    simp [hp2p, hst, set_vif_set_vif, queue_delayed_work]
  · intro hst
    refine ⟨_, _, ?_, lookup_set_vif hw i _ priv hpriv, rfl, hst, rfl, rfl⟩
    simp only [fire_bss_loss_work, hpriv, hq, xradio_bss_loss_work, hl]
    simp [hp2p, hst, set_vif_set_vif, cancel_delayed_work_sync]

/-- Witness of C12: the example interface in status `CONFIRMING`, and the
same interface after the link was regained while the work stayed queued. -/
theorem bss_loss_confirming_or_none_witness :
    (∃ hw1 priv1,
      fire_bss_loss_work cfgX { hwX with vif_list := [some vifConfirming, none, none] } 0 =
        some hw1 ∧
      xrwl_hwpriv_to_vifpriv hw1 0 = some priv1 ∧
      priv1 = { vifConfirming with
        bss_loss_status := xradio_bss_loss_status.CONFIRMED
        bss_loss_work := some (1 * cfgX.HZ) } ∧
      priv1.bss_loss_status = xradio_bss_loss_status.CONFIRMED ∧
      priv1.bss_loss_work = some (1 * cfgX.HZ) ∧
      priv1.connection_loss_work = vifConfirming.connection_loss_work) ∧
    (∃ hw1 priv1,
      fire_bss_loss_work cfgX
        { hwX with vif_list :=
            [some { vifX with bss_loss_work := some 10, connection_loss_work := some 200 },
             none, none] } 0 = some hw1 ∧
      xrwl_hwpriv_to_vifpriv hw1 0 = some priv1 ∧
      priv1 = { vifX with bss_loss_work := none, connection_loss_work := none } ∧
      priv1.bss_loss_status = xradio_bss_loss_status.NONE ∧
      priv1.bss_loss_work = none ∧
      priv1.connection_loss_work = none) :=
  ⟨(bss_loss_confirming_or_none cfgX { hwX with vif_list := [some vifConfirming, none, none] }
      0 100 vifConfirming rfl rfl rfl).1 rfl,
   (bss_loss_confirming_or_none cfgX
      { hwX with vif_list :=
          [some { vifX with bss_loss_work := some 10, connection_loss_work := some 200 },
           none, none] }
      0 10 { vifX with bss_loss_work := some 10, connection_loss_work := some 200 }
      rfl rfl rfl).2 rfl⟩

/-- C13: for an interface whose bss-loss status is `NONE`, handling a
`BSS_LOST` event sets the status to `CHECKING` and cancels `bss_loss_work` and
`connection_loss_work` (whatever was queued, `connection_loss_work` is idle
afterwards and `bss_loss_work` carries the new delay only).  When the scan
gate is free (`scan.lock` can be taken) the delayed-link-loss flag is cleared
and `bss_loss_work` is queued after `HZ / 10` ticks; when a scan holds the gate
the flag is set and `bss_loss_work` is queued after `10 * HZ` ticks, ten times
the one-second delay `1 * HZ` used by the work itself.  The gate is left as it
was. -/
theorem bss_lost_opens_cycle (cfg : Config) (env : Env) (hw : xradio_common)
    (i data : Nat) (priv : xradio_vif)
    (hpriv : xrwl_hwpriv_to_vifpriv hw i = some priv)
    (hnone : priv.bss_loss_status = xradio_bss_loss_status.NONE) :
    ∃ hw1 priv1,
      xradio_event_handler cfg env { hw with event_queue := [bss_lost_event i data] } =
        some hw1 ∧
      xrwl_hwpriv_to_vifpriv hw1 i = some priv1 ∧
      hw1.scan_lock = hw.scan_lock ∧
      priv1.bss_loss_status = xradio_bss_loss_status.CHECKING ∧
      priv1.connection_loss_work = none ∧
      (hw.scan_lock ≠ 0 →
        priv1.delayed_link_loss = 0 ∧ priv1.bss_loss_work = some (cfg.HZ / 10)) ∧
      (hw.scan_lock = 0 →
        priv1.delayed_link_loss = 1 ∧ priv1.bss_loss_work = some (10 * cfg.HZ) ∧
        10 * cfg.HZ = 10 * (1 * cfg.HZ)) := by
  have hpriv0 : xrwl_hwpriv_to_vifpriv { hw with event_queue := [] } i = some priv := hpriv
  have h1 := fun tag => handle_bss_lost_none cfg env tag { hw with event_queue := [] } i data
    priv hpriv0 hnone
  have hl := lookup_set_vif { hw with event_queue := [] } i
    { priv with
      bss_loss_status := xradio_bss_loss_status.CHECKING
      connection_loss_work := none
      delayed_link_loss := if hw.scan_lock = 0 then 1 else 0
      bss_loss_work := some (if hw.scan_lock = 0 then 10 * cfg.HZ else cfg.HZ / 10) }
    priv hpriv0
  refine ⟨_, _, ?_, hl, rfl, rfl, rfl, ?_, ?_⟩
  · simp only [xradio_event_handler, handle_events]
    rw [h1]
  · intro hfree
    simp [hfree]
  · intro hheld
    simp [hheld]

/-- Witness of C13: the example device with the scan gate free, and the same
device with the gate held. -/
theorem bss_lost_opens_cycle_witness :
    (∃ hw1 priv1,
      xradio_event_handler cfgX envOk { hwX with event_queue := [bss_lost_event 0 0] } =
        some hw1 ∧
      xrwl_hwpriv_to_vifpriv hw1 0 = some priv1 ∧
      priv1.bss_loss_status = xradio_bss_loss_status.CHECKING ∧
      priv1.delayed_link_loss = 0 ∧ priv1.bss_loss_work = some 10) ∧
    (∃ hw1 priv1,
      xradio_event_handler cfgX envOk
        { hwX with scan_lock := 0, event_queue := [bss_lost_event 0 0] } = some hw1 ∧
      xrwl_hwpriv_to_vifpriv hw1 0 = some priv1 ∧
      priv1.bss_loss_status = xradio_bss_loss_status.CHECKING ∧
      priv1.delayed_link_loss = 1 ∧ priv1.bss_loss_work = some 1000) := by
  obtain ⟨hw1, priv1, a, b, _, c, _, d, _⟩ :=
    bss_lost_opens_cycle cfgX envOk hwX 0 0 vifX rfl rfl
  obtain ⟨hw2, priv2, a2, b2, _, c2, _, _, e2⟩ :=
    bss_lost_opens_cycle cfgX envOk { hwX with scan_lock := 0 } 0 0 vifX rfl rfl
  exact ⟨⟨hw1, priv1, a, b, c, (d (by decide)).1, (d (by decide)).2⟩,
    ⟨hw2, priv2, a2, b2, c2, (e2 rfl).1, (e2 rfl).2.1⟩⟩

/-! ## Power-save commit -/

/-- C14 as stated fails under the debug override: built with
`CONFIG_XRADIO_DEBUGFS` and with `ps_disable` set, a request for power save
(mode 1) on an interface without UAPSD whose last committed mode is 0 is
replaced by `WSM_PSM_ACTIVE` (0), found equal to the last committed mode, and
no command is issued, although the requested mode differs from the last
committed one. -/
theorem set_pm_debug_override_suppresses_commit :
    vifX.uapsdFlags = 0 ∧
    pm_requested cfgDebug vifX pmPs = pmPs ∧
    pmPs ≠ vifX.firmware_ps_mode ∧
    xradio_set_pm cfgDebug envOk hwPsDisable vifX pmPs = (0, vifX, hwPsDisable) ∧
    hwPsDisable.fw_log = [] :=
  ⟨rfl, rfl, by decide, rfl, rfl⟩

/-- C14 (amended): when no debug override applies (built without
`CONFIG_XRADIO_DEBUGFS`, or `ps_disable` and `ps_idleperiod` both 0),
`xradio_set_pm` works with the request whose fast-power-save flag is cleared
when the UAPSD flags are not zero (`pm_requested`).  If that mode equals the
last committed mode it returns 0 and changes nothing; otherwise it appends
exactly one set-power-mode command carrying that mode, records it as the last
committed mode and returns the result of the command.  After any call, the
same request made again returns 0 and changes nothing. -/
theorem set_pm_commits_changes (cfg : Config) (env : Env) (hw : xradio_common)
    (priv : xradio_vif) (arg : wsm_set_pm)
    (hdebug : cfg.CONFIG_XRADIO_DEBUGFS = false ∨ (hw.ps_disable = 0 ∧ hw.ps_idleperiod = 0)) :
    (pm_requested cfg priv arg = priv.firmware_ps_mode →
      xradio_set_pm cfg env hw priv arg = (0, priv, hw)) ∧
    (pm_requested cfg priv arg ≠ priv.firmware_ps_mode →
      xradio_set_pm cfg env hw priv arg =
        (env.wsm_ret hw.fw_log.length,
         { priv with firmware_ps_mode := pm_requested cfg priv arg },
         { hw with fw_log := hw.fw_log ++ [WsmCmd.set_pm (pm_requested cfg priv arg)
            priv.if_id] })) ∧
    (∀ env2 : Env,
      xradio_set_pm cfg env2 (xradio_set_pm cfg env hw priv arg).2.2
          (xradio_set_pm cfg env hw priv arg).2.1 arg =
        (0, (xradio_set_pm cfg env hw priv arg).2.1,
          (xradio_set_pm cfg env hw priv arg).2.2)) := by
  have hpm : ∀ (h : xradio_common) (p : xradio_vif) (e : Env),
      h.ps_disable = hw.ps_disable → h.ps_idleperiod = hw.ps_idleperiod →
      xradio_set_pm cfg e h p arg =
        if pm_requested cfg p arg ≠ p.firmware_ps_mode then
          (e.wsm_ret h.fw_log.length,
           { p with firmware_ps_mode := pm_requested cfg p arg },
           { h with fw_log := h.fw_log ++ [WsmCmd.set_pm (pm_requested cfg p arg) p.if_id] })
        else (0, p, h) := by
    intro h p e h1 h2
    rcases hdebug with hd | ⟨hd1, hd2⟩
    · simp only [xradio_set_pm, pm_requested, hd, wsm_cmd, Bool.false_and]
      by_cases hu : p.uapsdFlags = 0 <;> simp [hu]
    · simp only [xradio_set_pm, pm_requested, h1, h2, hd1, hd2, wsm_cmd]
      by_cases hu : p.uapsdFlags = 0 <;> simp [hu]
  refine ⟨?_, ?_, ?_⟩
  · intro heq
    rw [hpm hw priv env rfl rfl]
    simp [heq]
  · intro hne
    rw [hpm hw priv env rfl rfl]
    simp [hne]
  · intro env2
    by_cases heq : pm_requested cfg priv arg = priv.firmware_ps_mode
    · have h1 : xradio_set_pm cfg env hw priv arg = (0, priv, hw) := by
        rw [hpm hw priv env rfl rfl]
        simp [heq]
      rw [h1]
      simp only []
      rw [hpm hw priv env2 rfl rfl]
      simp [heq]
    · have h1 := hpm hw priv env rfl rfl
      simp only [heq, ne_eq, not_false_eq_true, if_true] at h1
      rw [h1]
      simp only []
      rw [hpm { hw with fw_log := hw.fw_log ++ [WsmCmd.set_pm (pm_requested cfg priv arg)
          priv.if_id] } { priv with firmware_ps_mode := pm_requested cfg priv arg } env2 rfl rfl]
      have hsame : pm_requested cfg
          { priv with firmware_ps_mode := pm_requested cfg priv arg } arg =
          pm_requested cfg priv arg := rfl
      simp [hsame]

/-- Witness of the amended C14 on the example device: a fast power-save
request on an interface with UAPSD is committed once with the flag cleared
(mode 1), also when the command fails, and the repeated request changes
nothing. -/
theorem set_pm_commits_changes_witness :
    xradio_set_pm cfgX envFail hwX { vifX with uapsdFlags := 8 } pmFast =
      (-1, { vifX with uapsdFlags := 8, firmware_ps_mode := { pmFast with pmMode := 1 } },
        { hwX with fw_log := [WsmCmd.set_pm { pmFast with pmMode := 1 } 0] }) ∧
    xradio_set_pm cfgX envOk
        (xradio_set_pm cfgX envFail hwX { vifX with uapsdFlags := 8 } pmFast).2.2
        (xradio_set_pm cfgX envFail hwX { vifX with uapsdFlags := 8 } pmFast).2.1 pmFast =
      (0, (xradio_set_pm cfgX envFail hwX { vifX with uapsdFlags := 8 } pmFast).2.1,
        (xradio_set_pm cfgX envFail hwX { vifX with uapsdFlags := 8 } pmFast).2.2) :=
  ⟨(set_pm_commits_changes cfgX envFail hwX { vifX with uapsdFlags := 8 } pmFast
      (Or.inl rfl)).2.1 (by decide),
   (set_pm_commits_changes cfgX envFail hwX { vifX with uapsdFlags := 8 } pmFast
      (Or.inl rfl)).2.2 envOk⟩

/-! ## Unjoin: deferral under scan, teardown -/

/-- Closed form of `xradio_unjoin_work` while a scan is in progress. -/
theorem unjoin_deferred (cfg : Config) (env : Env) (hw : xradio_common) (i : Nat)
    (priv : xradio_vif)
    (hpriv : xrwl_hwpriv_to_vifpriv hw i = some priv)
    (hscan : hw.scan_in_progress = true) :
    xradio_unjoin_work cfg env hw i =
      some ((if priv.delayed_unjoin ≠ 0 then wsm_unlock_tx else id) (set_vif
        { hw with connet_time := hw.connet_time.set priv.if_id 0, ba_timer := false } i
        { unjoin_prologue_vif cfg priv with delayed_unjoin := 1 })) := by
  have hd : (unjoin_prologue_vif cfg priv).delayed_unjoin = priv.delayed_unjoin := by
    unfold unjoin_prologue_vif; split_ifs <;> rfl
  unfold xradio_unjoin_work
  by_cases h0 : priv.delayed_unjoin = 0 <;> simp [hpriv, hscan, hd, h0]

/-- A deferred state is reproduced by lock-then-unjoin while the scan lasts. -/
theorem unjoin_deferred_fixpoint (cfg : Config) (env : Env) (hw : xradio_common) (i : Nat)
    (priv : xradio_vif)
    (hpriv : xrwl_hwpriv_to_vifpriv hw i = some priv)
    (hscan : hw.scan_in_progress = true)
    (hflag : priv.delayed_unjoin = 1)
    (htimer : hw.ba_timer = false)
    (htime : hw.connet_time.set priv.if_id 0 = hw.connet_time)
    (hcompat : unjoin_prologue_vif cfg priv = priv) :
    xradio_unjoin_work cfg env (wsm_lock_tx hw) i = some hw := by
  have hpriv1 : xrwl_hwpriv_to_vifpriv (wsm_lock_tx hw) i = some priv := hpriv
  rw [unjoin_deferred cfg env (wsm_lock_tx hw) i priv hpriv1 hscan, hcompat]
  have hp : ({ priv with delayed_unjoin := 1 } : xradio_vif) = priv := by
    cases priv
    simp only [] at hflag
    simp [hflag]
  rw [hp]
  have hv := set_vif_same hw i priv hpriv
  have hv2 : hw.vif_list.set i (some priv) = hw.vif_list := by
    have := congrArg xradio_common.vif_list hv
    simpa [set_vif] using this
  cases hw
  simp only [wsm_lock_tx, wsm_unlock_tx, set_vif] at *
  simp [htimer, htime, hv2, hflag, wsm_unlock_tx]

/-- Any number of further requests reproduces a state fixed by one. -/
theorem unjoin_requests_fixed (cfg : Config) (env : Env) (i : Nat) (hw : xradio_common)
    (h : xradio_unjoin_work cfg env (wsm_lock_tx hw) i = some hw) (n : Nat) :
    unjoin_requests cfg env i n hw = some hw := by
  induction n with
  | zero => rfl
  | succ n ih => simp [unjoin_requests, h, ih]


/-- The prologue of `xradio_unjoin_work` writes the compatibility fields
only. -/
theorem unjoin_prologue_vif_keeps (cfg : Config) (priv : xradio_vif) :
    (unjoin_prologue_vif cfg priv).join_bssid = priv.join_bssid ∧
    (unjoin_prologue_vif cfg priv).join_dtim_period = priv.join_dtim_period ∧
    (unjoin_prologue_vif cfg priv).cipherType = priv.cipherType ∧
    (unjoin_prologue_vif cfg priv).htcap = priv.htcap ∧
    (unjoin_prologue_vif cfg priv).disable_beacon_filter = priv.disable_beacon_filter ∧
    (unjoin_prologue_vif cfg priv).setbssparams_done = priv.setbssparams_done ∧
    (unjoin_prologue_vif cfg priv).association_mode = priv.association_mode ∧
    (unjoin_prologue_vif cfg priv).bss_params = priv.bss_params ∧
    (unjoin_prologue_vif cfg priv).firmware_ps_mode = priv.firmware_ps_mode := by
  unfold unjoin_prologue_vif
  split_ifs <;> exact ⟨rfl, rfl, rfl, rfl, rfl, rfl, rfl, rfl, rfl⟩

/-- C15: for every interface and join status, `xradio_unjoin_work` run while a
scan is in progress issues no firmware command, leaves the join status and the
association record (join BSSID, DTIM period, cipher type, high-throughput
flag, beacon-filter override, bss-params-done flag, association mode, BSS
parameters, last committed power-save mode) unchanged and leaves the
delayed-unjoin flag set to 1; the interface context differs from the one
before only in that flag and in the `AP_HT_COMPAT_FIX` fields cleared by the
prologue.  Any number of further unjoin requests made while the scan lasts
reproduces that state exactly: one flag, one deferred unjoin. -/
theorem unjoin_deferred_under_scan (cfg : Config) (env env2 : Env) (hw : xradio_common)
    (i : Nat) (priv : xradio_vif)
    (hpriv : xrwl_hwpriv_to_vifpriv hw i = some priv)
    (hscan : hw.scan_in_progress = true) :
    ∃ hw1 priv1,
      xradio_unjoin_work cfg env hw i = some hw1 ∧
      xrwl_hwpriv_to_vifpriv hw1 i = some priv1 ∧
      hw1.fw_log = hw.fw_log ∧
      priv1 = { unjoin_prologue_vif cfg priv with delayed_unjoin := 1 } ∧
      priv1.delayed_unjoin = 1 ∧
      priv1.join_status = priv.join_status ∧
      priv1.join_bssid = priv.join_bssid ∧
      priv1.join_dtim_period = priv.join_dtim_period ∧
      priv1.cipherType = priv.cipherType ∧
      priv1.htcap = priv.htcap ∧
      priv1.disable_beacon_filter = priv.disable_beacon_filter ∧
      priv1.setbssparams_done = priv.setbssparams_done ∧
      priv1.association_mode = priv.association_mode ∧
      priv1.bss_params = priv.bss_params ∧
      priv1.firmware_ps_mode = priv.firmware_ps_mode ∧
      ∀ n : Nat, unjoin_requests cfg env2 i n hw1 = some hw1 := by
  have hlt := lookup_lt hw i priv hpriv
  have hk := unjoin_prologue_vif_keeps cfg priv
  have h1 := unjoin_deferred cfg env hw i priv hpriv hscan
  have hl : xrwl_hwpriv_to_vifpriv
      ((if priv.delayed_unjoin ≠ 0 then wsm_unlock_tx else id) (set_vif
        { hw with connet_time := hw.connet_time.set priv.if_id 0, ba_timer := false } i
        { unjoin_prologue_vif cfg priv with delayed_unjoin := 1 })) i =
      some { unjoin_prologue_vif cfg priv with delayed_unjoin := 1 } := by
    unfold xrwl_hwpriv_to_vifpriv
    split_ifs <;> simp [wsm_unlock_tx, set_vif, hlt]
  refine ⟨_, _, h1, hl, ?_, rfl, rfl, unjoin_prologue_vif_join_status cfg priv, hk.1, hk.2.1,
    hk.2.2.1, hk.2.2.2.1, hk.2.2.2.2.1, hk.2.2.2.2.2.1, hk.2.2.2.2.2.2.1,
    hk.2.2.2.2.2.2.2.1, hk.2.2.2.2.2.2.2.2, ?_⟩
  · split_ifs <;> rfl
  · intro n
    apply unjoin_requests_fixed
    apply unjoin_deferred_fixpoint cfg env2 _ i _ hl
    · split_ifs <;> exact hscan
    · rfl
    · split_ifs <;> rfl
    · split_ifs <;>
        simp [wsm_unlock_tx, set_vif, List.set_set, unjoin_prologue_vif_if_id]
    · have h2 := unjoin_prologue_vif_twice cfg priv
      unfold unjoin_prologue_vif at h2 ⊢
      split_ifs at h2 ⊢
      · simp only [] at h2 ⊢
        congr 1
        omega
      · rfl

/-- Witness of C15: the associated example interface while a scan is in
progress; three further requests change nothing. -/
theorem unjoin_deferred_under_scan_witness :
    ∃ hw1 priv1,
      xradio_unjoin_work cfgX envOk hwStaScan 0 = some hw1 ∧
      xrwl_hwpriv_to_vifpriv hw1 0 = some priv1 ∧
      hw1.fw_log = [] ∧
      priv1.delayed_unjoin = 1 ∧
      priv1.join_status = xradio_join_status.STA ∧
      priv1.join_bssid = [1, 2, 3, 4, 5, 6] ∧
      unjoin_requests cfgX envFail 0 3 hw1 = some hw1 := by
  obtain ⟨hw1, priv1, a, b, c, _, d, e, f, _, _, _, _, _, _, _, _, g⟩ :=
    unjoin_deferred_under_scan cfgX envOk envFail hwStaScan 0 vifSta rfl rfl
  exact ⟨hw1, priv1, a, b, c, d, e, f, g 3⟩

/-- C16: for an interface in `MONITOR` or `STA` status with no scan in
progress, `xradio_unjoin_work` ends in one and the same device state whatever
results the firmware commands return, and in that state the join status is
`PASSIVE`, the join BSSID is all zero, the cipher type and the DTIM period are
0, the high-throughput flag, the beacon-filter override and the
bss-params-done flag are false and the last committed power-save mode is
zeroed. -/
theorem unjoin_teardown_ignores_results (cfg : Config) (hw : xradio_common) (i : Nat)
    (priv : xradio_vif)
    (hpriv : xrwl_hwpriv_to_vifpriv hw i = some priv)
    (hstatus : priv.join_status = xradio_join_status.MONITOR ∨
      priv.join_status = xradio_join_status.STA)
    (hscan : hw.scan_in_progress = false) :
    ∃ hw1 priv1,
      (∀ env : Env, xradio_unjoin_work cfg env hw i = some hw1) ∧
      xrwl_hwpriv_to_vifpriv hw1 i = some priv1 ∧
      priv1.join_status = xradio_join_status.PASSIVE ∧
      priv1.join_bssid = List.replicate priv.join_bssid.length 0 ∧
      priv1.cipherType = 0 ∧
      priv1.join_dtim_period = 0 ∧
      priv1.htcap = false ∧
      priv1.disable_beacon_filter = false ∧
      priv1.setbssparams_done = false ∧
      priv1.firmware_ps_mode = pm0 := by
  have hlt := lookup_lt hw i priv hpriv
  have hk := unjoin_prologue_vif_keeps cfg priv
  refine ⟨_, unjoin_teardown_vif cfg priv,
    fun env => unjoin_active cfg env hw i priv hpriv hstatus hscan, ?_, rfl, ?_, rfl, rfl, rfl,
    rfl, rfl, rfl⟩
  · unfold xrwl_hwpriv_to_vifpriv
    simp [wsm_unlock_tx, unjoin_throttle_vif_list, set_vif, unjoin_teardown_hw, hlt]
  · simp [unjoin_teardown_vif, memset0, hk.1]

/-- Witness of C16: the associated example interface, torn down once with
every command succeeding and once with every command failing. -/
theorem unjoin_teardown_ignores_results_witness :
    ∃ hw1 priv1,
      xradio_unjoin_work cfgX envOk hwSta 0 = some hw1 ∧
      xradio_unjoin_work cfgX envFail hwSta 0 = some hw1 ∧
      xrwl_hwpriv_to_vifpriv hw1 0 = some priv1 ∧
      priv1.join_status = xradio_join_status.PASSIVE ∧
      priv1.join_bssid = [0, 0, 0, 0, 0, 0] ∧
      priv1.cipherType = 0 ∧
      priv1.join_dtim_period = 0 ∧
      priv1.htcap = false ∧
      priv1.disable_beacon_filter = false ∧
      priv1.setbssparams_done = false ∧
      priv1.firmware_ps_mode = pm0 := by
  obtain ⟨hw1, priv1, a, b, c, d, e, f, g, h, k, l⟩ :=
    unjoin_teardown_ignores_results cfgX hwSta 0 vifSta rfl (Or.inr rfl) rfl
  exact ⟨hw1, priv1, a envOk, a envFail, b, c, d, e, f, g, h, k, l⟩

/-! ## Listening -/

/-- C18 as stated fails when no remain-on-channel period is attributed
(`roc_if_id` is -1): the slot-2 interface in status `MONITOR` is set to
`PASSIVE`, but no firmware reset is issued. -/
theorem disable_listening_without_roc_no_reset :
    ({ vifRoc with join_status := xradio_join_status.MONITOR } : xradio_vif).if_id = 2 ∧
    hwX.roc_if_id = -1 ∧
    hwX.fw_log = [] ∧
    xradio_disable_listening cfgX envOk hwX
        { vifRoc with join_status := xradio_join_status.MONITOR } = (0, vifRoc, hwX) ∧
    (xradio_disable_listening cfgX envOk hwX
        { vifRoc with join_status := xradio_join_status.MONITOR }).2.2.fw_log = [] :=
  ⟨rfl, rfl, rfl, rfl, rfl⟩

/-- C18 (amended): for the interface of slot 2 and every starting join status,
`xradio_disable_listening` sets the status to `PASSIVE`; it issues one firmware
reset (on the generic interface id) and returns its result when `roc_if_id` is
not -1, and issues no command and returns 0 when `roc_if_id` is -1.  Disabling
twice gives the interface state that disabling once gives.  For every other
interface it returns 0, changes nothing and issues no command. -/
theorem disable_listening_slot2 (cfg : Config) (env env2 : Env) (hw hw2 : xradio_common)
    (priv : xradio_vif) :
    (priv.if_id = 2 →
      (xradio_disable_listening cfg env hw priv).2.1 =
        { priv with join_status := xradio_join_status.PASSIVE } ∧
      (hw.roc_if_id ≠ -1 →
        (xradio_disable_listening cfg env hw priv).1 = env.wsm_ret hw.fw_log.length ∧
        (xradio_disable_listening cfg env hw priv).2.2 =
          { hw with fw_log := hw.fw_log ++ [WsmCmd.reset true 0 cfg.XRWL_GENERIC_IF_ID] }) ∧
      (hw.roc_if_id = -1 →
        (xradio_disable_listening cfg env hw priv).1 = 0 ∧
        (xradio_disable_listening cfg env hw priv).2.2 = hw) ∧
      (xradio_disable_listening cfg env2 hw2
          (xradio_disable_listening cfg env hw priv).2.1).2.1 =
        (xradio_disable_listening cfg env hw priv).2.1) ∧
    (priv.if_id ≠ 2 → xradio_disable_listening cfg env hw priv = (0, priv, hw)) := by
  constructor
  · intro h2
    refine ⟨?_, ?_, ?_, ?_⟩
    · by_cases hr : hw.roc_if_id = -1 <;> simp [xradio_disable_listening, h2, hr, wsm_cmd]
    · intro hr
      simp [xradio_disable_listening, h2, hr, wsm_cmd]
    · intro hr
      simp [xradio_disable_listening, h2, hr]
    · by_cases hr : hw.roc_if_id = -1 <;> by_cases hr2 : hw2.roc_if_id = -1 <;>
        simp [xradio_disable_listening, h2, hr, hr2, wsm_cmd]
  · intro h2
    simp [xradio_disable_listening, h2]

/-- Witness of the amended C18: the monitoring slot-2 interface of the example
device with a remain-on-channel period, and the slot-0 interface. -/
theorem disable_listening_slot2_witness :
    (xradio_disable_listening cfgX envOk hwRoc
        { vifRoc with join_status := xradio_join_status.MONITOR }).2.1 = vifRoc ∧
    (xradio_disable_listening cfgX envOk hwRoc
        { vifRoc with join_status := xradio_join_status.MONITOR }).2.2 =
      { hwRoc with fw_log := [WsmCmd.reset true 0 2] } ∧
    xradio_disable_listening cfgX envOk hwRoc vifSta = (0, vifSta, hwRoc) :=
  ⟨((disable_listening_slot2 cfgX envOk envOk hwRoc hwRoc
      { vifRoc with join_status := xradio_join_status.MONITOR }).1 rfl).1,
   (((disable_listening_slot2 cfgX envOk envOk hwRoc hwRoc
      { vifRoc with join_status := xradio_join_status.MONITOR }).1 rfl).2.1 (by decide)).2,
   (disable_listening_slot2 cfgX envOk envOk hwRoc hwRoc vifSta).2 (by decide)⟩

/-- C19 as stated fails: for the passive slot-2 interface, when the firmware
start command fails, `xradio_enable_listening` returns the failure and the
join status is `MONITOR`, not the `PASSIVE` it was before the call. -/
theorem enable_listening_failure_leaves_monitor :
    vifRoc.if_id = 2 ∧
    vifRoc.join_status = xradio_join_status.PASSIVE ∧
    (xradio_enable_listening cfgX envFail hwRoc vifRoc chanX).1 = -1 ∧
    (xradio_enable_listening cfgX envFail hwRoc vifRoc chanX).2.1.join_status =
      xradio_join_status.MONITOR ∧
    (xradio_enable_listening cfgX envFail hwRoc vifRoc chanX).2.1.join_status ≠
      xradio_join_status.PASSIVE ∧
    (xradio_enable_listening cfgX envFail hwRoc vifRoc chanX).2.2.fw_log =
      [WsmCmd.start
        { mode := 34, band_5g := false, channelNumber := 6, beaconInterval := 100,
          DTIMPeriod := 1, probeDelay := 0, basicRateSet := 15 } 2] :=
  ⟨rfl, rfl, rfl, rfl, by decide, rfl⟩

/-- C19 (amended): for the slot-2 interface in status `PASSIVE`,
`xradio_enable_listening` sets the status to `MONITOR`, issues one firmware
start command (on the generic interface id, for the given channel, beacon
interval 100, DTIM period 1) and returns the result of that command: the
status is `MONITOR` whether the command succeeds or fails.  For a slot-2
interface already in `MONITOR` it returns 0 without a command, and for every
interface other than slot 2 it returns 0 and changes nothing. -/
theorem enable_listening_slot2 (cfg : Config) (env : Env) (hw : xradio_common)
    (priv : xradio_vif) (chan : ieee80211_channel) :
    (priv.if_id = 2 → priv.join_status = xradio_join_status.PASSIVE →
      (xradio_enable_listening cfg env hw priv chan).1 = env.wsm_ret hw.fw_log.length ∧
      (xradio_enable_listening cfg env hw priv chan).2.1 =
        { priv with join_status := xradio_join_status.MONITOR } ∧
      ∃ start : wsm_start,
        (xradio_enable_listening cfg env hw priv chan).2.2 =
          { hw with fw_log := hw.fw_log ++ [WsmCmd.start start cfg.XRWL_GENERIC_IF_ID] } ∧
        start.channelNumber = chan.hw_value ∧
        start.beaconInterval = 100 ∧
        start.DTIMPeriod = 1) ∧
    (priv.if_id = 2 → priv.join_status = xradio_join_status.MONITOR →
      xradio_enable_listening cfg env hw priv chan = (0, priv, hw)) ∧
    (priv.if_id ≠ 2 → xradio_enable_listening cfg env hw priv chan = (0, priv, hw)) := by
  refine ⟨?_, ?_, ?_⟩
  · intro h2 hp
    refine ⟨?_, ?_,
      { mode :=
          if cfg.P2P_MULTIVIF
            then cfg.WSM_START_MODE_P2P_DEV ||| (if priv.if_id != 0 then 16 else 0)
            else cfg.WSM_START_MODE_P2P_DEV ||| (priv.if_id * 16)
        band_5g := chan.band == NL80211_BAND_5GHZ
        channelNumber := chan.hw_value
        beaconInterval := 100
        DTIMPeriod := 1
        probeDelay := 0
        basicRateSet := 15 }, ?_, rfl, rfl, rfl⟩
    · simp [xradio_enable_listening, h2, hp, wsm_cmd]
    · simp [xradio_enable_listening, h2, hp, wsm_cmd]
    · simp [xradio_enable_listening, h2, hp, wsm_cmd]
  · intro h2 hm
    simp [xradio_enable_listening, h2, hm]
  · intro h2
    simp [xradio_enable_listening, h2]

/-- Witness of the amended C19 on the example device: the passive slot-2
interface with a succeeding and with a failing command, the same interface
already monitoring, and the slot-0 interface. -/
theorem enable_listening_slot2_witness :
    (xradio_enable_listening cfgX envOk hwRoc vifRoc chanX).1 = 0 ∧
    (xradio_enable_listening cfgX envOk hwRoc vifRoc chanX).2.1 =
      { vifRoc with join_status := xradio_join_status.MONITOR } ∧
    (xradio_enable_listening cfgX envFail hwRoc vifRoc chanX).1 = -1 ∧
    (xradio_enable_listening cfgX envFail hwRoc vifRoc chanX).2.1 =
      { vifRoc with join_status := xradio_join_status.MONITOR } ∧
    xradio_enable_listening cfgX envOk hwRoc
        { vifRoc with join_status := xradio_join_status.MONITOR } chanX =
      (0, { vifRoc with join_status := xradio_join_status.MONITOR }, hwRoc) ∧
    xradio_enable_listening cfgX envOk hwRoc vifX chanX = (0, vifX, hwRoc) :=
  ⟨((enable_listening_slot2 cfgX envOk hwRoc vifRoc chanX).1 rfl rfl).1,
   ((enable_listening_slot2 cfgX envOk hwRoc vifRoc chanX).1 rfl rfl).2.1,
   ((enable_listening_slot2 cfgX envFail hwRoc vifRoc chanX).1 rfl rfl).1,
   ((enable_listening_slot2 cfgX envFail hwRoc vifRoc chanX).1 rfl rfl).2.1,
   (enable_listening_slot2 cfgX envOk hwRoc
      { vifRoc with join_status := xradio_join_status.MONITOR } chanX).2.1 rfl rfl,
   (enable_listening_slot2 cfgX envOk hwRoc vifX chanX).2.2 (by decide)⟩

/-! ## Interface registration -/

/-- What `xradio_vif_setup` leaves alone: the interface table, the counter and
the slot bitmap of the device, the slot and the address of the interface. -/
theorem vif_setup_keeps (cfg : Config) (env : Env) (hw : xradio_common) (priv : xradio_vif) :
    (xradio_vif_setup cfg env hw priv).2.2.vif_list = hw.vif_list ∧
    (xradio_vif_setup cfg env hw priv).2.2.num_vifs = hw.num_vifs ∧
    (xradio_vif_setup cfg env hw priv).2.2.if_id_slot = hw.if_id_slot ∧
    (xradio_vif_setup cfg env hw priv).2.1.if_id = priv.if_id ∧
    (xradio_vif_setup cfg env hw priv).2.1.vif_addr = priv.vif_addr := by
  unfold xradio_vif_setup xradio_set_uapsd_param wsm_cmd
  simp only []
  split_ifs <;> simp

/-- What `xradio_setup_mac_pvif` leaves alone. -/
theorem setup_mac_pvif_keeps (cfg : Config) (env : Env) (hw : xradio_common)
    (priv : xradio_vif) :
    (xradio_setup_mac_pvif cfg env hw priv).2.2.vif_list = hw.vif_list ∧
    (xradio_setup_mac_pvif cfg env hw priv).2.2.num_vifs = hw.num_vifs ∧
    (xradio_setup_mac_pvif cfg env hw priv).2.2.if_id_slot = hw.if_id_slot ∧
    (xradio_setup_mac_pvif cfg env hw priv).2.1.if_id = priv.if_id ∧
    (xradio_setup_mac_pvif cfg env hw priv).2.1.vif_addr = priv.vif_addr := by
  unfold xradio_setup_mac_pvif wsm_cmd
  simp only []
  split_ifs <;> simp

/-- Registration in slot `k`: the common tail of `xradio_add_interface` once
the slot is chosen. -/
theorem add_interface_registered (cfg : Config) (env : Env) (hw : xradio_common)
    (priv : xradio_vif) (k : Nat)
    (hready : hw.driver_ready = true)
    (hroom : hw.num_vifs < (cfg.XRWL_MAX_VIFS : Int))
    (hslot : (if cfg.P2P_MULTIVIF then some (match_address_multivif hw
        { priv with enabled := 0, mode := priv.vif_type })
      else match_address cfg hw priv.vif_addr) = some k)
    (hk : k < hw.vif_list.length) :
    (xradio_add_interface cfg env hw priv).2.2.num_vifs = hw.num_vifs + 1 ∧
    (xradio_add_interface cfg env hw priv).2.2.if_id_slot = hw.if_id_slot ||| 2 ^ k ∧
    xrwl_hwpriv_to_vifpriv (xradio_add_interface cfg env hw priv).2.2 k =
      some (xradio_add_interface cfg env hw priv).2.1 ∧
    (xradio_add_interface cfg env hw priv).2.1.if_id = k ∧
    (xradio_add_interface cfg env hw priv).2.1.vif_addr = priv.vif_addr ∧
    (∀ j, j ≠ k → xrwl_hwpriv_to_vifpriv (xradio_add_interface cfg env hw priv).2.2 j =
      xrwl_hwpriv_to_vifpriv hw j) := by
  have hnot : ¬ (cfg.P2P_MULTIVIF = false ∧ hw.num_vifs ≥ (cfg.XRWL_MAX_VIFS : Int)) := by
    intro h
    omega
  have hform : xradio_add_interface cfg env hw priv =
      (let priv1 : xradio_vif := { priv with enabled := 0, mode := priv.vif_type, if_id := k }
       let hw1 : xradio_common :=
         { hw with
           if_id_slot := hw.if_id_slot ||| 2 ^ k
           vif_list := hw.vif_list.set k (some priv1)
           num_vifs := hw.num_vifs + 1
           mac_addr := bytes_at priv.vif_addr 0 ETH_ALEN }
       let v := xradio_vif_setup cfg env hw1 priv1
       let m := xradio_setup_mac_pvif cfg env v.2.2 v.2.1
       (SYS_WARN m.1, m.2.1, set_vif m.2.2 m.2.1.if_id m.2.1)) := by
    unfold xradio_add_interface
    simp only [hnot, hready, hroom, if_false, if_true, Bool.true_eq_false]
    rw [hslot]
    rfl
  rw [hform]
  simp only []
  generalize hp1 : ({ priv with enabled := 0, mode := priv.vif_type, if_id := k } : xradio_vif)
    = priv1
  generalize hh1 : ({ hw with
           if_id_slot := hw.if_id_slot ||| 2 ^ k
           vif_list := hw.vif_list.set k (some priv1)
           num_vifs := hw.num_vifs + 1
           mac_addr := bytes_at priv.vif_addr 0 ETH_ALEN } : xradio_common) = hw1
  have hv := vif_setup_keeps cfg env hw1 priv1
  have hm := setup_mac_pvif_keeps cfg env (xradio_vif_setup cfg env hw1 priv1).2.2
    (xradio_vif_setup cfg env hw1 priv1).2.1
  have hid : (xradio_setup_mac_pvif cfg env (xradio_vif_setup cfg env hw1 priv1).2.2
      (xradio_vif_setup cfg env hw1 priv1).2.1).2.1.if_id = k := by
    rw [hm.2.2.2.1, hv.2.2.2.1, ← hp1]
  have haddr : (xradio_setup_mac_pvif cfg env (xradio_vif_setup cfg env hw1 priv1).2.2
      (xradio_vif_setup cfg env hw1 priv1).2.1).2.1.vif_addr = priv.vif_addr := by
    rw [hm.2.2.2.2, hv.2.2.2.2, ← hp1]
  have hlist : (xradio_setup_mac_pvif cfg env (xradio_vif_setup cfg env hw1 priv1).2.2
      (xradio_vif_setup cfg env hw1 priv1).2.1).2.2.vif_list =
      hw.vif_list.set k (some priv1) := by
    rw [hm.1, hv.1, ← hh1]
  refine ⟨?_, ?_, ?_, hid, haddr, ?_⟩
  · simp only [set_vif]
    rw [hm.2.1, hv.2.1, ← hh1]
  · simp only [set_vif]
    rw [hm.2.2.1, hv.2.2.1, ← hh1]
  · unfold xrwl_hwpriv_to_vifpriv
    simp [set_vif, hid, hlist, hk]
  · intro j hj
    unfold xrwl_hwpriv_to_vifpriv
    simp only [set_vif, hid, hlist]
    have : ((hw.vif_list.set k (some priv1)).set k (some (xradio_setup_mac_pvif cfg env
        (xradio_vif_setup cfg env hw1 priv1).2.2
        (xradio_vif_setup cfg env hw1 priv1).2.1).2.1))[j]? = hw.vif_list[j]? := by
      simp [List.getElem?_set, Ne.symm hj]
    rw [this]

/-- With the interface counter at `XRWL_MAX_VIFS` or above and the driver
ready, `xradio_add_interface` fails with `-EOPNOTSUPP` in both builds and
leaves the device (counter, slot bitmap and interface table included) as it
was. -/
theorem add_interface_full (cfg : Config) (env : Env) (hw : xradio_common)
    (priv : xradio_vif)
    (hready : hw.driver_ready = true)
    (hfull : hw.num_vifs ≥ (cfg.XRWL_MAX_VIFS : Int)) :
    (xradio_add_interface cfg env hw priv).1 = -EOPNOTSUPP ∧
    (xradio_add_interface cfg env hw priv).2.2 = hw := by
  have hnot : ¬ hw.num_vifs < (cfg.XRWL_MAX_VIFS : Int) := by omega
  unfold xradio_add_interface
  by_cases hm : cfg.P2P_MULTIVIF = false
  · simp [hm, hfull]
  · simp [hm, hready, hnot]

/-- Built without `P2P_MULTIVIF`, with the driver ready and room for one more
interface, `xradio_add_interface` chooses the first slot whose configured
address equals the requested one: with no such slot it fails with `-EINVAL`
and leaves the device as it was; with slot `k` the counter grows by one, bit
`k` of the slot bitmap is set and entry `k` of the table holds the new
interface. -/
theorem add_interface_single_vif_build (cfg : Config) (env : Env) (hw : xradio_common)
    (priv : xradio_vif)
    (hm : cfg.P2P_MULTIVIF = false)
    (hready : hw.driver_ready = true)
    (hroom : hw.num_vifs < (cfg.XRWL_MAX_VIFS : Int)) :
    (match_address cfg hw priv.vif_addr = none →
      (xradio_add_interface cfg env hw priv).1 = -EINVAL ∧
      (xradio_add_interface cfg env hw priv).2.2 = hw) ∧
    (∀ k, match_address cfg hw priv.vif_addr = some k → k < hw.vif_list.length →
      (xradio_add_interface cfg env hw priv).2.2.num_vifs = hw.num_vifs + 1 ∧
      (xradio_add_interface cfg env hw priv).2.2.if_id_slot = hw.if_id_slot ||| 2 ^ k ∧
      xrwl_hwpriv_to_vifpriv (xradio_add_interface cfg env hw priv).2.2 k =
        some (xradio_add_interface cfg env hw priv).2.1 ∧
      (xradio_add_interface cfg env hw priv).2.1.if_id = k ∧
      (xradio_add_interface cfg env hw priv).2.1.vif_addr = priv.vif_addr) := by
  constructor
  · intro hnone
    have hnot : ¬ hw.num_vifs ≥ (cfg.XRWL_MAX_VIFS : Int) := by omega
    unfold xradio_add_interface
    simp [hm, hready, hroom, hnot, hnone]
  · intro k hk hlen
    have h := add_interface_registered cfg env hw priv k hready hroom (by simp [hm, hk]) hlen
    exact ⟨h.1, h.2.1, h.2.2.1, h.2.2.2.1, h.2.2.2.2.1⟩

/-- C20, evaluation at the failing input: built with `P2P_MULTIVIF`, on the
example device (driver ready, one interface registered in slot 0, room for
more), a new interface whose address equals none of the three configured
addresses is not rejected: the call returns 0, the counter goes from 1 to 2,
and slot 0, which held the first interface, now holds the new one (the slot
number found in the zeroed driver context). -/
theorem add_interface_multivif_unmatched_address :
    cfgMulti.P2P_MULTIVIF = true ∧
    hwX.driver_ready = true ∧
    hwX.num_vifs = 1 ∧
    cfgMulti.XRWL_MAX_VIFS = 3 ∧
    vifNew.vif_addr ∉ hwX.addresses ∧
    xrwl_hwpriv_to_vifpriv hwX 0 = some vifX ∧
    (xradio_add_interface cfgMulti envOk hwX vifNew).1 = 0 ∧
    (xradio_add_interface cfgMulti envOk hwX vifNew).2.2.num_vifs = 2 ∧
    (xradio_add_interface cfgMulti envOk hwX vifNew).2.2.if_id_slot = 1 ∧
    (xrwl_hwpriv_to_vifpriv (xradio_add_interface cfgMulti envOk hwX vifNew).2.2 0).map
      (fun p => p.vif_addr) = some [2, 0, 0, 0, 0, 9] ∧
    (xradio_add_interface cfgX envOk hwX vifNew).1 = -EINVAL ∧
    (xradio_add_interface cfgX envOk hwX vifNew).2.2 = hwX :=
  ⟨rfl, rfl, rfl, rfl, by decide, rfl, by decide, by decide, by decide, by decide, by decide,
    by decide⟩

/-! ## Join -/

/-- A property of the device that every firmware command preserves is
preserved by `xradio_update_filtering`. -/
theorem update_filtering_preserves (P : xradio_common → Prop) (env : Env)
    (hP : ∀ (h : xradio_common) (c : WsmCmd), P h → P (wsm_cmd env h c).2)
    (hw : xradio_common) (priv : xradio_vif) (h0 : P hw) :
    P (xradio_update_filtering env hw priv) := by
  unfold xradio_update_filtering
  by_cases hp : priv.join_status = xradio_join_status.PASSIVE
  · simp only [hp, if_true]
    exact h0
  · simp only [hp, if_false]
    split_ifs <;> (repeat apply hP) <;> exact h0

/-- What `xradio_disable_listening` leaves alone. -/
theorem disable_listening_keeps (cfg : Config) (env : Env) (hw : xradio_common)
    (priv : xradio_vif) :
    (xradio_disable_listening cfg env hw priv).2.2.vif_list = hw.vif_list ∧
    (xradio_disable_listening cfg env hw priv).2.2.pending_frame = hw.pending_frame ∧
    (xradio_disable_listening cfg env hw priv).2.2.tx_lock = hw.tx_lock ∧
    (xradio_disable_listening cfg env hw priv).2.2.ba_tid_mask = hw.ba_tid_mask ∧
    (xradio_disable_listening cfg env hw priv).2.1 =
      (if priv.if_id = 2 then { priv with join_status := xradio_join_status.PASSIVE }
       else priv) := by
  unfold xradio_disable_listening wsm_cmd
  by_cases h2 : priv.if_id = 2
  · by_cases hr : hw.roc_if_id = -1 <;> simp [h2, hr]
  · simp [h2]

/-- What `join_prepare` leaves alone in the device, and what it writes into
the interface context and the join argument. -/
theorem join_prepare_spec (cfg : Config) (env : Env) (hw : xradio_common) (priv : xradio_vif)
    (bssid : List Nat) (bss : cfg80211_bss) (chan : ieee80211_channel) (li : Nat) :
    (join_prepare cfg env hw priv bssid bss chan li).2.2.vif_list = hw.vif_list ∧
    (join_prepare cfg env hw priv bssid bss chan li).2.2.pending_frame = hw.pending_frame ∧
    (join_prepare cfg env hw priv bssid bss chan li).2.2.tx_lock = hw.tx_lock ∧
    (join_prepare cfg env hw priv bssid bss chan li).2.1.if_id = priv.if_id ∧
    (join_prepare cfg env hw priv bssid bss chan li).2.1.join_timeout =
      queue_delayed_work priv.join_timeout (3 * cfg.HZ) ∧
    (join_prepare cfg env hw priv bssid bss chan li).2.1.join_status =
      (if priv.if_id = 2 then xradio_join_status.PASSIVE else priv.join_status) ∧
    (join_prepare cfg env hw priv bssid bss chan li).2.1.join_bssid =
      bytes_at bssid 0 ETH_ALEN ∧
    (join_prepare cfg env hw priv bssid bss chan li).1.bssid = bytes_at bssid 0 ETH_ALEN := by
  have hd := fun h p => disable_listening_keeps cfg env h p
  simp only [join_prepare, wsm_cmd, wsm_flush_tx, hd]
  refine ⟨trivial, trivial, trivial, ?_, ?_, ?_, ?_, trivial⟩ <;> split_ifs <;> rfl

/-- What `xradio_update_filtering` leaves alone; the command log is only
extended. -/
theorem update_filtering_keeps (env : Env) (hw : xradio_common) (priv : xradio_vif) :
    (xradio_update_filtering env hw priv).vif_list = hw.vif_list ∧
    (xradio_update_filtering env hw priv).pending_frame = hw.pending_frame ∧
    (xradio_update_filtering env hw priv).tx_lock = hw.tx_lock ∧
    hw.fw_log <+: (xradio_update_filtering env hw priv).fw_log := by
  apply update_filtering_preserves
    (fun h => h.vif_list = hw.vif_list ∧ h.pending_frame = hw.pending_frame ∧
      h.tx_lock = hw.tx_lock ∧ hw.fw_log <+: h.fw_log) env
  · intro h c hh
    refine ⟨hh.1, hh.2.1, hh.2.2.1, ?_⟩
    exact List.IsPrefix.trans hh.2.2.2 (List.prefix_append _ _)
  · exact ⟨rfl, rfl, rfl, List.prefix_refl _⟩

/-- An entry of a prefix of the log is an entry of the log. -/
theorem log_entry_of_prefix (l1 l2 : List WsmCmd) (c : WsmCmd) (h : l1 ++ [c] <+: l2) :
    l2[l1.length]? = some c := by
  obtain ⟨t, ht⟩ := h
  rw [← ht, List.append_assoc, List.getElem?_append_right (le_refl _)]
  simp

/-- The outcome of the block of `xradio_join_work` under `conf_mutex`, entered
with the join timeout idle and the frame pending: the join command is entry
`n` of the log, and the two branches follow its result. -/
theorem join_locked_result (cfg : Config) (env : Env) (hw : xradio_common) (i : Nat)
    (priv : xradio_vif) (bssid : List Nat) (bss : cfg80211_bss) (chan : ieee80211_channel)
    (hi : i < hw.vif_list.length)
    (hidle : priv.join_timeout = none)
    (hframe : hw.pending_frame = frame_state.PENDING bssid)
    (hbt : hw.is_BT_Present = true → bss.beacon_interval ≠ 0) :
    ∃ out hw1 priv1 n join,
      join_locked cfg env hw i priv bssid bss chan = some (out, hw1) ∧
      xrwl_hwpriv_to_vifpriv hw1 i = some priv1 ∧
      hw1.tx_lock = hw.tx_lock ∧
      hw1.fw_log[n]? = some (WsmCmd.join join priv.if_id) ∧
      join.bssid = bytes_at bssid 0 ETH_ALEN ∧
      (env.wsm_ret n = 0 →
        out = join_outcome.JOINED ∧
        priv1.join_status = xradio_join_status.STA ∧
        priv1.join_timeout = some (3 * cfg.HZ) ∧
        priv1.disable_beacon_filter = true ∧
        hw1.pending_frame = frame_state.REQUEUED bssid) ∧
      (env.wsm_ret n ≠ 0 →
        out = join_outcome.JOIN_FAILED ∧
        (∀ b ∈ priv1.join_bssid, b = 0) ∧
        hw1.pending_frame = frame_state.REMOVED ∧
        priv1.join_timeout = none ∧
        priv1.join_status =
          (if priv.if_id = 2 then xradio_join_status.PASSIVE else priv.join_status)) := by
  have hl : ∃ li, (if hw.is_BT_Present then
      bt_listen_interval hw.conf_listen_interval bss.beacon_interval
      else some priv.listen_interval) = some li := by
    by_cases hB : hw.is_BT_Present = true
    · have hne := hbt hB
      simp only [hB, if_true, bt_listen_interval, hne, if_false]
      split_ifs <;> exact ⟨_, rfl⟩
    · simp [hB]
  obtain ⟨li, hli⟩ := hl
  unfold join_locked
  simp only [hli]
  have hs := join_prepare_spec cfg env hw priv bssid bss chan li
  generalize join_prepare cfg env hw priv bssid bss chan li = p at hs ⊢
  obtain ⟨join, pv, ph⟩ := p
  simp only at hs
  obtain ⟨hvl, hpf, htx, hid, hjt, hjs, hjb, hjoin⟩ := hs
  by_cases hj : env.wsm_ret ph.fw_log.length = 0
  · have hk := update_filtering_keeps env
      (xradio_queue_requeue (wsm_cmd env ph (WsmCmd.join join pv.if_id)).2).2
      { pv with join_status := xradio_join_status.STA, disable_beacon_filter := true }
    have hbase : (xradio_queue_requeue (wsm_cmd env ph (WsmCmd.join join pv.if_id)).2).2 =
        { ph with fw_log := ph.fw_log ++ [WsmCmd.join join pv.if_id],
                  pending_frame := frame_state.REQUEUED bssid } := by
      simp [xradio_queue_requeue, wsm_cmd, hpf, hframe]
    rw [hbase] at hk
    simp only at hk
    refine ⟨join_outcome.JOINED,
      set_vif (xradio_update_filtering env
        (xradio_queue_requeue (wsm_cmd env ph (WsmCmd.join join pv.if_id)).2).2
        { pv with join_status := xradio_join_status.STA, disable_beacon_filter := true }) i
        { pv with join_status := xradio_join_status.STA, disable_beacon_filter := true },
      { pv with join_status := xradio_join_status.STA, disable_beacon_filter := true },
      ph.fw_log.length, join, ?_, ?_, ?_, ?_, hjoin, ?_, ?_⟩
    · simp only [wsm_cmd, hj, ne_eq, not_true_eq_false, if_false]
    · apply lookup_set_vif_lt
      rw [hbase, hk.1, hvl]
      exact hi
    · simp only [set_vif]
      rw [hbase, hk.2.2.1, htx]
    · simp only [set_vif]
      rw [hbase, ← hid]
      exact log_entry_of_prefix _ _ _ hk.2.2.2
    · intro _
      refine ⟨rfl, rfl, ?_, rfl, ?_⟩
      · simp [hjt, hidle, queue_delayed_work]
      · simp only [set_vif]
        rw [hbase, hk.2.1]
    · intro hne
      exact absurd hj hne
  · have hk := update_filtering_keeps env
      (xradio_queue_remove (wsm_cmd env ph (WsmCmd.join join pv.if_id)).2).2
      { pv with join_bssid := memset0 pv.join_bssid,
                join_timeout := cancel_delayed_work_sync pv.join_timeout }
    have hbase : (xradio_queue_remove (wsm_cmd env ph (WsmCmd.join join pv.if_id)).2).2 =
        { ph with fw_log := ph.fw_log ++ [WsmCmd.join join pv.if_id],
                  pending_frame := frame_state.REMOVED } := by
      simp [xradio_queue_remove, wsm_cmd, hpf, hframe]
    rw [hbase] at hk
    simp only at hk
    refine ⟨join_outcome.JOIN_FAILED,
      set_vif (xradio_update_filtering env
        (xradio_queue_remove (wsm_cmd env ph (WsmCmd.join join pv.if_id)).2).2
        { pv with join_bssid := memset0 pv.join_bssid,
                  join_timeout := cancel_delayed_work_sync pv.join_timeout }) i
        { pv with join_bssid := memset0 pv.join_bssid,
                  join_timeout := cancel_delayed_work_sync pv.join_timeout },
      { pv with join_bssid := memset0 pv.join_bssid,
                join_timeout := cancel_delayed_work_sync pv.join_timeout },
      ph.fw_log.length, join, ?_, ?_, ?_, ?_, hjoin, ?_, ?_⟩
    · simp only [wsm_cmd, hj, ne_eq, not_false_eq_true, if_true]
    · apply lookup_set_vif_lt
      rw [hbase, hk.1, hvl]
      exact hi
    · simp only [set_vif]
      rw [hbase, hk.2.2.1, htx]
    · simp only [set_vif]
      rw [hbase, ← hid]
      exact log_entry_of_prefix _ _ _ hk.2.2.2
    · intro h0
      exact absurd h0 hj
    · intro _
      refine ⟨rfl, ?_, ?_, rfl, hjs⟩
      · intro b hb
        simp [memset0] at hb
        exact hb.2
      · simp only [set_vif]
        rw [hbase, hk.2.1]

/-- The throttle choice leaves the pending frame and the coexistence settings
alone. -/
theorem unjoin_throttle_keeps (cfg : Config) (hw : xradio_common) :
    (unjoin_throttle cfg hw).pending_frame = hw.pending_frame ∧
    (unjoin_throttle cfg hw).is_BT_Present = hw.is_BT_Present ∧
    (unjoin_throttle cfg hw).conf_listen_interval = hw.conf_listen_interval := by
  unfold unjoin_throttle; split_ifs <;> exact ⟨rfl, rfl, rfl⟩

/-- The unjoin that `xradio_join_work` runs first on an interface that is not
passive: it returns unless the status is `AP` with no scan in progress, keeps
the pending frame, and leaves the status `PASSIVE` when no scan is in progress
and unchanged when one is (the unjoin is then deferred). -/
theorem unjoin_before_join (cfg : Config) (env : Env) (hw : xradio_common) (i : Nat)
    (priv : xradio_vif)
    (hpriv : xrwl_hwpriv_to_vifpriv hw i = some priv)
    (hne : priv.join_status ≠ xradio_join_status.PASSIVE)
    (hst : priv.join_status ≠ xradio_join_status.AP ∨ hw.scan_in_progress = true) :
    ∃ hwU privU,
      xradio_unjoin_work cfg env (wsm_lock_tx hw) i = some hwU ∧
      xrwl_hwpriv_to_vifpriv hwU i = some privU ∧
      hwU.pending_frame = hw.pending_frame ∧
      hwU.is_BT_Present = hw.is_BT_Present ∧
      hwU.conf_listen_interval = hw.conf_listen_interval ∧
      privU.if_id = priv.if_id ∧
      privU.join_status =
        (if hw.scan_in_progress = false then xradio_join_status.PASSIVE
         else priv.join_status) := by
  have hlt := lookup_lt hw i priv hpriv
  have hpriv1 : xrwl_hwpriv_to_vifpriv (wsm_lock_tx hw) i = some priv := hpriv
  by_cases hscan : hw.scan_in_progress = true
  · have h1 := unjoin_deferred cfg env (wsm_lock_tx hw) i priv hpriv1 hscan
    refine ⟨_, { unjoin_prologue_vif cfg priv with delayed_unjoin := 1 }, h1, ?_, ?_, ?_, ?_,
      unjoin_prologue_vif_if_id cfg priv, ?_⟩
    · unfold xrwl_hwpriv_to_vifpriv
      split_ifs <;> simp [wsm_unlock_tx, wsm_lock_tx, set_vif, hlt]
    · split_ifs <;> rfl
    · split_ifs <;> rfl
    · split_ifs <;> rfl
    · simp [hscan, unjoin_prologue_vif_join_status]
  · have hscan0 : hw.scan_in_progress = false := by simpa using hscan
    have hstatus : priv.join_status = xradio_join_status.MONITOR ∨
        priv.join_status = xradio_join_status.STA := by
      rcases hst with h | h
      · cases hs : priv.join_status <;> simp_all
      · exact absurd h hscan
    have h1 := unjoin_active cfg env (wsm_lock_tx hw) i priv hpriv1 hstatus hscan0
    have hk := unjoin_throttle_keeps cfg
      (set_vif (unjoin_teardown_hw cfg (wsm_lock_tx hw) priv) i (unjoin_teardown_vif cfg priv))
    refine ⟨_, unjoin_teardown_vif cfg priv, h1, ?_, ?_, ?_, ?_, ?_, ?_⟩
    · unfold xrwl_hwpriv_to_vifpriv
      simp [wsm_unlock_tx, wsm_lock_tx, unjoin_throttle_vif_list, set_vif, unjoin_teardown_hw,
        hlt]
    · simp only [wsm_unlock_tx]
      rw [hk.1]
      rfl
    · simp only [wsm_unlock_tx]
      rw [hk.2.1]
      rfl
    · simp only [wsm_unlock_tx]
      rw [hk.2.2]
      rfl
    · simp [unjoin_teardown_vif, unjoin_prologue_vif_if_id]
    · simp [hscan0, unjoin_teardown_vif]

/-- C17 as stated fails when the unjoin that precedes the join is deferred:
on the example device with slot 0 in status `STA` and a scan in progress,
`xradio_join_work` reaches the join command (entry 3 of the log), the command
fails, and the join status is still `STA`, not `PASSIVE`. -/
theorem join_failure_keeps_station_under_scan :
    xrwl_hwpriv_to_vifpriv hwJoinSta 0 = some vifSta ∧
    vifSta.join_status = xradio_join_status.STA ∧
    hwJoinSta.scan_in_progress = true ∧
    envFail.wsm_ret 3 ≠ 0 ∧
    ∃ hw1 priv1 join,
      xradio_join_work cfgX envFail hwJoinSta 0 (some bssX) =
        some (join_outcome.JOIN_FAILED, hw1) ∧
      hw1.fw_log[3]? = some (WsmCmd.join join 0) ∧
      xrwl_hwpriv_to_vifpriv hw1 0 = some priv1 ∧
      priv1.join_status = xradio_join_status.STA ∧
      priv1.join_status ≠ xradio_join_status.PASSIVE ∧
      priv1.join_bssid = [0, 0, 0, 0, 0, 0] ∧
      priv1.join_timeout = none ∧
      hw1.pending_frame = frame_state.REMOVED :=
  ⟨rfl, rfl, rfl, by decide, _, _, _, rfl, rfl, rfl, rfl, by decide, rfl, rfl, rfl⟩

/-- C17 (amended): a run of `xradio_join_work` with a pending frame, a channel
and a BSS entry (beacon interval not 0 when Bluetooth coexistence is on, and
the interface not in `AP` status unless a scan is in progress) reaches the
firmware join command, which is entry `n` of the command log.  If the command
succeeds, the join status is `STA`, the join timeout is queued with `3 * HZ`
ticks, the beacon-filter override is set and the pending frame is queued
again.  If the command fails, the join BSSID is all zero, the pending frame is
removed from its queue and the join timeout is not pending; the failure branch
does not write the join status, which is `PASSIVE` when the interface was
`PASSIVE` at entry, or no scan was in progress (the unjoin that precedes the
join was carried out), or the interface is in slot 2, and is otherwise the
status at entry. -/
theorem join_work_outcome (cfg : Config) (env : Env) (hw : xradio_common) (i : Nat)
    (priv : xradio_vif) (bssid : List Nat) (bss : cfg80211_bss) (chan : ieee80211_channel)
    (hpriv : xrwl_hwpriv_to_vifpriv hw i = some priv)
    (hq : hw.pending_frame_queue < 4)
    (hframe : hw.pending_frame = frame_state.PENDING bssid)
    (hchan : hw.channel = some chan)
    (hbt : hw.is_BT_Present = true → bss.beacon_interval ≠ 0)
    (hst : priv.join_status ≠ xradio_join_status.AP ∨ hw.scan_in_progress = true) :
    ∃ out hw1 priv1 n join,
      xradio_join_work cfg env hw i (some bss) = some (out, hw1) ∧
      xrwl_hwpriv_to_vifpriv hw1 i = some priv1 ∧
      hw1.fw_log[n]? = some (WsmCmd.join join priv.if_id) ∧
      join.bssid = bytes_at bssid 0 ETH_ALEN ∧
      (env.wsm_ret n = 0 →
        out = join_outcome.JOINED ∧
        priv1.join_status = xradio_join_status.STA ∧
        priv1.join_timeout = some (3 * cfg.HZ) ∧
        priv1.disable_beacon_filter = true ∧
        hw1.pending_frame = frame_state.REQUEUED bssid) ∧
      (env.wsm_ret n ≠ 0 →
        out = join_outcome.JOIN_FAILED ∧
        (∀ b ∈ priv1.join_bssid, b = 0) ∧
        hw1.pending_frame = frame_state.REMOVED ∧
        priv1.join_timeout = none ∧
        priv1.join_status =
          (if priv.join_status = xradio_join_status.PASSIVE ∨ hw.scan_in_progress = false ∨
              priv.if_id = 2
            then xradio_join_status.PASSIVE else priv.join_status)) := by
  have hq4 : ¬ hw.pending_frame_queue ≥ 4 := by omega
  have hskb : xradio_queue_get_skb hw = some bssid := by
    simp [xradio_queue_get_skb, hframe]
  have hpre : ∃ hwU privU,
      (if priv.join_status.toNat ≠ 0 then xradio_unjoin_work cfg env (wsm_lock_tx hw) i
        else some hw) = some hwU ∧
      xrwl_hwpriv_to_vifpriv hwU i = some privU ∧
      hwU.pending_frame = hw.pending_frame ∧
      hwU.is_BT_Present = hw.is_BT_Present ∧
      privU.if_id = priv.if_id ∧
      privU.join_status =
        (if priv.join_status = xradio_join_status.PASSIVE ∨ hw.scan_in_progress = false
          then xradio_join_status.PASSIVE else priv.join_status) := by
    by_cases hp : priv.join_status = xradio_join_status.PASSIVE
    · refine ⟨hw, priv, ?_, hpriv, rfl, rfl, rfl, ?_⟩
      · simp [hp, xradio_join_status.toNat]
      · simp [hp]
    · obtain ⟨hwU, privU, a, b, c, d, _, e, f⟩ := unjoin_before_join cfg env hw i priv hpriv hp hst
      have hn : priv.join_status.toNat ≠ 0 := by
        cases hs : priv.join_status <;> simp_all [xradio_join_status.toNat]
      refine ⟨hwU, privU, ?_, b, c, d, e, ?_⟩
      · simp only [hn, ne_eq, not_false_eq_true, if_true]
        exact a
      · rw [f]
        by_cases hscan : hw.scan_in_progress = false <;> simp [hp, hscan]
  obtain ⟨hwU, privU, hU, hlU, hfU, hbU, hidU, hsU⟩ := hpre
  have hltU := lookup_lt hwU i privU hlU
  obtain ⟨out, hw1, priv1, n, join, hjl, hlook, _, hlog, hjb, hok, hfail⟩ :=
    join_locked_result cfg env hwU i
      { privU with join_timeout := cancel_delayed_work_sync privU.join_timeout } bssid bss chan
      hltU rfl (by rw [hfU, hframe]) (by rw [hbU]; exact hbt)
  refine ⟨out, wsm_unlock_tx hw1, priv1, n, join, ?_, hlook, ?_, hjb, ?_, ?_⟩
  · unfold xradio_join_work
    simp only [hpriv, hq4, if_false, hskb, hchan, hU, hlU, hjl]
  · simp only [wsm_unlock_tx]
    rw [← hidU]
    exact hlog
  · intro h0
    exact hok h0
  · intro hne
    obtain ⟨a, b, c, d, e⟩ := hfail hne
    refine ⟨a, b, c, d, ?_⟩
    rw [e]
    simp only [hidU, hsU]
    by_cases h2 : priv.if_id = 2
    · simp [h2]
    · by_cases hp : priv.join_status = xradio_join_status.PASSIVE
      · simp [hp]
      · by_cases hscan : hw.scan_in_progress = false <;> simp [h2, hp, hscan]

/-- Witness of the amended C17 on the example device: a join from `PASSIVE`
whose commands all succeed, and one whose commands all fail. -/
theorem join_work_outcome_witness :
    (∃ hw1 priv1,
      xradio_join_work cfgX envOk hwJoin 0 (some bssX) = some (join_outcome.JOINED, hw1) ∧
      xrwl_hwpriv_to_vifpriv hw1 0 = some priv1 ∧
      priv1.join_status = xradio_join_status.STA ∧
      priv1.join_timeout = some 300 ∧
      priv1.disable_beacon_filter = true ∧
      hw1.pending_frame = frame_state.REQUEUED [1, 2, 3, 4, 5, 6]) ∧
    (∃ hw1 priv1,
      xradio_join_work cfgX envFail hwJoin 0 (some bssX) =
        some (join_outcome.JOIN_FAILED, hw1) ∧
      xrwl_hwpriv_to_vifpriv hw1 0 = some priv1 ∧
      priv1.join_status = xradio_join_status.PASSIVE ∧
      (∀ b ∈ priv1.join_bssid, b = 0) ∧
      priv1.join_timeout = none ∧
      hw1.pending_frame = frame_state.REMOVED) := by
  constructor
  · obtain ⟨out, hw1, priv1, n, join, a, b, c, _, e, _⟩ :=
      join_work_outcome cfgX envOk hwJoin 0 vifX [1, 2, 3, 4, 5, 6] bssX chanX rfl
        (by decide) rfl rfl (by decide) (Or.inl (by decide))
    obtain ⟨e1, e2, e3, e4, e5⟩ := e rfl
    subst e1
    exact ⟨hw1, priv1, a, b, e2, e3, e4, e5⟩
  · obtain ⟨out, hw1, priv1, n, join, a, b, c, _, _, f⟩ :=
      join_work_outcome cfgX envFail hwJoin 0 vifX [1, 2, 3, 4, 5, 6] bssX chanX rfl
        (by decide) rfl rfl (by decide) (Or.inl (by decide))
    obtain ⟨f1, f2, f3, f4, f5⟩ := f (by simp [envFail])
    subst f1
    exact ⟨hw1, priv1, a, b, f5, f2, f4, f3⟩

/-! ## Block-ack timer: scan periods and divisions -/

/-- C24: for every state, when `xradio_ba_timer` runs while a scan is in
progress the four block-ack counters are zero afterwards and the enable flag
and the history counter are what they were before the call; nothing but the
four counters changes. -/
theorem ba_timer_scan_skips (cfg : Config) (hw : xradio_common)
    (hscan : hw.scan_in_progress = true) :
    ∃ hw1, xradio_ba_timer cfg hw = some hw1 ∧
      hw1.ba_cnt = 0 ∧ hw1.ba_acc = 0 ∧ hw1.ba_cnt_rx = 0 ∧ hw1.ba_acc_rx = 0 ∧
      hw1.ba_ena = hw.ba_ena ∧ hw1.ba_hist = hw.ba_hist ∧
      hw1 = { hw with ba_cnt := 0, ba_acc := 0, ba_cnt_rx := 0, ba_acc_rx := 0 } := by
  refine ⟨ba_clear hw, ?_, rfl, rfl, rfl, rfl, rfl, rfl, rfl⟩
  simp [xradio_ba_timer, hscan]

/-- Witness of C24: block-ack enabled with history 2 and counters above the
thresholds, timer run during a scan. -/
theorem ba_timer_scan_skips_witness :
    ∃ hw1, xradio_ba_timer cfgX
        { hwX with scan_in_progress := true, ba_ena := true, ba_hist := 2, ba_cnt := 40,
                   ba_acc := 40000, ba_cnt_rx := 7, ba_acc_rx := 9 } = some hw1 ∧
      hw1.ba_cnt = 0 ∧ hw1.ba_acc = 0 ∧ hw1.ba_cnt_rx = 0 ∧ hw1.ba_acc_rx = 0 ∧
      hw1.ba_ena = true ∧ hw1.ba_hist = 2 := by
  obtain ⟨hw1, a, b, c, d, e, f, g, _⟩ := ba_timer_scan_skips cfgX
    { hwX with scan_in_progress := true, ba_ena := true, ba_hist := 2, ba_cnt := 40,
               ba_acc := 40000, ba_cnt_rx := 7, ba_acc_rx := 9 } rfl
  exact ⟨hw1, a, b, c, d, e, f, g⟩

/-- C27: provided `XRADIO_BLOCK_ACK_CNT >= 1`, `xradio_ba_timer` returns for
every value of the counters (the model has no result exactly when a division
by zero is evaluated).  The quotient `ba_acc / ba_cnt` is not evaluated when
`ba_cnt < XRADIO_BLOCK_ACK_CNT` (the decision is "disable" whatever the other
counters are, `ba_cnt = 0` included), and `ba_acc_rx / ba_cnt_rx` is not
evaluated when `ba_cnt_rx < XRADIO_BLOCK_ACK_CNT` (the decision is the one of
the first quotient alone, `ba_cnt_rx = 0` included); where a quotient is
evaluated its divisor is at least `XRADIO_BLOCK_ACK_CNT`, hence not 0. -/
theorem ba_timer_no_division_by_zero (cfg : Config) (hw : xradio_common)
    (hcnt : cfg.XRADIO_BLOCK_ACK_CNT ≥ 1) :
    (∃ hw1, xradio_ba_timer cfg hw = some hw1) ∧
    (∀ ba_cnt ba_acc ba_cnt_rx ba_acc_rx : Int,
      ∃ b, ba_decision cfg ba_cnt ba_acc ba_cnt_rx ba_acc_rx = some b) ∧
    (∀ ba_cnt ba_acc ba_cnt_rx ba_acc_rx : Int, ba_cnt < cfg.XRADIO_BLOCK_ACK_CNT →
      ba_decision cfg ba_cnt ba_acc ba_cnt_rx ba_acc_rx = some false) ∧
    (∀ ba_cnt ba_acc ba_cnt_rx ba_acc_rx : Int, ba_cnt ≥ cfg.XRADIO_BLOCK_ACK_CNT →
      ba_cnt_rx < cfg.XRADIO_BLOCK_ACK_CNT →
      ba_cnt ≠ 0 ∧
      ba_decision cfg ba_cnt ba_acc ba_cnt_rx ba_acc_rx =
        some (decide (Int.tdiv ba_acc ba_cnt ≥ cfg.XRADIO_BLOCK_ACK_THLD))) ∧
    (∀ ba_cnt ba_acc ba_cnt_rx ba_acc_rx : Int, ba_cnt ≥ cfg.XRADIO_BLOCK_ACK_CNT →
      ba_cnt_rx ≥ cfg.XRADIO_BLOCK_ACK_CNT →
      ba_cnt ≠ 0 ∧ ba_cnt_rx ≠ 0 ∧
      c_div ba_acc ba_cnt = some (Int.tdiv ba_acc ba_cnt) ∧
      c_div ba_acc_rx ba_cnt_rx = some (Int.tdiv ba_acc_rx ba_cnt_rx)) := by
  have hd := fun a b c d => ba_decision_eq cfg a b c d hcnt
  refine ⟨?_, ?_, ?_, ?_, ?_⟩
  · unfold xradio_ba_timer
    by_cases hs : hw.scan_in_progress = true
    · simp [hs]
    · simp [hs, hd]
  · intro a b c d
    exact ⟨_, hd a b c d⟩
  · intro a b c d hlt
    rw [hd]
    have : ¬ a ≥ cfg.XRADIO_BLOCK_ACK_CNT := by omega
    simp [this]
  · intro a b c d hge hlt
    refine ⟨by omega, ?_⟩
    rw [hd]
    have : ¬ c ≥ cfg.XRADIO_BLOCK_ACK_CNT := by omega
    simp [hge, this]
  · intro a b c d hge hge2
    have h1 : a ≠ 0 := by omega
    have h2 : c ≠ 0 := by omega
    exact ⟨h1, h2, by simp [c_div, h1], by simp [c_div, h2]⟩

/-- Witness of C27 on the example configuration (count threshold 30) with all
counters zero. -/
theorem ba_timer_no_division_by_zero_witness :
    (∃ hw1, xradio_ba_timer cfgX hwX = some hw1) ∧
    ba_decision cfgX 0 0 0 0 = some false ∧
    ba_decision cfgX 30 30000 0 0 = some true :=
  ⟨(ba_timer_no_division_by_zero cfgX hwX (by decide)).1,
   (ba_timer_no_division_by_zero cfgX hwX (by decide)).2.2.1 0 0 0 0 (by decide),
   ((ba_timer_no_division_by_zero cfgX hwX (by decide)).2.2.2.1 30 30000 0 0 (by decide)
      (by decide)).2⟩

/-! ## Inactivity events -/

/-- The first index below `n` that satisfies `p`, as found by `find?` over
`List.range n`: it satisfies `p` and no smaller index does. -/
theorem range_find_spec (p : Nat → Bool) (n k : Nat)
    (h : (List.range n).find? p = some k) :
    p k = true ∧ k < n ∧ ∀ j, j < k → p j = false := by
  induction n with
  | zero => simp at h
  | succ n ih =>
    rw [List.range_succ, List.find?_append] at h
    cases hf : (List.range n).find? p with
    | some k1 =>
      rw [hf] at h
      simp at h
      subst h
      obtain ⟨a, b, c⟩ := ih hf
      exact ⟨a, by omega, c⟩
    | none =>
      rw [hf] at h
      simp at h
      have hk : p n = true ∧ n = k := by
        by_cases hp : p n = true
        · simp_all
        · simp_all
      obtain ⟨hp, rfl⟩ := hk
      refine ⟨hp, by omega, ?_⟩
      intro j hj
      have hall := List.find?_eq_none.mp hf j (by simp [hj])
      simpa using hall

/-- The function `ffs`: for a result `k + 1`, bit `k` is the lowest set bit. -/
theorem ffs_spec (x k : Nat) (h : ffs x = k + 1) :
    x.testBit k = true ∧ k < 32 ∧ ∀ j, j < k → x.testBit j = false := by
  unfold ffs at h
  cases hf : (List.range 32).find? (fun i => x.testBit i) with
  | none => simp [hf] at h
  | some i =>
    simp only [hf, Nat.add_right_cancel_iff] at h
    subst h
    exact range_find_spec (fun i => x.testBit i) 32 i hf

/-- C23: for an `INACTIVITY` event handled for an existing interface, with the
frame allocation succeeding and the peer entry of the expiring link inside the
link-id table, exactly one frame is injected upward: destination address and
BSSID are the interface's own address, the source address is the MAC address
recorded in the table entry of the expiring link (entry `link_id - 1`), frame
control is management | deauthentication | to-DS, the reason code is "deauth
leaving", duration and sequence control are 0.  The expiring link id `k` is
the index of the lowest set bit of the 32-bit payload, and the mapping of that
link is released by one firmware command. -/
theorem inactivity_deauth_frame (cfg : Config) (env : Env) (hw : xradio_common)
    (i data : Nat) (priv : xradio_vif) (entry : xradio_link_entry)
    (hpriv : xrwl_hwpriv_to_vifpriv hw i = some priv)
    (halloc : env.alloc_ok 0 = true)
    (hentry : link_entry_at priv.link_id_db ((ffs (data % 2 ^ 32) : Int) - 1 - 1) =
      some entry) :
    ∃ hw1 frame k,
      xradio_event_handler cfg env { hw with event_queue := [inactivity_event i data] } =
        some hw1 ∧
      hw1.upcalls = hw.upcalls ++ [Upcall.rx_irqsafe priv.if_id frame] ∧
      frame.da = priv.vif_addr.take ETH_ALEN ∧
      frame.sa = entry.mac.take ETH_ALEN ∧
      frame.bssid = priv.vif_addr.take ETH_ALEN ∧
      frame.frame_control =
        IEEE80211_FTYPE_MGMT ||| IEEE80211_STYPE_DEAUTH ||| IEEE80211_FCTL_TODS ∧
      frame.reason_code = WLAN_REASON_DEAUTH_LEAVING ∧
      frame.duration = 0 ∧
      frame.seq_ctrl = 0 ∧
      ffs (data % 2 ^ 32) = k + 1 ∧
      (data % 2 ^ 32).testBit k = true ∧
      (∀ j, j < k → (data % 2 ^ 32).testBit j = false) ∧
      1 ≤ k ∧
      priv.link_id_db[k - 1]? = some entry ∧
      hw1.fw_log = hw.fw_log ++ [WsmCmd.map_link (k : Int) true priv.if_id] := by
  have hpriv0 : xrwl_hwpriv_to_vifpriv { hw with event_queue := [] } i = some priv := hpriv
  have hge : 2 ≤ ffs (data % 2 ^ 32) := by
    by_contra hlt
    have hneg : ((ffs (data % 2 ^ 32) : Int) - 1 - 1) < 0 := by omega
    unfold link_entry_at at hentry
    rw [if_pos hneg] at hentry
    exact absurd hentry (by simp)
  obtain ⟨k, hk⟩ : ∃ k, ffs (data % 2 ^ 32) = k + 1 := ⟨ffs (data % 2 ^ 32) - 1, by omega⟩
  have hspec := ffs_spec (data % 2 ^ 32) k hk
  have hidx : ((ffs (data % 2 ^ 32) : Int) - 1 - 1) = ((k - 1 : Nat) : Int) := by
    rw [hk]
    omega
  have hlink : ((ffs (data % 2 ^ 32) : Int) - 1) = (k : Int) := by
    rw [hk]
    omega
  have hdb : priv.link_id_db[k - 1]? = some entry := by
    rw [hidx] at hentry
    simpa [link_entry_at] using hentry
  refine ⟨set_vif
      { (xrwl_unmap_link env { hw with event_queue := [] } priv
          ((ffs (data % 2 ^ 32) : Int) - 1)) with
        upcalls := hw.upcalls ++ [Upcall.rx_irqsafe priv.if_id
          { duration := 0
            da := priv.vif_addr.take ETH_ALEN
            sa := entry.mac.take ETH_ALEN
            bssid := priv.vif_addr.take ETH_ALEN
            frame_control :=
              IEEE80211_FTYPE_MGMT ||| IEEE80211_STYPE_DEAUTH ||| IEEE80211_FCTL_TODS
            reason_code := WLAN_REASON_DEAUTH_LEAVING
            seq_ctrl := 0 }] } i { priv with set_tim_work := true },
    { duration := 0
      da := priv.vif_addr.take ETH_ALEN
      sa := entry.mac.take ETH_ALEN
      bssid := priv.vif_addr.take ETH_ALEN
      frame_control := IEEE80211_FTYPE_MGMT ||| IEEE80211_STYPE_DEAUTH ||| IEEE80211_FCTL_TODS
      reason_code := WLAN_REASON_DEAUTH_LEAVING
      seq_ctrl := 0 }, k, ?_, ?_, rfl, rfl, rfl, rfl, rfl, rfl, rfl, hk, hspec.1, hspec.2.2,
    by omega, hdb, ?_⟩
  · simp only [xradio_event_handler, handle_events, handle_event, inactivity_event, hpriv0,
      List.length_nil, halloc, Bool.true_eq_false, if_false, hentry]
    rfl
  · rfl
  · simp only [set_vif, xrwl_unmap_link, wsm_cmd]
    rw [hlink]

/-- Witness of C23: payload 4 (link 2) on the example access point, whose
table records `[10, 0, 0, 0, 0, 2]` for link 2. -/
theorem inactivity_deauth_frame_witness :
    ∃ hw1 frame,
      xradio_event_handler cfgX envOk { hwAp with event_queue := [inactivity_event 0 4] } =
        some hw1 ∧
      hw1.upcalls = [Upcall.rx_irqsafe 0 frame] ∧
      frame.da = [2, 0, 0, 0, 0, 1] ∧
      frame.sa = [10, 0, 0, 0, 0, 2] ∧
      frame.bssid = [2, 0, 0, 0, 0, 1] ∧
      frame.frame_control = 448 ∧
      frame.reason_code = 3 ∧
      frame.duration = 0 ∧
      frame.seq_ctrl = 0 := by
  obtain ⟨hw1, frame, k, a, b, c, d, e, f, g, h, l, _⟩ :=
    inactivity_deauth_frame cfgX envOk hwAp 0 4 vifAp { mac := [10, 0, 0, 0, 0, 2] } rfl rfl
      (by decide)
  exact ⟨hw1, frame, a, b, c, d, e, f, g, h, l⟩

/-- C26, evaluation at failing inputs: for the payloads 0 and 1 the index
`link_id - 1` with `link_id = ffs(payload) - 1` is -2 and -1, below the first
entry of the link-id table, and the handler reads the peer entry there (the
model has no result: read outside the table); for payload `2 ^ 31` the index
is 30, beyond the two entries of the example table.  For payload 4 the index
is 1, inside the table. -/
theorem inactivity_index_outside_table :
    xrwl_hwpriv_to_vifpriv hwAp 0 = some vifAp ∧
    vifAp.link_id_db.length = 2 ∧
    (ffs (0 % 2 ^ 32) : Int) - 1 - 1 = -2 ∧
    (ffs (1 % 2 ^ 32) : Int) - 1 - 1 = -1 ∧
    (ffs (2 ^ 31 % 2 ^ 32) : Int) - 1 - 1 = 30 ∧
    (ffs (4 % 2 ^ 32) : Int) - 1 - 1 = 1 ∧
    link_entry_at vifAp.link_id_db (-2) = none ∧
    link_entry_at vifAp.link_id_db (-1) = none ∧
    link_entry_at vifAp.link_id_db 30 = none ∧
    xradio_event_handler cfgX envOk { hwAp with event_queue := [inactivity_event 0 0] } =
      none ∧
    xradio_event_handler cfgX envOk { hwAp with event_queue := [inactivity_event 0 1] } =
      none ∧
    xradio_event_handler cfgX envOk
      { hwAp with event_queue := [inactivity_event 0 (2 ^ 31)] } = none :=
  ⟨rfl, rfl, by decide, by decide, by decide, by decide, rfl, rfl, rfl, by decide, by decide,
    by decide⟩

/-! ## TX gate balance of unjoin -/

/-- The throttle choice leaves the TX gate alone. -/
theorem unjoin_throttle_tx_lock (cfg : Config) (hw : xradio_common) :
    (unjoin_throttle cfg hw).tx_lock = hw.tx_lock := by
  unfold unjoin_throttle; split_ifs <;> rfl

/-- C25: with the TX gate a counter, `xradio_unjoin_work`, entered with the
gate locked by its caller, returns on every path except the fatal assertion
(status `AP` with no scan in progress) and releases the gate exactly once
(count on return = count on entry - 1), except on the path where a scan is in
progress and the delayed-unjoin flag was clear, where it sets the flag and
leaves the gate count as it was.  Hence, starting with the flag clear, after
any number `k >= 1` of lock-then-unjoin requests during one scan the gate
count is one above the count before the first request: one lock stays held
for the deferred unjoin. -/
theorem unjoin_gate_balance (cfg : Config) (env : Env) (hw : xradio_common) (i : Nat)
    (priv : xradio_vif)
    (hpriv : xrwl_hwpriv_to_vifpriv hw i = some priv) :
    ((hw.scan_in_progress = true ∨ priv.join_status ≠ xradio_join_status.AP) →
      ∃ hw1, xradio_unjoin_work cfg env hw i = some hw1) ∧
    (∀ hw1, xradio_unjoin_work cfg env hw i = some hw1 →
      (hw.scan_in_progress = true ∧ priv.delayed_unjoin = 0 →
        hw1.tx_lock = hw.tx_lock ∧
        ∃ priv1, xrwl_hwpriv_to_vifpriv hw1 i = some priv1 ∧ priv1.delayed_unjoin = 1) ∧
      (¬ (hw.scan_in_progress = true ∧ priv.delayed_unjoin = 0) →
        hw1.tx_lock = hw.tx_lock - 1)) ∧
    (hw.scan_in_progress = true → priv.delayed_unjoin = 0 →
      ∀ k, 1 ≤ k → ∃ hwk privk, unjoin_requests cfg env i k hw = some hwk ∧
        hwk.tx_lock = hw.tx_lock + 1 ∧
        xrwl_hwpriv_to_vifpriv hwk i = some privk ∧ privk.delayed_unjoin = 1) := by
  have hlt := lookup_lt hw i priv hpriv
  have hdef : ∀ (h : xradio_common), xrwl_hwpriv_to_vifpriv h i = some priv →
      h.scan_in_progress = true → priv.delayed_unjoin = 0 →
      xradio_unjoin_work cfg env h i = some (set_vif
        { h with connet_time := h.connet_time.set priv.if_id 0, ba_timer := false } i
        { unjoin_prologue_vif cfg priv with delayed_unjoin := 1 }) := by
    intro h hp hs h0
    rw [unjoin_deferred cfg env h i priv hp hs]
    simp [h0]
  refine ⟨?_, ?_, ?_⟩
  · intro hcond
    by_cases hscan : hw.scan_in_progress = true
    · exact ⟨_, unjoin_deferred cfg env hw i priv hpriv hscan⟩
    · have hscan0 : hw.scan_in_progress = false := by simpa using hscan
      have hne : priv.join_status ≠ xradio_join_status.AP := by
        rcases hcond with h | h
        · exact absurd h hscan
        · exact h
      cases hs : priv.join_status with
      | PASSIVE => exact ⟨_, unjoin_passive cfg env hw i priv hpriv hs hscan0⟩
      | MONITOR => exact ⟨_, unjoin_active cfg env hw i priv hpriv (Or.inl hs) hscan0⟩
      | STA => exact ⟨_, unjoin_active cfg env hw i priv hpriv (Or.inr hs) hscan0⟩
      | AP => exact absurd hs hne
  · intro hw1 h1
    by_cases hscan : hw.scan_in_progress = true
    · rw [unjoin_deferred cfg env hw i priv hpriv hscan] at h1
      simp only [Option.some.injEq] at h1
      subst h1
      constructor
      · intro hc
        refine ⟨by simp [hc.2, set_vif],
          { unjoin_prologue_vif cfg priv with delayed_unjoin := 1 }, ?_, rfl⟩
        simp only [hc.2, ne_eq, not_true_eq_false, if_false, id]
        exact lookup_set_vif_lt _ i _ hlt
      · intro hc
        have hflag : priv.delayed_unjoin ≠ 0 := fun h0 => hc ⟨hscan, h0⟩
        simp [hflag, wsm_unlock_tx, set_vif]
    · have hscan0 : hw.scan_in_progress = false := by simpa using hscan
      constructor
      · intro hc
        exact absurd hc.1 hscan
      · intro _
        cases hs : priv.join_status with
        | PASSIVE =>
          rw [unjoin_passive cfg env hw i priv hpriv hs hscan0] at h1
          simp only [Option.some.injEq] at h1
          subst h1
          simp [wsm_unlock_tx, set_vif]
        | MONITOR =>
          rw [unjoin_active cfg env hw i priv hpriv (Or.inl hs) hscan0] at h1
          simp only [Option.some.injEq] at h1
          subst h1
          simp [wsm_unlock_tx, unjoin_throttle_tx_lock, set_vif, unjoin_teardown_hw]
        | STA =>
          rw [unjoin_active cfg env hw i priv hpriv (Or.inr hs) hscan0] at h1
          simp only [Option.some.injEq] at h1
          subst h1
          simp [wsm_unlock_tx, unjoin_throttle_tx_lock, set_vif, unjoin_teardown_hw]
        | AP =>
          simp [xradio_unjoin_work, hpriv, hscan0, hs, xradio_join_status.toNat,
            unjoin_prologue_vif_join_status] at h1
  · intro hscan h0 k hk
    have hpl : xrwl_hwpriv_to_vifpriv (wsm_lock_tx hw) i = some priv := hpriv
    have h1 := hdef (wsm_lock_tx hw) hpl hscan h0
    have hl1 : xrwl_hwpriv_to_vifpriv (set_vif
        { wsm_lock_tx hw with
          connet_time := (wsm_lock_tx hw).connet_time.set priv.if_id 0, ba_timer := false } i
        { unjoin_prologue_vif cfg priv with delayed_unjoin := 1 }) i =
        some { unjoin_prologue_vif cfg priv with delayed_unjoin := 1 } :=
      lookup_set_vif_lt _ i _ hlt
    have hfix := unjoin_deferred_fixpoint cfg env _ i _ hl1 hscan rfl rfl
      (by simp [set_vif, wsm_lock_tx, List.set_set, unjoin_prologue_vif_if_id])
      (by
        have h2 := unjoin_prologue_vif_twice cfg priv
        unfold unjoin_prologue_vif at h2 ⊢
        split_ifs at h2 ⊢
        · simp only [] at h2 ⊢
          congr 1
          omega
        · rfl)
    obtain ⟨n, rfl⟩ : ∃ n, k = n + 1 := ⟨k - 1, by omega⟩
    refine ⟨_, _, ?_, ?_, hl1, rfl⟩
    · simp only [unjoin_requests, h1]
      exact unjoin_requests_fixed cfg env i _ hfix n
    · simp [set_vif, wsm_lock_tx]

/-- Witness of C25 on the associated example device: one request during a
scan keeps the gate count at its entry value and sets the flag, three
requests leave the count one above the count before the first, and with no
scan the unjoin releases the gate once. -/
theorem unjoin_gate_balance_witness :
    (∃ hwk privk, unjoin_requests cfgX envOk 0 3 hwStaScan = some hwk ∧
      hwk.tx_lock = hwStaScan.tx_lock + 1 ∧
      xrwl_hwpriv_to_vifpriv hwk 0 = some privk ∧ privk.delayed_unjoin = 1) ∧
    (∃ hw1, xradio_unjoin_work cfgX envOk hwSta 0 = some hw1 ∧
      hw1.tx_lock = hwSta.tx_lock - 1) := by
  constructor
  · exact (unjoin_gate_balance cfgX envOk hwStaScan 0 vifSta rfl).2.2 rfl rfl 3 (by decide)
  · obtain ⟨hw1, h1⟩ := (unjoin_gate_balance cfgX envOk hwSta 0 vifSta rfl).1
      (Or.inr (by decide))
    exact ⟨hw1, h1, ((unjoin_gate_balance cfgX envOk hwSta 0 vifSta rfl).2.1 hw1 h1).2
      (by decide)⟩

/-! ## Power-save commit: failure of the command -/

/-- Closed form of `xradio_set_pm` over the mode it computes. -/
theorem set_pm_eq (cfg : Config) (env : Env) (hw : xradio_common) (priv : xradio_vif)
    (arg : wsm_set_pm) :
    xradio_set_pm cfg env hw priv arg =
      if pm_computed cfg hw priv arg ≠ priv.firmware_ps_mode then
        (env.wsm_ret hw.fw_log.length,
         { priv with firmware_ps_mode := pm_computed cfg hw priv arg },
         { hw with fw_log := hw.fw_log ++
            [WsmCmd.set_pm (pm_computed cfg hw priv arg) priv.if_id] })
      else (0, priv, hw) := by
  unfold xradio_set_pm pm_computed wsm_cmd
  rfl

/-- Without a debug override the computed mode is the request with the
fast-power-save flag cleared under UAPSD. -/
theorem pm_computed_eq_requested (cfg : Config) (hw : xradio_common) (priv : xradio_vif)
    (arg : wsm_set_pm)
    (hdebug : cfg.CONFIG_XRADIO_DEBUGFS = false ∨ (hw.ps_disable = 0 ∧ hw.ps_idleperiod = 0)) :
    pm_computed cfg hw priv arg = pm_requested cfg priv arg := by
  unfold pm_computed pm_requested
  rcases hdebug with hd | ⟨h1, h2⟩
  · by_cases hu : priv.uapsdFlags = 0 <;> simp [hd, hu]
  · by_cases hu : priv.uapsdFlags = 0 <;> simp [h1, h2, hu]

/-- C29: for every request whose computed mode differs from the last committed
mode, if the firmware set-power-mode command issued by `xradio_set_pm` fails,
the failure is returned, the command is in the log and the computed mode is
recorded as the last committed mode all the same; the identical request made
again right away returns 0, issues no command and changes nothing, whatever
the firmware would answer.  (Without a debug override the computed mode is the
request with the fast-power-save flag cleared under UAPSD.) -/
theorem set_pm_failure_still_recorded (cfg : Config) (env : Env) (hw : xradio_common)
    (priv : xradio_vif) (arg : wsm_set_pm)
    (hdiff : pm_computed cfg hw priv arg ≠ priv.firmware_ps_mode)
    (hfail : env.wsm_ret hw.fw_log.length ≠ 0) :
    (xradio_set_pm cfg env hw priv arg).1 = env.wsm_ret hw.fw_log.length ∧
    (xradio_set_pm cfg env hw priv arg).1 ≠ 0 ∧
    (xradio_set_pm cfg env hw priv arg).2.1.firmware_ps_mode = pm_computed cfg hw priv arg ∧
    (xradio_set_pm cfg env hw priv arg).2.2.fw_log =
      hw.fw_log ++ [WsmCmd.set_pm (pm_computed cfg hw priv arg) priv.if_id] ∧
    (∀ env2 : Env,
      xradio_set_pm cfg env2 (xradio_set_pm cfg env hw priv arg).2.2
          (xradio_set_pm cfg env hw priv arg).2.1 arg =
        (0, (xradio_set_pm cfg env hw priv arg).2.1,
          (xradio_set_pm cfg env hw priv arg).2.2)) ∧
    ((cfg.CONFIG_XRADIO_DEBUGFS = false ∨ (hw.ps_disable = 0 ∧ hw.ps_idleperiod = 0)) →
      pm_computed cfg hw priv arg = pm_requested cfg priv arg) := by
  have h1 := set_pm_eq cfg env hw priv arg
  simp only [hdiff, ne_eq, not_false_eq_true, if_true] at h1
  rw [h1]
  refine ⟨rfl, hfail, rfl, rfl, ?_, pm_computed_eq_requested cfg hw priv arg⟩
  intro env2
  rw [set_pm_eq]
  have hsame : pm_computed cfg
      { hw with fw_log := hw.fw_log ++ [WsmCmd.set_pm (pm_computed cfg hw priv arg) priv.if_id] }
      { priv with firmware_ps_mode := pm_computed cfg hw priv arg } arg =
      pm_computed cfg hw priv arg := rfl
  simp [hsame]

/-- Witness of C29: a power-save request on the example interface whose
command fails; the repeated request is answered with 0 and no command. -/
theorem set_pm_failure_still_recorded_witness :
    xradio_set_pm cfgX envFail hwX vifX pmPs =
      (-1, { vifX with firmware_ps_mode := pmPs },
        { hwX with fw_log := [WsmCmd.set_pm pmPs 0] }) ∧
    xradio_set_pm cfgX envOk { hwX with fw_log := [WsmCmd.set_pm pmPs 0] }
        { vifX with firmware_ps_mode := pmPs } pmPs =
      (0, { vifX with firmware_ps_mode := pmPs },
        { hwX with fw_log := [WsmCmd.set_pm pmPs 0] }) :=
  ⟨rfl,
   (set_pm_failure_still_recorded cfgX envFail hwX vifX pmPs (by decide)
      (by decide)).2.2.2.2.1 envOk⟩

/-! ## Information elements -/

/-- One step of the element walk. -/
theorem ie_elements_succ (buf : List Nat) (len fuel pos : Nat) :
    ie_elements buf len (fuel + 1) pos =
      if pos + 1 < len ∧ pos + 2 + buf.getD (pos + 1) 0 ≤ len
        then pos :: ie_elements buf len fuel (pos + 2 + buf.getD (pos + 1) 0)
        else [] := by
  rw [ie_elements]

/-- One more unit of fuel does not change the walk once the fuel covers the
bytes left. -/
theorem ie_elements_fuel (buf : List Nat) (len : Nat) :
    ∀ fuel pos, 1 ≤ fuel → len + 1 ≤ fuel + pos →
      ie_elements buf len (fuel + 1) pos = ie_elements buf len fuel pos := by
  intro fuel
  induction fuel with
  | zero => intro pos h; omega
  | succ n ih =>
    intro pos _ hf
    rw [ie_elements_succ buf len (n + 1) pos, ie_elements_succ buf len n pos]
    by_cases hc : pos + 1 < len ∧ pos + 2 + buf.getD (pos + 1) 0 ≤ len
    · obtain ⟨hc1, hc2⟩ := hc
      simp only [hc1, hc2, and_self, if_true]
      rw [ih _ (by omega) (by omega)]
    · simp only [hc, if_false]

/-- Every offset of the walk is the start of an element that fits. -/
theorem ie_elements_fit (buf : List Nat) (len : Nat) :
    ∀ fuel pos p, p ∈ ie_elements buf len fuel pos →
      p + 1 < len ∧ p + 2 + buf.getD (p + 1) 0 ≤ len := by
  intro fuel
  induction fuel with
  | zero => intro pos p h; simp [ie_elements] at h
  | succ n ih =>
    intro pos p h
    rw [ie_elements_succ] at h
    by_cases hc : pos + 1 < len ∧ pos + 2 + buf.getD (pos + 1) 0 ≤ len
    · rw [if_pos hc] at h
      rcases List.mem_cons.mp h with h | h
      · subst h
        exact hc
      · exact ih _ p h
    · rw [if_neg hc] at h
      exact absurd h (List.not_mem_nil _)

/-- With enough fuel the loop of `xradio_get_ie` reads inside the buffer only
and returns the first offset of the walk whose id byte is the one looked
for. -/
theorem get_ie_loop_eq (buf : List Nat) (len ie : Nat) (hlen : buf.length = len) :
    ∀ fuel pos, 1 ≤ fuel → len + 1 ≤ fuel + pos →
      get_ie_loop buf len ie fuel pos =
        some ((ie_elements buf len fuel pos).find? (fun p => buf.getD p 0 == ie)) := by
  intro fuel
  induction fuel with
  | zero => intro pos h; omega
  | succ n ih =>
    intro pos _ hf
    rw [get_ie_loop, ie_elements_succ]
    by_cases h1 : pos + 1 < len
    · have hb1 : buf[pos + 1]? = some (buf.getD (pos + 1) 0) := by
        rw [List.getD_eq_getElem?_getD, List.getElem?_eq_getElem (by omega)]
        rfl
      have hb0 : buf[pos]? = some (buf.getD pos 0) := by
        rw [List.getD_eq_getElem?_getD, List.getElem?_eq_getElem (by omega)]
        rfl
      rw [if_pos h1, hb1]
      by_cases h2 : pos + 2 + buf.getD (pos + 1) 0 ≤ len
      · have h2n : ¬ pos + 2 + buf.getD (pos + 1) 0 > len := by omega
        rw [if_pos ⟨h1, h2⟩]
        simp only [h2n, if_false, hb0]
        by_cases h3 : buf.getD pos 0 = ie
        · rw [if_pos h3, List.find?_cons_of_pos _ (by simpa using h3)]
        · rw [if_neg h3, List.find?_cons_of_neg _ (by simpa using h3)]
          exact ih _ (by omega) (by omega)
      · have h2p : pos + 2 + buf.getD (pos + 1) 0 > len := by omega
        rw [if_neg (fun h => h2 h.2)]
        simp only [h2p, if_true]
        rfl
    · rw [if_neg h1, if_neg (fun h => h1 h.1)]
      rfl

/-- Fuel beyond `len + 1` does not change the walk from offset 0. -/
theorem ie_elements_extra_fuel (buf : List Nat) (len d : Nat) :
    ie_elements buf len (len + 1 + d) 0 = ie_elements buf len (len + 1) 0 := by
  induction d with
  | zero => rfl
  | succ d ih =>
    rw [← ih]
    exact ie_elements_fuel buf len (len + 1 + d) 0 (by omega) (by omega)

/-- C28: for every byte buffer of length `len` and every element id,
`xradio_get_ie` terminates without reading a byte at or beyond offset `len`
(the model has a result; `len + 1` iterations, or any larger bound, give the
same one) and returns either `NULL` or an offset `p` with `buffer[p] = id`
whose element fits in the buffer (`p + 2 + buffer[p + 1] <= len`).  The offset
returned is the first one with that id among the elements met when the buffer
is walked from offset 0 as a sequence of (id, length, payload) elements, the
walk stopping at the first element that does not fit; `NULL` is returned when
no element of the walk has the id, and for a `NULL` buffer. -/
theorem get_ie_first_element (buf : List Nat) (len ie : Nat) (hlen : buf.length = len) :
    ∃ r : Option Nat,
      xradio_get_ie (some buf) len ie = some r ∧
      r = (ie_elements buf len (len + 1) 0).find? (fun p => buf.getD p 0 == ie) ∧
      (∀ p, r = some p →
        p ∈ ie_elements buf len (len + 1) 0 ∧
        buf[p]? = some ie ∧ p + 1 < len ∧
        ∃ l, buf[p + 1]? = some l ∧ p + 2 + l ≤ len) ∧
      (∀ d, get_ie_loop buf len ie (len + 1 + d) 0 = some r) ∧
      xradio_get_ie none len ie = some none := by
  have h0 := get_ie_loop_eq buf len ie hlen (len + 1) 0 (by omega) (by omega)
  refine ⟨_, h0, rfl, ?_, ?_, rfl⟩
  · intro p hp
    have hmem := List.mem_of_find?_eq_some hp
    have hid := List.find?_some hp
    obtain ⟨hf1, hf2⟩ := ie_elements_fit buf len _ _ p hmem
    have hb0 : buf[p]? = some (buf.getD p 0) := by
      rw [List.getD_eq_getElem?_getD, List.getElem?_eq_getElem (by omega)]
      rfl
    have hb1 : buf[p + 1]? = some (buf.getD (p + 1) 0) := by
      rw [List.getD_eq_getElem?_getD, List.getElem?_eq_getElem (by omega)]
      rfl
    refine ⟨hmem, ?_, hf1, _, hb1, hf2⟩
    rw [hb0]
    simpa using hid
  · intro d
    rw [get_ie_loop_eq buf len ie hlen (len + 1 + d) 0 (by omega) (by omega),
      ie_elements_extra_fuel]

/-- Witness of C28 on the example buffer: id 5 is found at offset 4, the first
of the two elements with that id; id 9, which only occurs as a stray byte
after the last element, is not found. -/
theorem get_ie_first_element_witness :
    ie_elements ieBuf 10 11 0 = [0, 4, 7] ∧
    xradio_get_ie (some ieBuf) 10 5 = some (some 4) ∧
    xradio_get_ie (some ieBuf) 10 9 = some none ∧
    xradio_get_ie none 10 5 = some none := by
  obtain ⟨r, a, b, _, _, e⟩ := get_ie_first_element ieBuf 10 5 rfl
  obtain ⟨r2, a2, b2, _, _, _⟩ := get_ie_first_element ieBuf 10 9 rfl
  refine ⟨by decide, ?_, ?_, e⟩
  · rw [a, b]
    decide
  · rw [a2, b2]
    decide

/-! ## Remain on channel: the scan gate -/

/-- The loop body of `xradio_remain_on_channel` skips a slot that is empty or
holds an interface with `if_id` 0 or 1. -/
theorem remain_on_channel_vif_skip (cfg : Config) (env : Env) (chan : ieee80211_channel)
    (duration : Int) (st : Int × xradio_common) (i : Nat)
    (h : ∀ p, xrwl_hwpriv_to_vifpriv st.2 i = some p → p.if_id = 0 ∨ p.if_id = 1) :
    remain_on_channel_vif cfg env chan duration st i = st := by
  unfold remain_on_channel_vif
  cases hl : xrwl_hwpriv_to_vifpriv st.2 i with
  | none => rfl
  | some p => simp [h p hl]

/-- What `__xradio_flush` leaves alone. -/
theorem flush_keeps (env : Env) (hw : xradio_common) (k : Nat) :
    (__xradio_flush env hw k).2.scan_lock = hw.scan_lock ∧
    (__xradio_flush env hw k).2.roc_if_id = hw.roc_if_id ∧
    (__xradio_flush env hw k).2.remain_on_channel = hw.remain_on_channel ∧
    (__xradio_flush env hw k).2.rem_chan_timeout = hw.rem_chan_timeout := by
  unfold __xradio_flush
  split_ifs <;> exact ⟨rfl, rfl, rfl, rfl⟩

/-- What `xradio_enable_listening` leaves alone. -/
theorem enable_listening_keeps (cfg : Config) (env : Env) (hw : xradio_common)
    (priv : xradio_vif) (chan : ieee80211_channel) :
    (xradio_enable_listening cfg env hw priv chan).2.2.scan_lock = hw.scan_lock ∧
    (xradio_enable_listening cfg env hw priv chan).2.2.roc_if_id = hw.roc_if_id ∧
    (xradio_enable_listening cfg env hw priv chan).2.2.remain_on_channel =
      hw.remain_on_channel ∧
    (xradio_enable_listening cfg env hw priv chan).2.2.rem_chan_timeout =
      hw.rem_chan_timeout := by
  unfold xradio_enable_listening wsm_cmd
  simp only []
  split_ifs <;> exact ⟨rfl, rfl, rfl, rfl⟩

/-- The loop body of `xradio_remain_on_channel` for a slot that holds an
interface with `if_id` above 1: either the flush fails, the result is 1, the
gate is released and `roc_if_id` is -1, or the result is 0, the gate count is
unchanged, the flag is set, the timeout is queued and `roc_if_id` names the
interface. -/
theorem remain_on_channel_vif_body (cfg : Config) (env : Env) (chan : ieee80211_channel)
    (duration : Int) (st : Int × xradio_common) (i : Nat) (priv : xradio_vif)
    (hl : xrwl_hwpriv_to_vifpriv st.2 i = some priv)
    (hid : ¬ (priv.if_id = 0 ∨ priv.if_id = 1)) :
    ((remain_on_channel_vif cfg env chan duration st i).1 = 1 ∧
      (remain_on_channel_vif cfg env chan duration st i).2.scan_lock = st.2.scan_lock + 1 ∧
      (remain_on_channel_vif cfg env chan duration st i).2.roc_if_id = -1) ∨
    ((remain_on_channel_vif cfg env chan duration st i).1 = 0 ∧
      (remain_on_channel_vif cfg env chan duration st i).2.scan_lock = st.2.scan_lock ∧
      (remain_on_channel_vif cfg env chan duration st i).2.remain_on_channel = 1 ∧
      (remain_on_channel_vif cfg env chan duration st i).2.rem_chan_timeout.isSome = true ∧
      (remain_on_channel_vif cfg env chan duration st i).2.roc_if_id = (priv.if_id : Int)) := by
  have hf := flush_keeps env { st.2 with roc_if_id := (priv.if_id : Int) } priv.if_id
  have he := enable_listening_keeps cfg env
    (__xradio_flush env { st.2 with roc_if_id := (priv.if_id : Int) } priv.if_id).2 priv chan
  unfold remain_on_channel_vif
  simp only [hl, hid, if_false]
  by_cases hret : SYS_WARN
      (__xradio_flush env { st.2 with roc_if_id := (priv.if_id : Int) } priv.if_id).1 = 0
  · right
    simp only [hret, if_true, set_vif]
    refine ⟨trivial, ?_, trivial, ?_, ?_⟩
    · rw [he.1, hf.1]
    · unfold queue_delayed_work
      split <;> rfl
    · rw [he.2.1, hf.2.1]
  · left
    have h1 : SYS_WARN
        (__xradio_flush env { st.2 with roc_if_id := (priv.if_id : Int) } priv.if_id).1 = 1 := by
      unfold SYS_WARN at hret ⊢
      split_ifs at hret ⊢ <;> simp_all
    simp only [hret, if_false, set_vif, scan_up]
    refine ⟨h1, ?_, trivial⟩
    rw [he.1, hf.1]

/-- With three slots, the first two holding nothing or interfaces 0 and 1, and
an interface of the off-channel role in slot 2, `xradio_remain_on_channel`
returns with the scan gate released again (flush failed, result 1) or still
held with the remain-on-channel flag set and the timeout queued (result
0). -/
theorem remain_on_channel_slot2 (cfg : Config) (env : Env) (hw : xradio_common)
    (chan : ieee80211_channel) (duration : Int) (priv : xradio_vif)
    (hmax : cfg.XRWL_MAX_VIFS = 3)
    (hlock : hw.scan_lock ≠ 0)
    (h0 : ∀ p, xrwl_hwpriv_to_vifpriv hw 0 = some p → p.if_id = 0 ∨ p.if_id = 1)
    (h1 : ∀ p, xrwl_hwpriv_to_vifpriv hw 1 = some p → p.if_id = 0 ∨ p.if_id = 1)
    (h2 : xrwl_hwpriv_to_vifpriv hw 2 = some priv)
    (hid : ¬ (priv.if_id = 0 ∨ priv.if_id = 1)) :
    ∃ ret hw1, xradio_remain_on_channel cfg env hw chan duration = some (ret, hw1) ∧
      ((ret = 1 ∧ hw1.scan_lock = hw.scan_lock) ∨
       (ret = 0 ∧ hw1.scan_lock = hw.scan_lock - 1 ∧ hw1.remain_on_channel = 1 ∧
        hw1.rem_chan_timeout.isSome = true ∧ hw1.roc_if_id = (priv.if_id : Int))) := by
  have hd : scan_down hw = some { hw with scan_lock := hw.scan_lock - 1 } := by
    simp [scan_down, hlock]
  have hs0 := remain_on_channel_vif_skip cfg env chan duration
    (0, { hw with scan_lock := hw.scan_lock - 1 }) 0 h0
  have hs1 := remain_on_channel_vif_skip cfg env chan duration
    (0, { hw with scan_lock := hw.scan_lock - 1 }) 1 h1
  have hb := remain_on_channel_vif_body cfg env chan duration
    (0, { hw with scan_lock := hw.scan_lock - 1 }) 2 priv h2 hid
  have hr : List.range 3 = [0, 1, 2] := rfl
  have hform : xradio_remain_on_channel cfg env hw chan duration =
      some ((remain_on_channel_vif cfg env chan duration
          (0, { hw with scan_lock := hw.scan_lock - 1 }) 2).1,
        if (remain_on_channel_vif cfg env chan duration
            (0, { hw with scan_lock := hw.scan_lock - 1 }) 2).2.channel.isNone
          then { (remain_on_channel_vif cfg env chan duration
            (0, { hw with scan_lock := hw.scan_lock - 1 }) 2).2 with channel := some chan }
          else (remain_on_channel_vif cfg env chan duration
            (0, { hw with scan_lock := hw.scan_lock - 1 }) 2).2) := by
    unfold xradio_remain_on_channel
    simp only [hd, hmax, hr, List.foldl_cons, List.foldl_nil, hs0, hs1]
  rw [hform]
  generalize remain_on_channel_vif cfg env chan duration
    (0, { hw with scan_lock := hw.scan_lock - 1 }) 2 = r at hb
  have hpos : hw.scan_lock - 1 + 1 = hw.scan_lock := by omega
  simp only at hb
  refine ⟨_, _, rfl, ?_⟩
  rcases hb with ⟨a, b, _⟩ | ⟨a, b, c, d, e⟩
  · left
    refine ⟨a, ?_⟩
    split_ifs <;> simp [b, hpos]
  · right
    refine ⟨a, ?_, ?_, ?_, ?_⟩ <;> (split_ifs <;> simp [b, c, d, e])

/-- What `xradio_disable_listening` leaves alone in the scan collaborator. -/
theorem disable_listening_scan_lock (cfg : Config) (env : Env) (hw : xradio_common)
    (priv : xradio_vif) :
    (xradio_disable_listening cfg env hw priv).2.2.scan_lock = hw.scan_lock := by
  unfold xradio_disable_listening wsm_cmd
  split_ifs <;> rfl

/-- The handler `xradio_rem_chan_timeout`, run with the remain-on-channel flag
set for an existing interface (and not held back by a restart under
`TES_P2P_0002_ROC_RESTART`), clears the flag and releases the scan gate
once. -/
theorem rem_chan_timeout_releases (cfg : Config) (env : Env) (hw : xradio_common)
    (priv : xradio_vif)
    (hflag : hw.remain_on_channel ≠ 0)
    (htes : ¬ (cfg.TES_P2P_0002_ROC_RESTART = true ∧ hw.TES_P2P_0002_state_get_pktid = true))
    (hroc : 0 ≤ hw.roc_if_id)
    (hpriv : xrwl_hwpriv_to_vifpriv hw hw.roc_if_id.toNat = some priv) :
    ∃ hw1, xradio_rem_chan_timeout cfg env hw = some hw1 ∧
      hw1.scan_lock = hw.scan_lock + 1 ∧ hw1.remain_on_channel = 0 ∧ hw1.roc_if_id = -1 := by
  have hneg : ¬ hw.roc_if_id < 0 := by omega
  have hl : xrwl_hwpriv_to_vifpriv
      { hw with upcalls := hw.upcalls ++ [Upcall.remain_on_channel_expired] }
      hw.roc_if_id.toNat = some priv := hpriv
  have hf := flush_keeps env
    { hw with upcalls := hw.upcalls ++ [Upcall.remain_on_channel_expired] } hw.roc_if_id.toNat
  unfold xradio_rem_chan_timeout
  simp only [htes, hflag, if_false, hneg, hl]
  by_cases hret : SYS_WARN (__xradio_flush env
      { hw with upcalls := hw.upcalls ++ [Upcall.remain_on_channel_expired] }
      hw.roc_if_id.toNat).1 = 0
  · simp only [hret, if_true]
    refine ⟨_, rfl, ?_, rfl, rfl⟩
    simp only [scan_up, set_vif]
    rw [disable_listening_scan_lock, hf.1]
  · simp only [hret, if_false]
    refine ⟨_, rfl, ?_, rfl, rfl⟩
    simp only [scan_up]
    rw [hf.1]

/-- C30, evaluation at the failing input: on the example device, whose only
interface is in slot 0, `xradio_remain_on_channel` takes the scan gate
(count 1 to 0) and returns 0 with the gate held, the remain-on-channel flag
clear and the timeout not queued; the handler, which would release the gate,
is not queued and does nothing when run, so the gate stays held and the next
call sleeps on it.  The same holds on a device with no interface at all.  On
the example device with an interface in slot 2 the call returns with the flag
set and the timeout queued, and the fired handler releases the gate. -/
theorem remain_on_channel_leaks_scan_gate :
    xrwl_hwpriv_to_vifpriv hwX 0 = some vifX ∧
    xrwl_hwpriv_to_vifpriv hwX 1 = none ∧
    xrwl_hwpriv_to_vifpriv hwX 2 = none ∧
    hwX.scan_lock = 1 ∧
    (∃ hw1, xradio_remain_on_channel cfgX envOk hwX chanX 100 = some (0, hw1) ∧
      hw1.scan_lock = 0 ∧ hw1.remain_on_channel = 0 ∧ hw1.rem_chan_timeout = none ∧
      fire_rem_chan_timeout cfgX envOk hw1 = none ∧
      xradio_rem_chan_timeout cfgX envOk hw1 = some hw1 ∧
      xradio_remain_on_channel cfgX envOk hw1 chanX 100 = none) ∧
    (∃ hw1, xradio_remain_on_channel cfgX envOk
        { hwX with vif_list := [none, none, none], num_vifs := 0, if_id_slot := 0 } chanX 100 =
        some (0, hw1) ∧
      hw1.scan_lock = 0 ∧ hw1.remain_on_channel = 0 ∧ hw1.rem_chan_timeout = none) ∧
    (∃ hw2 hw3, xradio_remain_on_channel cfgX envOk hwRoc chanX 100 = some (0, hw2) ∧
      hw2.scan_lock = 0 ∧ hw2.remain_on_channel = 1 ∧ hw2.rem_chan_timeout = some 10 ∧
      fire_rem_chan_timeout cfgX envOk hw2 = some hw3 ∧
      hw3.scan_lock = 1 ∧ hw3.remain_on_channel = 0) :=
  ⟨rfl, rfl, rfl, rfl, ⟨_, rfl, rfl, rfl, rfl, rfl, rfl, rfl⟩, ⟨_, rfl, rfl, rfl, rfl⟩,
    ⟨_, _, rfl, rfl, rfl, rfl, rfl, rfl, rfl⟩⟩

/-! ## Interface removal -/

theorem registry_frame_refl (i : Nat) (hw : xradio_common) : registry_frame i hw hw :=
  ⟨rfl, rfl, rfl, rfl, rfl, rfl, rfl, fun _ _ => rfl⟩

theorem registry_frame_trans (i : Nat) (a b c : xradio_common)
    (h1 : registry_frame i a b) (h2 : registry_frame i b c) : registry_frame i a c := by
  obtain ⟨a1, a2, a3, a4, a5, a6, a8, a7⟩ := h1
  obtain ⟨b1, b2, b3, b4, b5, b6, b8, b7⟩ := h2
  exact ⟨b1.trans a1, b2.trans a2, b3.trans a3, b4.trans a4, b5.trans a5, b6.trans a6,
    b8.trans a8, fun j hj => (b7 j hj).trans (a7 j hj)⟩

/-- A firmware command leaves the registry alone. -/
theorem registry_frame_wsm_cmd (i : Nat) (env : Env) (hw : xradio_common) (c : WsmCmd) :
    registry_frame i hw (wsm_cmd env hw c).2 :=
  ⟨rfl, rfl, rfl, rfl, rfl, rfl, rfl, fun _ _ => rfl⟩

/-- Storing the context of slot `i` leaves the rest of the registry alone. -/
theorem registry_frame_set_vif (i : Nat) (hw : xradio_common) (p : xradio_vif) :
    registry_frame i hw (set_vif hw i p) := by
  refine ⟨rfl, rfl, rfl, rfl, rfl, ?_, rfl, ?_⟩
  · simp [set_vif]
  · intro j hj
    simp [set_vif, List.getElem?_set, Ne.symm hj]

theorem registry_frame_lock (i : Nat) (hw : xradio_common) :
    registry_frame i hw (wsm_lock_tx hw) :=
  ⟨rfl, rfl, rfl, rfl, rfl, rfl, rfl, fun _ _ => rfl⟩

theorem registry_frame_unlock (i : Nat) (hw : xradio_common) :
    registry_frame i hw (wsm_unlock_tx hw) :=
  ⟨rfl, rfl, rfl, rfl, rfl, rfl, rfl, fun _ _ => rfl⟩

theorem registry_frame_flush (i : Nat) (env : Env) (hw : xradio_common) (k : Nat) :
    registry_frame i hw (__xradio_flush env hw k).2 := by
  unfold __xradio_flush
  split_ifs <;> exact ⟨rfl, rfl, rfl, rfl, rfl, rfl, rfl, fun _ _ => rfl⟩

theorem registry_frame_disable_listening (i : Nat) (cfg : Config) (env : Env)
    (hw : xradio_common) (priv : xradio_vif) :
    registry_frame i hw (xradio_disable_listening cfg env hw priv).2.2 := by
  unfold xradio_disable_listening wsm_cmd
  split_ifs <;> exact ⟨rfl, rfl, rfl, rfl, rfl, rfl, rfl, fun _ _ => rfl⟩

theorem registry_frame_throttle (i : Nat) (cfg : Config) (hw : xradio_common) :
    registry_frame i hw (unjoin_throttle cfg hw) := by
  unfold unjoin_throttle
  split_ifs <;> exact ⟨rfl, rfl, rfl, rfl, rfl, rfl, rfl, fun _ _ => rfl⟩

theorem registry_frame_unmap_links (i : Nat) (env : Env) (priv : xradio_vif)
    (hw : xradio_common) : registry_frame i hw (unmap_links env hw priv) := by
  unfold unmap_links
  generalize (List.range 32).filter (fun i => (priv.link_id_map % 2 ^ 32).testBit i) = l
  induction l generalizing hw with
  | nil => exact registry_frame_refl i hw
  | cons k rest ih =>
    exact registry_frame_trans i _ _ _ (registry_frame_wsm_cmd i env hw _) (ih _)

/-- The unjoin of slot `i` leaves the rest of the registry alone. -/
theorem registry_frame_unjoin (cfg : Config) (env : Env) (hw hw1 : xradio_common) (i : Nat)
    (h1 : xradio_unjoin_work cfg env hw i = some hw1) : registry_frame i hw hw1 := by
  cases hl : xrwl_hwpriv_to_vifpriv hw i with
  | none => simp [xradio_unjoin_work, hl] at h1
  | some priv =>
    by_cases hscan : hw.scan_in_progress = true
    · rw [unjoin_deferred cfg env hw i priv hl hscan] at h1
      simp only [Option.some.injEq] at h1
      subst h1
      have hs := registry_frame_set_vif i
        { hw with connet_time := hw.connet_time.set priv.if_id 0, ba_timer := false }
        { unjoin_prologue_vif cfg priv with delayed_unjoin := 1 }
      split_ifs
      · exact registry_frame_trans i _ _ _ hs (registry_frame_unlock i _)
      · exact hs
    · have hscan0 : hw.scan_in_progress = false := by simpa using hscan
      cases hs : priv.join_status with
      | PASSIVE =>
        rw [unjoin_passive cfg env hw i priv hl hs hscan0] at h1
        simp only [Option.some.injEq] at h1
        subst h1
        exact registry_frame_trans i _ _ _
          (registry_frame_set_vif i
            { hw with connet_time := hw.connet_time.set priv.if_id 0, ba_timer := false } _)
          (registry_frame_unlock i _)
      | AP =>
        simp [xradio_unjoin_work, hl, hscan0, hs, xradio_join_status.toNat,
          unjoin_prologue_vif_join_status] at h1
      | MONITOR =>
        rw [unjoin_active cfg env hw i priv hl (Or.inl hs) hscan0] at h1
        simp only [Option.some.injEq] at h1
        subst h1
        exact registry_frame_trans i _ _ _
          (registry_frame_trans i _ _ _
            (registry_frame_set_vif i (unjoin_teardown_hw cfg hw priv) _)
            (registry_frame_throttle i cfg _))
          (registry_frame_unlock i _)
      | STA =>
        rw [unjoin_active cfg env hw i priv hl (Or.inr hs) hscan0] at h1
        simp only [Option.some.injEq] at h1
        subst h1
        exact registry_frame_trans i _ _ _
          (registry_frame_trans i _ _ _
            (registry_frame_set_vif i (unjoin_teardown_hw cfg hw priv) _)
            (registry_frame_throttle i cfg _))
          (registry_frame_unlock i _)

/-- The `switch` of `xradio_remove_interface` leaves the registry alone and
keeps the slot of the context. -/
theorem remove_teardown_keeps (cfg : Config) (env : Env) (hw : xradio_common)
    (priv : xradio_vif) (i : Nat) :
    registry_frame i hw (remove_teardown cfg env hw priv).2 ∧
    (remove_teardown cfg env hw priv).1.if_id = priv.if_id := by
  unfold remove_teardown
  by_cases ha : priv.join_status = xradio_join_status.AP
  · simp only [ha, if_true]
    constructor
    · have h1 := registry_frame_unmap_links i env priv hw
      have h2 := registry_frame_wsm_cmd i env (unmap_links env hw priv)
        (WsmCmd.reset true 0 priv.if_id)
      have h3 := registry_frame_wsm_cmd i env
        (wsm_cmd env (unmap_links env hw priv) (WsmCmd.reset true 0 priv.if_id)).2
        (WsmCmd.set_operational_mode true true priv.if_id)
      have h123 := registry_frame_trans i _ _ _ (registry_frame_trans i _ _ _ h1 h2) h3
      split_ifs
      · exact registry_frame_trans i _ _ _ h123 ⟨rfl, rfl, rfl, rfl, rfl, rfl, rfl, fun _ _ => rfl⟩
      · exact registry_frame_trans i _ _ _ h123 ⟨rfl, rfl, rfl, rfl, rfl, rfl, rfl, fun _ _ => rfl⟩
    · trivial
  · by_cases hm : priv.join_status = xradio_join_status.MONITOR
    · simp only [ha, hm, if_false, if_true]
      refine ⟨registry_frame_disable_listening i cfg env hw priv, ?_⟩
      rw [(disable_listening_keeps cfg env hw priv).2.2.2.2]
      split_ifs <;> rfl
    · simp only [ha, hm, if_false]
      exact ⟨registry_frame_refl i hw, trivial⟩

/-- Clearing bit `k` of the slot bitmap. -/
theorem clear_bit_testBit (x k j : Nat) :
    (x ^^^ (x &&& 2 ^ k)).testBit j = (if j = k then false else x.testBit j) := by
  rw [Nat.testBit_xor, Nat.testBit_and, Nat.testBit_two_pow]
  by_cases h : j = k
  · subst h
    simp
  · have h2 : ¬ k = j := fun e => h e.symm
    simp [h, h2]

/-- The tail of `xradio_remove_interface` for a context registered in its own
slot. -/
theorem remove_unlink_spec (env : Env) (hw : xradio_common) (i : Nat) (priv : xradio_vif)
    (hid : priv.if_id = i) :
    (remove_unlink env hw i priv).2.num_vifs = hw.num_vifs - 1 ∧
    (remove_unlink env hw i priv).2.vif_list = hw.vif_list.set i none ∧
    (remove_unlink env hw i priv).2.if_id_slot = hw.if_id_slot ^^^ (hw.if_id_slot &&& 2 ^ i) ∧
    (remove_unlink env hw i priv).2.keys =
      (if hw.num_vifs - 1 = 0 then hw.keys.map (fun _ => none) else hw.keys) ∧
    (remove_unlink env hw i priv).2.mac_addr =
      (if hw.num_vifs - 1 = 0 then memset0 hw.mac_addr else hw.mac_addr) ∧
    (remove_unlink env hw i priv).2.scan_lock = hw.scan_lock + 1 ∧
    (remove_unlink env hw i priv).1.join_status = xradio_join_status.PASSIVE ∧
    (∃ p, (remove_unlink env hw i priv).1 = vif_memset0 p) := by
  have hf : ∀ h : xradio_common, (__xradio_flush env h i).2.vif_list = h.vif_list ∧
      (__xradio_flush env h i).2.num_vifs = h.num_vifs ∧
      (__xradio_flush env h i).2.if_id_slot = h.if_id_slot ∧
      (__xradio_flush env h i).2.keys = h.keys ∧
      (__xradio_flush env h i).2.mac_addr = h.mac_addr ∧
      (__xradio_flush env h i).2.scan_lock = h.scan_lock := by
    intro h
    unfold __xradio_flush
    split_ifs <;> exact ⟨rfl, rfl, rfl, rfl, rfl, rfl⟩
  obtain ⟨f1, f2, f3, f4, f5, f6⟩ := hf hw
  unfold remove_unlink remove_release remove_unregister remove_go_neg
  simp only [hid, if_true, set_vif, wsm_unlock_tx, scan_up, xradio_free_keys]
  by_cases h0 : hw.num_vifs - 1 = 0
  · refine ⟨?_, ?_, ?_, ?_, ?_, ?_, rfl, ⟨_, rfl⟩⟩ <;>
      (split_ifs <;> simp_all [List.set_set])
  · refine ⟨?_, ?_, ?_, ?_, ?_, ?_, rfl, ⟨_, rfl⟩⟩ <;>
      (split_ifs <;> simp_all [List.set_set])

/-- The unjoin run by `xradio_remove_interface` for a station interface. -/
theorem remove_interface_unjoin (cfg : Config) (env : Env) (hw : xradio_common) (i : Nat)
    (p : xradio_vif)
    (hlen : i < hw.vif_list.length)
    (hsta : p.join_status = xradio_join_status.STA) :
    ∃ hwU privU,
      xradio_unjoin_work cfg env (wsm_lock_tx (set_vif hw i p)) i = some hwU ∧
      xrwl_hwpriv_to_vifpriv hwU i = some privU ∧
      privU.if_id = p.if_id ∧
      registry_frame i hw hwU := by
  have hl2 := lookup_set_vif_lt hw i p hlen
  obtain ⟨hwU, privU, a, b, _, _, _, e, _⟩ := unjoin_before_join cfg env (set_vif hw i p) i p
    hl2 (by simp [hsta]) (Or.inl (by simp [hsta]))
  refine ⟨hwU, privU, a, b, e, ?_⟩
  exact registry_frame_trans i _ _ _
    (registry_frame_trans i _ _ _ (registry_frame_set_vif i hw _) (registry_frame_lock i _))
    (registry_frame_unjoin cfg env _ hwU i a)

/-- The first part of `xradio_remove_interface`, up to the `switch`: the scan
gate is taken, a station interface is unjoined, and the context is still
registered in slot `i` with its slot number; the rest of the registry is as
it was after the gate was taken. -/
theorem remove_interface_prefix (cfg : Config) (env : Env) (hw : xradio_common) (i : Nat)
    (priv : xradio_vif)
    (hpriv : xrwl_hwpriv_to_vifpriv hw i = some priv) :
    ∃ hwP privP,
      (if priv.join_status = xradio_join_status.STA then
          xradio_unjoin_work cfg env (wsm_lock_tx (set_vif
            (if priv.delayed_unjoin ≠ 0
              then wsm_unlock_tx (set_vif { hw with scan_lock := hw.scan_lock - 1 } i
                { priv with enabled := 0 })
              else set_vif { hw with scan_lock := hw.scan_lock - 1 } i
                { priv with enabled := 0 }) i
            { priv with enabled := 0, delayed_unjoin := 0 })) i
        else some (set_vif { hw with scan_lock := hw.scan_lock - 1 } i
          { priv with enabled := 0 })) = some hwP ∧
      xrwl_hwpriv_to_vifpriv hwP i = some privP ∧
      privP.if_id = priv.if_id ∧
      registry_frame i { hw with scan_lock := hw.scan_lock - 1 } hwP := by
  have hlt := lookup_lt hw i priv hpriv
  have hf0 := registry_frame_set_vif i { hw with scan_lock := hw.scan_lock - 1 }
    { priv with enabled := 0 }
  by_cases hsta : priv.join_status = xradio_join_status.STA
  · rw [if_pos hsta]
    have hf1 : registry_frame i { hw with scan_lock := hw.scan_lock - 1 }
        (if priv.delayed_unjoin ≠ 0
          then wsm_unlock_tx (set_vif { hw with scan_lock := hw.scan_lock - 1 } i
            { priv with enabled := 0 })
          else set_vif { hw with scan_lock := hw.scan_lock - 1 } i
            { priv with enabled := 0 }) := by
      split_ifs
      · exact registry_frame_trans i _ _ _ hf0 (registry_frame_unlock i _)
      · exact hf0
    have hlen : i < (if priv.delayed_unjoin ≠ 0
          then wsm_unlock_tx (set_vif { hw with scan_lock := hw.scan_lock - 1 } i
            { priv with enabled := 0 })
          else set_vif { hw with scan_lock := hw.scan_lock - 1 } i
            { priv with enabled := 0 }).vif_list.length := by
      rw [hf1.2.2.2.2.2.1]
      exact hlt
    obtain ⟨hwU, privU, a, b, e, f⟩ := remove_interface_unjoin cfg env _ i
      { priv with enabled := 0, delayed_unjoin := 0 } hlen hsta
    exact ⟨hwU, privU, a, b, e, registry_frame_trans i _ _ _ hf1 f⟩
  · rw [if_neg hsta]
    exact ⟨_, _, rfl, lookup_set_vif_lt _ i _ hlt, rfl, hf0⟩

/-- Closed form of `xradio_remove_interface` for an interface registered in
its slot, with the scan gate free: the call returns what `remove_unlink`
gives for a device `hwA` whose registry outside slot `i` is the one found
after the gate was taken. -/
theorem remove_interface_form (cfg : Config) (env : Env) (hw : xradio_common)
    (i : Nat) (priv : xradio_vif)
    (hpriv : xrwl_hwpriv_to_vifpriv hw i = some priv)
    (hid : priv.if_id = i)
    (hgate : hw.scan_lock ≠ 0) :
    ∃ hwA privA,
      xradio_remove_interface cfg env hw i = some (remove_unlink env hwA i privA) ∧
      privA.if_id = i ∧
      registry_frame i { hw with scan_lock := hw.scan_lock - 1 } hwA := by
  have hd : scan_down hw = some { hw with scan_lock := hw.scan_lock - 1 } := by
    simp [scan_down, hgate]
  obtain ⟨hwP, privP, hpre, hlP, hidP, hfP⟩ := remove_interface_prefix cfg env hw i priv hpriv
  have ht := remove_teardown_keeps cfg env (wsm_lock_tx hwP) privP i
  have hidT : (remove_teardown cfg env (wsm_lock_tx hwP) privP).1.if_id = i := by
    rw [ht.2, hidP, hid]
  have hfA : registry_frame i { hw with scan_lock := hw.scan_lock - 1 }
      (set_vif (remove_teardown cfg env (wsm_lock_tx hwP) privP).2 i
        (remove_teardown cfg env (wsm_lock_tx hwP) privP).1) :=
    registry_frame_trans i _ _ _
      (registry_frame_trans i _ _ _
        (registry_frame_trans i _ _ _ hfP (registry_frame_lock i hwP)) ht.1)
      (registry_frame_set_vif i _ _)
  refine ⟨_, _, ?_, hidT, hfA⟩
  unfold xradio_remove_interface
  simp only [hpriv, hd]
  rw [hpre]
  simp only [hlP]

/-- C22: for every call of `xradio_remove_interface` for an interface
registered in its slot, with the scan gate free, the active-interface count
afterwards is the count before minus one, the table entry of the slot is empty
and its bitmap bit is clear (the other entries and bits are as before), and
the join status of the interface is `PASSIVE`.  When the new count is 0 all
key slots are released and the shared hardware address is all zero; otherwise
the key table and the hardware address are unchanged.  The scan gate is
released again.  The interface context handed back is reset: every scalar
field of the driver context is 0 (BSS-loss status `NONE`, slot 0, not
enabled), every flag is clear, every work and timer is idle and every byte
array is all zero. -/
theorem remove_interface_unregisters (cfg : Config) (env : Env) (hw : xradio_common)
    (i : Nat) (priv : xradio_vif)
    (hpriv : xrwl_hwpriv_to_vifpriv hw i = some priv)
    (hid : priv.if_id = i)
    (hgate : hw.scan_lock ≠ 0) :
    ∃ priv1 hw1,
      xradio_remove_interface cfg env hw i = some (priv1, hw1) ∧
      hw1.num_vifs = hw.num_vifs - 1 ∧
      hw1.vif_list[i]? = some none ∧
      xrwl_hwpriv_to_vifpriv hw1 i = none ∧
      hw1.if_id_slot.testBit i = false ∧
      (∀ j, j ≠ i → hw1.if_id_slot.testBit j = hw.if_id_slot.testBit j ∧
        hw1.vif_list[j]? = hw.vif_list[j]?) ∧
      priv1.join_status = xradio_join_status.PASSIVE ∧
      (hw1.num_vifs = 0 →
        (∀ k ∈ hw1.keys, k = none) ∧ hw1.keys.length = hw.keys.length ∧
        (∀ b ∈ hw1.mac_addr, b = 0)) ∧
      (hw1.num_vifs ≠ 0 → hw1.keys = hw.keys ∧ hw1.mac_addr = hw.mac_addr) ∧
      hw1.scan_lock = hw.scan_lock ∧
      priv1.bss_loss_status = xradio_bss_loss_status.NONE ∧
      priv1.if_id = 0 ∧ priv1.mode = 0 ∧ priv1.join_dtim_period = 0 ∧ priv1.cipherType = 0 ∧
      priv1.user_pm_mode = 0 ∧ priv1.uapsdFlags = 0 ∧ priv1.delayed_link_loss = 0 ∧
      priv1.delayed_unjoin = 0 ∧ priv1.cqm_rssi_thold = 0 ∧ priv1.cqm_link_loss_count = 0 ∧
      priv1.cqm_beacon_loss_count = 0 ∧ priv1.ht_compat_det = 0 ∧ priv1.ht_compat_cnt = 0 ∧
      priv1.filter4_enable = 0 ∧ priv1.filter6_enable = 0 ∧ priv1.bf_control_bcn_count = 0 ∧
      priv1.enabled = 0 ∧ priv1.wep_default_key_id = 0 ∧ priv1.power_set_true = 0 ∧
      priv1.user_power_set_true = 0 ∧ priv1.beacon_int = 0 ∧ priv1.listen_interval = 0 ∧
      priv1.ssid_length = 0 ∧ priv1.link_id_map = 0 ∧ priv1.sta_asleep_mask = 0 ∧
      priv1.pspoll_mask = 0 ∧
      priv1.htcap = false ∧ priv1.disable_beacon_filter = false ∧
      priv1.setbssparams_done = false ∧ priv1.update_filtering_work = false ∧
      priv1.set_beacon_wakeup_period_work = false ∧ priv1.set_tim_work = false ∧
      priv1.cqm_use_rssi = false ∧ priv1.rx_filter_bssid = false ∧
      priv1.enable_beacon = false ∧ priv1.tx_multicast = false ∧ priv1.aid0_bit_set = false ∧
      priv1.buffered_multicasts = false ∧ priv1.listening = false ∧
      priv1.mcast_timeout = false ∧
      priv1.bss_loss_work = none ∧ priv1.connection_loss_work = none ∧
      priv1.join_timeout = none ∧ priv1.link_id_gc_work = none ∧ priv1.set_cts_work = none ∧
      priv1.pending_offchanneltx_work = none ∧
      priv1.firmware_ps_mode =
        { pmMode := 0, fastPsmIdlePeriod := 0, apPsmChangePeriod := 0,
          minAutoPsPollPeriod := 0 } ∧
      priv1.powersave_mode =
        { pmMode := 0, fastPsmIdlePeriod := 0, apPsmChangePeriod := 0,
          minAutoPsPollPeriod := 0 } ∧
      (∀ b ∈ priv1.join_bssid, b = 0) ∧ (∀ b ∈ priv1.association_mode, b = 0) ∧
      (∀ b ∈ priv1.bss_params, b = 0) ∧ (∀ b ∈ priv1.bssid, b = 0) ∧
      (∀ b ∈ priv1.ssid, b = 0) ∧
      (∀ e ∈ priv1.link_id_db, ∀ b ∈ e.mac, b = 0) := by
  have hlt := lookup_lt hw i priv hpriv
  obtain ⟨hwA, privA, hform, hidA, hfA⟩ := remove_interface_form cfg env hw i priv hpriv hid
    hgate
  have hu := remove_unlink_spec env hwA i privA hidA
  obtain ⟨a1, a2, a3, a4, a5, a6, a8, a7⟩ := hfA
  obtain ⟨u1, u2, u3, u4, u5, u6, u7, u8⟩ := hu
  have hltA : i < hwA.vif_list.length := by rw [a6]; exact hlt
  have hpos : hw.scan_lock - 1 + 1 = hw.scan_lock := by omega
  obtain ⟨pz, hpz⟩ := u8
  refine ⟨(remove_unlink env hwA i privA).1, (remove_unlink env hwA i privA).2, hform,
    ?_, ?_, ?_, ?_, ?_, u7, ?_, ?_, ?_, ?_⟩
  · rw [u1, a1]
  · rw [u2]
    simp [hltA]
  · unfold xrwl_hwpriv_to_vifpriv
    rw [u2]
    simp [hltA]
  · rw [u3, clear_bit_testBit]
    simp
  · intro j hj
    constructor
    · rw [u3, clear_bit_testBit, a2]
      simp [hj]
    · rw [u2, List.getElem?_set_ne (Ne.symm hj)]
      exact a7 j hj
  · intro h0
    rw [u1] at h0
    rw [u4, u5]
    simp only [h0, if_true]
    refine ⟨?_, ?_, ?_⟩
    · intro k hk
      simp at hk
      exact hk.2
    · simp [a3]
    · intro b hb
      simp [memset0] at hb
      exact hb.2
  · intro h0
    rw [u1] at h0
    rw [u4, u5]
    simp only [h0, if_false]
    exact ⟨a3, a4⟩
  · rw [u6, a5]
    exact hpos
  · rw [hpz]
    simp [vif_memset0, memset0]

/-- Witness of C22: the associated example interface is removed from slot 0
as the last interface (keys released, hardware address zeroed), and the
slot-2 interface is removed from a device that keeps the interface of slot 0
(keys and hardware address unchanged). -/
theorem remove_interface_unregisters_witness :
    (∃ priv1 hw1,
      xradio_remove_interface cfgX envOk
        { hwSta with keys := [some { type := wsm_key_type.AES_GROUP, entryIndex := 0,
                                     body := wsm_key_body.blank }, none] } 0 =
        some (priv1, hw1) ∧
      hw1.num_vifs = 0 ∧ hw1.vif_list = [none, none, none] ∧ hw1.if_id_slot = 0 ∧
      priv1.join_status = xradio_join_status.PASSIVE ∧
      hw1.keys = [none, none] ∧ hw1.mac_addr = [0, 0, 0, 0, 0, 0] ∧ hw1.scan_lock = 1) ∧
    (∃ priv1 hw1,
      xradio_remove_interface cfgX envOk hwRoc 2 = some (priv1, hw1) ∧
      hw1.num_vifs = 1 ∧ hw1.vif_list[2]? = some none ∧ hw1.if_id_slot.testBit 2 = false ∧
      hw1.keys = hwRoc.keys ∧ hw1.mac_addr = hwRoc.mac_addr) := by
  constructor
  · exact ⟨_, _, rfl, rfl, rfl, rfl, rfl, rfl, rfl, rfl⟩
  · obtain ⟨priv1, hw1, a, b, c, _, d, _, _, _, e, _⟩ :=
      remove_interface_unregisters cfgX envOk hwRoc 2 vifRoc rfl rfl (by decide)
    have hb : hw1.num_vifs = 1 := b
    exact ⟨priv1, hw1, a, hb, c, d, (e (by rw [hb]; decide)).1, (e (by rw [hb]; decide)).2⟩

/-! ## Sequences of registrations and removals -/

/-- Counting over a range two predicates that differ at one index only. -/
theorem countP_range_flip (p q : Nat → Bool) (n k : Nat) (hk : k < n)
    (hne : ∀ j, j ≠ k → q j = p j) (hp : p k = false) (hq : q k = true) :
    (List.range n).countP q = (List.range n).countP p + 1 := by
  induction n with
  | zero => omega
  | succ n ih =>
    rw [List.range_succ, List.countP_append, List.countP_append]
    by_cases hkn : k = n
    · subst hkn
      have hsame : (List.range k).countP q = (List.range k).countP p := by
        apply List.countP_congr
        intro j hj
        have hjk : j ≠ k := by
          have := List.mem_range.mp hj
          omega
        rw [hne j hjk]
      rw [hsame]
      simp [List.countP_cons, hp, hq]
    · have hlt : k < n := by omega
      rw [ih hlt]
      have hn : q n = p n := hne n (Ne.symm hkn)
      simp only [List.countP_cons, List.countP_nil, hn]
      omega

/-- The scan gate and the length of the interface table are left alone by
`xradio_vif_setup` and `xradio_setup_mac_pvif`. -/
theorem vif_setup_gate (cfg : Config) (env : Env) (hw : xradio_common) (priv : xradio_vif) :
    (xradio_vif_setup cfg env hw priv).2.2.scan_lock = hw.scan_lock ∧
    (xradio_setup_mac_pvif cfg env hw priv).2.2.scan_lock = hw.scan_lock := by
  constructor
  · unfold xradio_vif_setup xradio_set_uapsd_param wsm_cmd
    simp only []
    split_ifs <;> simp
  · unfold xradio_setup_mac_pvif wsm_cmd
    simp only []

/-- What a chosen slot says about the call: the driver is ready, the counter
is below `XRWL_MAX_VIFS` and the slot search gave that slot. -/
theorem add_slot_some (cfg : Config) (hw : xradio_common) (priv : xradio_vif) (k : Nat)
    (hs : add_slot cfg hw priv = some k) :
    hw.driver_ready = true ∧ hw.num_vifs < (cfg.XRWL_MAX_VIFS : Int) ∧
    (if cfg.P2P_MULTIVIF then some (match_address_multivif hw
        { priv with enabled := 0, mode := priv.vif_type })
      else match_address cfg hw priv.vif_addr) = some k := by
  unfold add_slot at hs
  by_cases hready : hw.driver_ready = false
  · rw [if_pos hready] at hs
    exact absurd hs (by simp)
  · rw [if_neg hready] at hs
    by_cases hroom : hw.num_vifs < (cfg.XRWL_MAX_VIFS : Int)
    · rw [if_pos hroom] at hs
      exact ⟨by simpa using hready, hroom, hs⟩
    · rw [if_neg hroom] at hs
      exact absurd hs (by simp)

/-- Closed form of `xradio_add_interface` once slot `k` is chosen. -/
theorem add_interface_form (cfg : Config) (env : Env) (hw : xradio_common)
    (priv : xradio_vif) (k : Nat)
    (hready : hw.driver_ready = true)
    (hroom : hw.num_vifs < (cfg.XRWL_MAX_VIFS : Int))
    (hslot : (if cfg.P2P_MULTIVIF then some (match_address_multivif hw
        { priv with enabled := 0, mode := priv.vif_type })
      else match_address cfg hw priv.vif_addr) = some k) :
    xradio_add_interface cfg env hw priv =
      (let priv1 : xradio_vif := { priv with enabled := 0, mode := priv.vif_type, if_id := k }
       let hw1 : xradio_common :=
         { hw with
           if_id_slot := hw.if_id_slot ||| 2 ^ k
           vif_list := hw.vif_list.set k (some priv1)
           num_vifs := hw.num_vifs + 1
           mac_addr := bytes_at priv.vif_addr 0 ETH_ALEN }
       let v := xradio_vif_setup cfg env hw1 priv1
       let m := xradio_setup_mac_pvif cfg env v.2.2 v.2.1
       (SYS_WARN m.1, m.2.1, set_vif m.2.2 m.2.1.if_id m.2.1)) := by
  have hnot : ¬ (cfg.P2P_MULTIVIF = false ∧ hw.num_vifs ≥ (cfg.XRWL_MAX_VIFS : Int)) := by
    intro h
    omega
  unfold xradio_add_interface
  simp only [hnot, hready, hroom, if_false, if_true, Bool.true_eq_false]
  rw [hslot]
  rfl

/-- When `xradio_add_interface` registers nothing the device is as before. -/
theorem add_interface_unregistered (cfg : Config) (env : Env) (hw : xradio_common)
    (priv : xradio_vif) (hnone : add_slot cfg hw priv = none) :
    (xradio_add_interface cfg env hw priv).2.2 = hw := by
  unfold add_slot at hnone
  unfold xradio_add_interface
  by_cases hready : hw.driver_ready = false
  · split_ifs <;> rfl
  · by_cases hroom : hw.num_vifs < (cfg.XRWL_MAX_VIFS : Int)
    · rw [if_neg hready, if_pos hroom] at hnone
      have h1 : ¬ (cfg.P2P_MULTIVIF = false ∧ hw.num_vifs ≥ (cfg.XRWL_MAX_VIFS : Int)) := by
        intro h
        omega
      rw [if_neg h1, if_neg hready]
      simp only [hroom, if_true]
      rw [hnone]
    · split_ifs <;> rfl

/-- The call `xradio_add_interface` leaves the scan gate and the length of the
interface table as they were. -/
theorem add_interface_gate (cfg : Config) (env : Env) (hw : xradio_common)
    (priv : xradio_vif) :
    (xradio_add_interface cfg env hw priv).2.2.scan_lock = hw.scan_lock ∧
    (xradio_add_interface cfg env hw priv).2.2.vif_list.length = hw.vif_list.length := by
  cases hs : add_slot cfg hw priv with
  | none =>
    rw [add_interface_unregistered cfg env hw priv hs]
    exact ⟨rfl, rfl⟩
  | some k =>
    obtain ⟨hready, hroom, hslot⟩ := add_slot_some cfg hw priv k hs
    rw [add_interface_form cfg env hw priv k hready hroom hslot]
    simp only [set_vif]
    rw [(vif_setup_gate cfg env _ _).2, (vif_setup_gate cfg env _ _).1,
      (setup_mac_pvif_keeps cfg env _ _).1, (vif_setup_keeps cfg env _ _).1]
    simp

/-- The empty registry is consistent. -/
theorem registry_ok_empty (cfg : Config) (hw : xradio_common)
    (hlist : hw.vif_list = List.replicate cfg.XRWL_MAX_VIFS none)
    (hnum : hw.num_vifs = 0) (hslot : hw.if_id_slot = 0) (hgate : hw.scan_lock ≠ 0) :
    registry_ok cfg hw := by
  have hnone : ∀ k, xrwl_hwpriv_to_vifpriv hw k = none := by
    intro k
    unfold xrwl_hwpriv_to_vifpriv
    rw [hlist]
    by_cases hk : k < cfg.XRWL_MAX_VIFS
    · simp [List.getElem?_replicate, hk]
    · simp [List.getElem?_replicate, hk]
  refine ⟨?_, ?_, ?_, ?_, hgate⟩
  · rw [hlist]
    simp
  · intro k p hp
    rw [hnone k] at hp
    exact absurd hp (by simp)
  · intro k
    rw [hslot, hnone k]
    simp
  · rw [hnum]
    unfold table_entries
    simp [hnone]

/-- A registration in a free slot below `XRWL_MAX_VIFS`, or a call that
registers nothing, keeps the registry consistent. -/
theorem add_interface_registry_ok (cfg : Config) (env : Env) (hw : xradio_common)
    (priv : xradio_vif) (hok : registry_ok cfg hw)
    (hfree : ∀ k, add_slot cfg hw priv = some k →
      k < cfg.XRWL_MAX_VIFS ∧ xrwl_hwpriv_to_vifpriv hw k = none) :
    registry_ok cfg (xradio_add_interface cfg env hw priv).2.2 := by
  cases hs : add_slot cfg hw priv with
  | none =>
    rw [add_interface_unregistered cfg env hw priv hs]
    exact hok
  | some k =>
    obtain ⟨hready, hroom, hslot⟩ := add_slot_some cfg hw priv k hs
    obtain ⟨hkmax, hempty⟩ := hfree k hs
    obtain ⟨o1, o2, o3, o4, o5⟩ := hok
    have hk : k < hw.vif_list.length := by rw [o1]; exact hkmax
    obtain ⟨r1, r2, r3, r4, _, r6⟩ := add_interface_registered cfg env hw priv k hready hroom
      hslot hk
    obtain ⟨g1, g2⟩ := add_interface_gate cfg env hw priv
    refine ⟨?_, ?_, ?_, ?_, ?_⟩
    · rw [g2, o1]
    · intro j p hp
      by_cases hj : j = k
      · subst hj
        rw [r3] at hp
        cases hp
        exact r4
      · rw [r6 j hj] at hp
        exact o2 j p hp
    · intro j
      rw [r2, Nat.testBit_or]
      by_cases hj : j = k
      · subst hj
        rw [r3]
        simp [Nat.testBit_two_pow_self]
      · rw [r6 j hj, o3 j, Nat.testBit_two_pow_of_ne (Ne.symm hj)]
        simp
    · rw [r1, o4]
      unfold table_entries
      rw [countP_range_flip (fun j => (xrwl_hwpriv_to_vifpriv hw j).isSome)
        (fun j => (xrwl_hwpriv_to_vifpriv (xradio_add_interface cfg env hw priv).2.2 j).isSome)
        cfg.XRWL_MAX_VIFS k hkmax]
      · push_cast
        rfl
      · intro j hj
        show _ = _
        rw [r6 j hj]
      · show _ = _
        rw [hempty]
        rfl
      · show _ = _
        rw [r3]
        rfl
    · rw [g1]
      exact o5

/-- The removal of a registered interface keeps the registry consistent, and
the call returns. -/
theorem remove_interface_registry_ok (cfg : Config) (env : Env) (hw : xradio_common)
    (i : Nat) (hok : registry_ok cfg hw)
    (hsome : (xrwl_hwpriv_to_vifpriv hw i).isSome = true) :
    ∃ r, xradio_remove_interface cfg env hw i = some r ∧ registry_ok cfg r.2 ∧
      r.2.addresses = hw.addresses ∧
      (∀ j, j ≠ i → xrwl_hwpriv_to_vifpriv r.2 j = xrwl_hwpriv_to_vifpriv hw j) ∧
      xrwl_hwpriv_to_vifpriv r.2 i = none := by
  obtain ⟨o1, o2, o3, o4, o5⟩ := hok
  obtain ⟨priv, hpriv⟩ := Option.isSome_iff_exists.mp hsome
  have hid := o2 i priv hpriv
  have hlt := lookup_lt hw i priv hpriv
  obtain ⟨hwA, privA, hform, hidA, hfA⟩ := remove_interface_form cfg env hw i priv hpriv hid o5
  obtain ⟨u1, u2, u3, u4, u5, u6, u7, u8⟩ := remove_unlink_spec env hwA i privA hidA
  have u9 : (remove_unlink env hwA i privA).2.addresses = hwA.addresses := by
    have hf : (__xradio_flush env hwA privA.if_id).2.addresses = hwA.addresses :=
      (registry_frame_flush 0 env hwA privA.if_id).2.2.2.2.2.2.1
    unfold remove_unlink remove_release remove_unregister remove_go_neg
    simp only [set_vif, wsm_unlock_tx, scan_up, xradio_free_keys]
    split_ifs <;> exact hf
  obtain ⟨a1, a2, a3, a4, a5, a6, a8, a7⟩ := hfA
  have hltA : i < hwA.vif_list.length := by rw [a6]; exact hlt
  have hother : ∀ j, j ≠ i → xrwl_hwpriv_to_vifpriv (remove_unlink env hwA i privA).2 j =
      xrwl_hwpriv_to_vifpriv hw j := by
    intro j hj
    unfold xrwl_hwpriv_to_vifpriv
    rw [u2, List.getElem?_set_ne (Ne.symm hj), a7 j hj]
  have hself : xrwl_hwpriv_to_vifpriv (remove_unlink env hwA i privA).2 i = none := by
    unfold xrwl_hwpriv_to_vifpriv
    rw [u2]
    simp [hltA]
  have haddr : (remove_unlink env hwA i privA).2.addresses = hw.addresses := by
    rw [u9, a8]
  refine ⟨remove_unlink env hwA i privA, hform, ⟨?_, ?_, ?_, ?_, ?_⟩, haddr, hother, hself⟩
  · rw [u2, List.length_set, a6, o1]
  · intro j p hp
    by_cases hj : j = i
    · subst hj
      rw [hself] at hp
      exact absurd hp (by simp)
    · rw [hother j hj] at hp
      exact o2 j p hp
  · intro j
    rw [u3, clear_bit_testBit, a2]
    by_cases hj : j = i
    · subst hj
      rw [hself]
      simp
    · rw [hother j hj, o3 j]
      simp [hj]
  · rw [u1, a1, o4]
    unfold table_entries
    rw [countP_range_flip
      (fun j => (xrwl_hwpriv_to_vifpriv (remove_unlink env hwA i privA).2 j).isSome)
      (fun j => (xrwl_hwpriv_to_vifpriv hw j).isSome) cfg.XRWL_MAX_VIFS i (by omega)]
    · push_cast
      omega
    · intro j hj
      show _ = _
      rw [hother j hj]
    · show _ = _
      rw [hself]
      rfl
    · show _ = _
      rw [hpriv]
      rfl
  · rw [u6, a5]
    simp only []
    omega

/-- The call `xradio_add_interface` leaves the table of configured addresses
alone. -/
theorem add_interface_addresses (cfg : Config) (env : Env) (hw : xradio_common)
    (priv : xradio_vif) :
    (xradio_add_interface cfg env hw priv).2.2.addresses = hw.addresses := by
  have hv : ∀ (h : xradio_common) (q : xradio_vif),
      (xradio_vif_setup cfg env h q).2.2.addresses = h.addresses := by
    intro h q
    unfold xradio_vif_setup xradio_set_uapsd_param wsm_cmd
    simp only []
    split_ifs <;> simp
  have hm : ∀ (h : xradio_common) (q : xradio_vif),
      (xradio_setup_mac_pvif cfg env h q).2.2.addresses = h.addresses := by
    intro h q
    unfold xradio_setup_mac_pvif wsm_cmd
    simp only []
  cases hs : add_slot cfg hw priv with
  | none =>
    rw [add_interface_unregistered cfg env hw priv hs]
  | some k =>
    obtain ⟨hready, hroom, hslot⟩ := add_slot_some cfg hw priv k hs
    rw [add_interface_form cfg env hw priv k hready hroom hslot]
    simp only [set_vif]
    rw [hm, hv]

/-- The slot found by the address search without `P2P_MULTIVIF` is below
`XRWL_MAX_VIFS` and its configured address is the one searched for. -/
theorem match_address_some (cfg : Config) (hw : xradio_common) (addr : List Nat) (k : Nat)
    (h : match_address cfg hw addr = some k) :
    k < cfg.XRWL_MAX_VIFS ∧
    bytes_at addr 0 ETH_ALEN = bytes_at (hw.addresses.getD k []) 0 ETH_ALEN := by
  unfold match_address at h
  constructor
  · exact List.mem_range.mp (List.mem_of_find?_eq_some h)
  · have := List.find?_some h
    simpa using this

/-- The address search depends on the table of configured addresses only. -/
theorem match_address_congr (cfg : Config) (hw hw1 : xradio_common) (addr : List Nat)
    (h : hw1.addresses = hw.addresses) :
    match_address cfg hw1 addr = match_address cfg hw addr := by
  unfold match_address
  rw [h]

/-- Under `P2P_MULTIVIF`, for a configured address the slot chosen is below 3
and depends on the address and the table only. -/
theorem match_address_multivif_configured (hw hw1 : xradio_common) (p q : xradio_vif)
    (hc : address_configured hw p.vif_addr = true)
    (ht : hw1.addresses = hw.addresses)
    (ha : bytes_at q.vif_addr 0 ETH_ALEN = bytes_at p.vif_addr 0 ETH_ALEN) :
    match_address_multivif hw p < 3 ∧
    match_address_multivif hw1 q = match_address_multivif hw p := by
  have hr : List.range 3 = [0, 1, 2] := by decide
  simp only [address_configured, hr, List.any_cons, List.any_nil, Bool.or_false,
    Bool.or_eq_true, beq_iff_eq] at hc
  simp only [match_address_multivif, ht, ha, beq_iff_eq]
  generalize bytes_at p.vif_addr 0 ETH_ALEN = a at *
  generalize bytes_at (hw.addresses.getD 0 []) 0 ETH_ALEN = t0 at *
  generalize bytes_at (hw.addresses.getD 1 []) 0 ETH_ALEN = t1 at *
  generalize bytes_at (hw.addresses.getD 2 []) 0 ETH_ALEN = t2 at *
  by_cases h0 : a = t0 <;> by_cases h1 : a = t1 <;> by_cases h2 : a = t2 <;> simp_all

/-- Under `P2P_MULTIVIF`, two configured addresses that are given the same
slot are the same address. -/
theorem match_address_multivif_inj (hw : xradio_common) (p q : xradio_vif)
    (hp : address_configured hw p.vif_addr = true)
    (hq : address_configured hw q.vif_addr = true)
    (h : match_address_multivif hw p = match_address_multivif hw q) :
    bytes_at p.vif_addr 0 ETH_ALEN = bytes_at q.vif_addr 0 ETH_ALEN := by
  have hr : List.range 3 = [0, 1, 2] := by decide
  simp only [address_configured, hr, List.any_cons, List.any_nil, Bool.or_false,
    Bool.or_eq_true, beq_iff_eq] at hp hq
  simp only [match_address_multivif, beq_iff_eq] at h
  generalize bytes_at p.vif_addr 0 ETH_ALEN = a at *
  generalize bytes_at q.vif_addr 0 ETH_ALEN = b at *
  generalize bytes_at (hw.addresses.getD 0 []) 0 ETH_ALEN = t0 at *
  generalize bytes_at (hw.addresses.getD 1 []) 0 ETH_ALEN = t1 at *
  generalize bytes_at (hw.addresses.getD 2 []) 0 ETH_ALEN = t2 at *
  by_cases p0 : a = t0 <;> by_cases p1 : a = t1 <;> by_cases p2 : a = t2 <;>
  by_cases q0 : b = t0 <;> by_cases q1 : b = t1 <;> by_cases q2 : b = t2 <;>
  simp_all

/-- An interface registered in the table makes its address one in use. -/
theorem address_in_use_of_lookup (hw : xradio_common) (k : Nat) (p : xradio_vif)
    (addr : List Nat)
    (hp : xrwl_hwpriv_to_vifpriv hw k = some p)
    (ha : bytes_at p.vif_addr 0 ETH_ALEN = bytes_at addr 0 ETH_ALEN) :
    address_in_use hw addr = true := by
  have hget := lookup_get hw k p hp
  unfold address_in_use
  rw [List.any_eq_true]
  refine ⟨some p, ?_, ?_⟩
  · rw [List.mem_iff_getElem?]
    exact ⟨k, hget⟩
  · simp [ha]

/-- The test for a configured address depends on the table of configured
addresses only. -/
theorem address_configured_congr (hw hw1 : xradio_common) (addr : List Nat)
    (h : hw1.addresses = hw.addresses) :
    address_configured hw1 addr = address_configured hw addr := by
  unfold address_configured
  rw [h]

/-- The slot order of the registered interfaces carries over to a device with
the same table of configured addresses and the same interfaces. -/
theorem registry_addresses_entry (cfg : Config) (hw hw1 : xradio_common) (j : Nat)
    (p : xradio_vif) (hA : registry_addresses_ok cfg hw)
    (haddr : hw1.addresses = hw.addresses)
    (hp : xrwl_hwpriv_to_vifpriv hw j = some p) :
    (cfg.P2P_MULTIVIF = false → match_address cfg hw1 p.vif_addr = some j) ∧
    (cfg.P2P_MULTIVIF = true →
      address_configured hw1 p.vif_addr = true ∧ match_address_multivif hw1 p = j) := by
  obtain ⟨h1, h2⟩ := hA j p hp
  constructor
  · intro hm
    rw [match_address_congr cfg hw hw1 _ haddr]
    exact h1 hm
  · intro hm
    obtain ⟨hc, hk⟩ := h2 hm
    rw [address_configured_congr hw hw1 _ haddr]
    refine ⟨hc, ?_⟩
    rw [(match_address_multivif_configured hw hw1 p p hc haddr rfl).2]
    exact hk

/-- A call of `xradio_add_interface` for an address that no registered
interface carries (and that is configured, under `P2P_MULTIVIF`) keeps the
registry consistent: the slot it chooses is below `XRWL_MAX_VIFS` and
empty. -/
theorem add_interface_distinct_ok (cfg : Config) (env : Env) (hw : xradio_common)
    (priv : xradio_vif)
    (hmax : cfg.P2P_MULTIVIF = true → 3 ≤ cfg.XRWL_MAX_VIFS)
    (hok : registry_ok cfg hw) (hA : registry_addresses_ok cfg hw)
    (huse : address_in_use hw priv.vif_addr = false)
    (hconf : cfg.P2P_MULTIVIF = true → address_configured hw priv.vif_addr = true) :
    registry_ok cfg (xradio_add_interface cfg env hw priv).2.2 ∧
    registry_addresses_ok cfg (xradio_add_interface cfg env hw priv).2.2 := by
  have haddr := add_interface_addresses cfg env hw priv
  cases hs : add_slot cfg hw priv with
  | none =>
    rw [add_interface_unregistered cfg env hw priv hs]
    exact ⟨hok, hA⟩
  | some k =>
    obtain ⟨hready, hroom, hslot⟩ := add_slot_some cfg hw priv k hs
    have hfree : ∀ p, xrwl_hwpriv_to_vifpriv hw k = some p →
        bytes_at p.vif_addr 0 ETH_ALEN = bytes_at priv.vif_addr 0 ETH_ALEN → False := by
      intro p hp hb
      rw [address_in_use_of_lookup hw k p priv.vif_addr hp hb] at huse
      exact absurd huse (by simp)
    have hkey : k < cfg.XRWL_MAX_VIFS ∧ xrwl_hwpriv_to_vifpriv hw k = none ∧
        (cfg.P2P_MULTIVIF = false → match_address cfg hw priv.vif_addr = some k) ∧
        (cfg.P2P_MULTIVIF = true → match_address_multivif hw
          { priv with enabled := 0, mode := priv.vif_type } = k) := by
      by_cases hm : cfg.P2P_MULTIVIF = true
      · simp only [hm, if_true, Option.some.injEq] at hslot
        have hc : address_configured hw
            ({ priv with enabled := 0, mode := priv.vif_type } : xradio_vif).vif_addr = true :=
          hconf hm
        have hlt := (match_address_multivif_configured hw hw
          { priv with enabled := 0, mode := priv.vif_type }
          { priv with enabled := 0, mode := priv.vif_type } hc rfl rfl).1
        rw [hslot] at hlt
        have h3 := hmax hm
        refine ⟨by omega, ?_, fun h => absurd hm (by simp [h]), fun _ => hslot⟩
        cases hl : xrwl_hwpriv_to_vifpriv hw k with
        | none => rfl
        | some p =>
          exfalso
          obtain ⟨hcp, hkp⟩ := (hA k p hl).2 hm
          have hb := match_address_multivif_inj hw p
            { priv with enabled := 0, mode := priv.vif_type } hcp hc (by rw [hkp, hslot])
          exact hfree p hl hb
      · have hm0 : cfg.P2P_MULTIVIF = false := by simpa using hm
        simp only [hm0, Bool.false_eq_true, if_false] at hslot
        obtain ⟨hlt, hb⟩ := match_address_some cfg hw priv.vif_addr k hslot
        refine ⟨hlt, ?_, fun _ => hslot, fun h => absurd h hm⟩
        cases hl : xrwl_hwpriv_to_vifpriv hw k with
        | none => rfl
        | some p =>
          exfalso
          have hp := (hA k p hl).1 hm0
          have hb2 := (match_address_some cfg hw p.vif_addr k hp).2
          exact hfree p hl (hb2.trans hb.symm)
    obtain ⟨hklt, hnone, hsingle, hmulti⟩ := hkey
    have hok1 := add_interface_registry_ok cfg env hw priv hok (by
      intro k1 hk1
      rw [hs] at hk1
      cases hk1
      exact ⟨hklt, hnone⟩)
    refine ⟨hok1, ?_⟩
    have hlen : k < hw.vif_list.length := by rw [hok.1]; exact hklt
    obtain ⟨_, _, r3, _, r5, r6⟩ := add_interface_registered cfg env hw priv k hready hroom
      hslot hlen
    intro j p hp
    by_cases hj : j = k
    · subst hj
      rw [r3] at hp
      cases hp
      constructor
      · intro hm
        rw [match_address_congr cfg hw _ _ haddr, r5]
        exact hsingle hm
      · intro hm
        have hc : address_configured hw
            ({ priv with enabled := 0, mode := priv.vif_type } : xradio_vif).vif_addr = true :=
          hconf hm
        rw [address_configured_congr hw _ _ haddr, r5]
        refine ⟨hconf hm, ?_⟩
        rw [(match_address_multivif_configured hw _
          { priv with enabled := 0, mode := priv.vif_type } _ hc haddr (by rw [r5])).2]
        exact hmulti hm
    · rw [r6 j hj] at hp
      exact registry_addresses_entry cfg hw _ j p hA haddr hp

/-- The removal of a registered interface keeps the registry consistent, and
the call returns. -/
theorem remove_interface_distinct_ok (cfg : Config) (env : Env) (hw : xradio_common)
    (i : Nat) (hok : registry_ok cfg hw) (hA : registry_addresses_ok cfg hw)
    (hsome : (xrwl_hwpriv_to_vifpriv hw i).isSome = true) :
    ∃ r, xradio_remove_interface cfg env hw i = some r ∧ registry_ok cfg r.2 ∧
      registry_addresses_ok cfg r.2 := by
  obtain ⟨r, hr, hok1, haddr, hother, hself⟩ :=
    remove_interface_registry_ok cfg env hw i hok hsome
  refine ⟨r, hr, hok1, ?_⟩
  intro j p hp
  by_cases hj : j = i
  · subst hj
    rw [hself] at hp
    exact absurd hp (by simp)
  · rw [hother j hj] at hp
    exact registry_addresses_entry cfg hw r.2 j p hA haddr hp

/-- A sequence of calls made with distinct addresses on a consistent registry
runs to the end and leaves a consistent registry. -/
theorem run_ops_registry_ok (cfg : Config) (env : Env)
    (hmax : cfg.P2P_MULTIVIF = true → 3 ≤ cfg.XRWL_MAX_VIFS) (ops : List vif_op) :
    ∀ hw : xradio_common, registry_ok cfg hw → registry_addresses_ok cfg hw →
      ops_distinct cfg env ops hw = true →
      ∃ hw1, run_ops cfg env ops hw = some hw1 ∧ registry_ok cfg hw1 := by
  induction ops with
  | nil =>
    intro hw hok _ _
    exact ⟨hw, rfl, hok⟩
  | cons op rest ih =>
    intro hw hok hA hd
    cases op with
    | add priv =>
      simp only [ops_distinct, Bool.and_eq_true, Bool.not_eq_true', Bool.or_eq_true] at hd
      obtain ⟨⟨huse, hconf⟩, hrest⟩ := hd
      have hstep := add_interface_distinct_ok cfg env hw priv hmax hok hA huse (by
        intro hm
        rcases hconf with h | h
        · rw [hm] at h
          exact absurd h (by simp)
        · exact h)
      simp only [run_ops]
      exact ih _ hstep.1 hstep.2 hrest
    | remove i =>
      simp only [ops_distinct, Bool.and_eq_true] at hd
      obtain ⟨hsome, hrest⟩ := hd
      obtain ⟨r, hr, hok1, hA1⟩ := remove_interface_distinct_ok cfg env hw i hok hA hsome
      rw [hr] at hrest
      simp only [run_ops, hr]
      exact ih _ hok1 hA1 hrest

/-- C21 (as stated, evaluation): on the example device with no interface,
`xradio_add_interface` is called for a station interface with the first
configured address and then for a P2P device interface that was given the
same address (the address is in use when the second call is made).  Both
calls return 0 and both interfaces record slot 0: the counter is 2 while the
slot bitmap has one bit set and the table one non-empty entry. -/
theorem registry_same_address_shares_slot :
    (xradio_add_interface cfgX envOk hwEmpty vifFirst).1 = 0 ∧
    (xradio_add_interface cfgX envOk
      (xradio_add_interface cfgX envOk hwEmpty vifFirst).2.2 vifSameAddr).1 = 0 ∧
    (xradio_add_interface cfgX envOk hwEmpty vifFirst).2.1.if_id = 0 ∧
    (xradio_add_interface cfgX envOk
      (xradio_add_interface cfgX envOk hwEmpty vifFirst).2.2 vifSameAddr).2.1.if_id = 0 ∧
    ∃ hw1, run_ops cfgX envOk [vif_op.add vifFirst, vif_op.add vifSameAddr] hwEmpty = some hw1 ∧
      hw1.num_vifs = 2 ∧ hw1.if_id_slot = 1 ∧ slot_bits cfgX hw1 = 1 ∧
      table_entries cfgX hw1 = 1 ∧
      address_in_use (xradio_add_interface cfgX envOk hwEmpty vifFirst).2.2
        vifSameAddr.vif_addr = true :=
  ⟨rfl, rfl, rfl, rfl, _, rfl, rfl, rfl, rfl, rfl, rfl⟩

/-- C21 (amended): starting from a device with an empty interface table
of `XRWL_MAX_VIFS` entries, counter 0, slot bitmap 0 and the scan gate free,
every sequence of `xradio_add_interface` and `xradio_remove_interface` calls
in which each added interface carries a hardware address different from the
address of every interface registered at that time (and, in a `P2P_MULTIVIF`
build, where `XRWL_MAX_VIFS` is at least 3, equal to one of the three
configured addresses) and each remove names a registered interface runs to
the end, and afterwards the active-interface counter equals the number of
bits set in the slot bitmap and the number of non-empty table entries, every
set bit and every registered interface has a slot below `XRWL_MAX_VIFS`, the
interface in entry `k` records slot `k`, and no two registered interfaces
record the same slot. -/
theorem registry_counts_agree (cfg : Config) (env : Env) (hw : xradio_common)
    (ops : List vif_op)
    (hmax : cfg.P2P_MULTIVIF = true → 3 ≤ cfg.XRWL_MAX_VIFS)
    (hlist : hw.vif_list = List.replicate cfg.XRWL_MAX_VIFS none)
    (hnum : hw.num_vifs = 0) (hslot : hw.if_id_slot = 0) (hgate : hw.scan_lock ≠ 0)
    (hdistinct : ops_distinct cfg env ops hw = true) :
    ∃ hw1, run_ops cfg env ops hw = some hw1 ∧
      hw1.num_vifs = ((slot_bits cfg hw1 : Nat) : Int) ∧
      hw1.num_vifs = ((table_entries cfg hw1 : Nat) : Int) ∧
      (∀ k, hw1.if_id_slot.testBit k = true → k < cfg.XRWL_MAX_VIFS) ∧
      (∀ k p, xrwl_hwpriv_to_vifpriv hw1 k = some p → p.if_id = k ∧ k < cfg.XRWL_MAX_VIFS) ∧
      (∀ j k p q, xrwl_hwpriv_to_vifpriv hw1 j = some p →
        xrwl_hwpriv_to_vifpriv hw1 k = some q → p.if_id = q.if_id → j = k) := by
  have hok0 := registry_ok_empty cfg hw hlist hnum hslot hgate
  have hA0 : registry_addresses_ok cfg hw := by
    intro k p hp
    have hbit := hok0.2.2.1 k
    rw [hslot, hp] at hbit
    simp at hbit
  obtain ⟨hw1, hrun, o1, o2, o3, o4, _⟩ := run_ops_registry_ok cfg env hmax ops hw hok0 hA0
    hdistinct
  have hbound : ∀ k p, xrwl_hwpriv_to_vifpriv hw1 k = some p → k < cfg.XRWL_MAX_VIFS := by
    intro k p hp
    rw [← o1]
    exact lookup_lt hw1 k p hp
  refine ⟨hw1, hrun, ?_, o4, ?_, ?_, ?_⟩
  · rw [o4]
    unfold slot_bits table_entries
    congr 1
    apply List.countP_congr
    intro k _
    rw [o3 k]
  · intro k hk
    rw [o3 k] at hk
    obtain ⟨p, hp⟩ := Option.isSome_iff_exists.mp hk
    exact hbound k p hp
  · intro k p hp
    exact ⟨o2 k p hp, hbound k p hp⟩
  · intro j k p q hp hq hpq
    rw [← o2 j p hp, ← o2 k q hq]
    exact hpq

/-- Witness of C21 (amended).  Built without `P2P_MULTIVIF`: the first and the
third configured address are registered on the empty example device, the
first interface is removed and its address is registered again for a P2P
device interface.  Built with `P2P_MULTIVIF`: the first and the third
configured address are registered. -/
theorem registry_counts_agree_witness :
    (ops_distinct cfgX envOk [vif_op.add vifFirst, vif_op.add vifThird, vif_op.remove 0,
      vif_op.add vifSameAddr] hwEmpty = true ∧
    ∃ hw1, run_ops cfgX envOk [vif_op.add vifFirst, vif_op.add vifThird, vif_op.remove 0,
        vif_op.add vifSameAddr] hwEmpty = some hw1 ∧
      hw1.num_vifs = ((slot_bits cfgX hw1 : Nat) : Int) ∧
      hw1.num_vifs = ((table_entries cfgX hw1 : Nat) : Int) ∧
      (∀ k, hw1.if_id_slot.testBit k = true → k < cfgX.XRWL_MAX_VIFS) ∧
      (∀ k p, xrwl_hwpriv_to_vifpriv hw1 k = some p → p.if_id = k ∧ k < cfgX.XRWL_MAX_VIFS) ∧
      (∀ j k p q, xrwl_hwpriv_to_vifpriv hw1 j = some p →
        xrwl_hwpriv_to_vifpriv hw1 k = some q → p.if_id = q.if_id → j = k)) ∧
    (ops_distinct cfgMulti envOk [vif_op.add vifFirst, vif_op.add vifThird] hwEmpty = true ∧
    ∃ hw1, run_ops cfgMulti envOk [vif_op.add vifFirst, vif_op.add vifThird] hwEmpty =
        some hw1 ∧
      hw1.num_vifs = ((slot_bits cfgMulti hw1 : Nat) : Int) ∧
      hw1.num_vifs = ((table_entries cfgMulti hw1 : Nat) : Int) ∧
      (∀ k, hw1.if_id_slot.testBit k = true → k < cfgMulti.XRWL_MAX_VIFS) ∧
      (∀ k p, xrwl_hwpriv_to_vifpriv hw1 k = some p →
        p.if_id = k ∧ k < cfgMulti.XRWL_MAX_VIFS) ∧
      (∀ j k p q, xrwl_hwpriv_to_vifpriv hw1 j = some p →
        xrwl_hwpriv_to_vifpriv hw1 k = some q → p.if_id = q.if_id → j = k)) :=
  ⟨⟨rfl, registry_counts_agree cfgX envOk hwEmpty [vif_op.add vifFirst, vif_op.add vifThird,
      vif_op.remove 0, vif_op.add vifSameAddr] (fun h => absurd h (by decide)) rfl rfl rfl
      (by decide) rfl⟩,
   ⟨rfl, registry_counts_agree cfgMulti envOk hwEmpty [vif_op.add vifFirst,
      vif_op.add vifThird] (fun _ => by decide) rfl rfl rfl (by decide) rfl⟩⟩

end Sta
